import Mathlib

/-!
# Nokia Galileo2 sensor driver: timing, clocks, PLL, shutter and streaming

A shallow embedding of `drivers/media/video/galileo2.c`.  Every C function that the
development talks about is transcribed as a Lean function of the same name acting on a
record that mirrors `struct galileo2`.

Conventions of the embedding

* The driver is built for the Parrot7 ARM SoC (`arch/arm/mach-parrot7`), a 32-bit
  target: `unsigned long` and `long` are 32 bits wide, like `u32` and `int`.
* Unsigned machine integers are natural numbers; every C operation that can leave the
  range of its type is followed by an explicit reduction (`u32`, `u64`, `ulong`).
* Signed machine integers are integers; conversions between signed and unsigned are
  the two's complement ones (`ofS32`, `toS32`, `toU64`, `wrapLong`).  The kernel is
  compiled with `-fno-strict-overflow`, so signed arithmetic wraps as well.
* A division whose divisor is read from the driver state returns `none` when the
  divisor is zero (`cdiv`, `div_u64`); functions containing such a division return an
  `Option`.  Divisions by the constant divider tables are ordinary divisions.
* Register access goes through `i2c_transfer`: every call is appended to the member
  `i2c_sensor` of the state, and the device behind the bus (the result of each call,
  the bytes it returns) is a parameter `bus` of the functions that access registers.
-/

namespace Galileo2

/-! ## Machine integers -/

/-- Reduction of a natural number to the range of `u32` / `unsigned int`. -/
def u32 (n : Nat) : Nat := n % 2 ^ 32

/-- Reduction of a natural number to the range of `u64`. -/
def u64 (n : Nat) : Nat := n % 2 ^ 64

/-- Width of `long` and `unsigned long` on the 32-bit ARM target. -/
def BITS_PER_LONG : Nat := 32

/-- Reduction of a natural number to the range of `unsigned long`. -/
def ulong (n : Nat) : Nat := n % 2 ^ BITS_PER_LONG

/-- Conversion of a signed 32-bit value to `u32` (two's complement). -/
def ofS32 (i : Int) : Nat := (i % 2 ^ 32).toNat

/-- Conversion of a signed 32-bit value to `u64` (sign extension). -/
def toU64 (i : Int) : Nat := (i % 2 ^ 64).toNat

/-- Conversion of a `u32` bit pattern to the signed 32-bit value it stores. -/
def toS32 (n : Nat) : Int :=
  if n % 2 ^ 32 < 2 ^ 31 then ((n % 2 ^ 32 : Nat) : Int) else ((n % 2 ^ 32 : Nat) : Int) - 2 ^ 32

/-- The `long` that holds a mathematical integer after wrapping to 32 bits. -/
def wrapLong (i : Int) : Int := (i + 2 ^ 31) % 2 ^ 32 - 2 ^ 31

/-- C division of unsigned operands; `none` stands for a division by zero. -/
def cdiv (a b : Nat) : Option Nat := if b = 0 then none else some (a / b)

/-- The kernel helper `div_u64 (u64 dividend, u32 divisor)`: both arguments are
converted to the parameter types before the division. -/
def div_u64 (dividend divisor : Nat) : Option Nat := cdiv (u64 dividend) (u32 divisor)

/-- The spec's `clamp (v, lo, hi)`. -/
def clamp (v lo hi : Nat) : Nat := max lo (min v hi)

/-! ## Constants of the driver -/

/-- The errno value `EINVAL`; the driver returns `-EINVAL`. -/
def EINVAL : Int := 22

/-- Size of the pixel array (`SENSOR_WIDTH`, `SENSOR_HEIGHT`). -/
def SENSOR_WIDTH : Nat := 7728
def SENSOR_HEIGHT : Nat := 5368

/-- The fixed clock ranges of the driver, in Hz (lines 38-59). -/
def MIN_VTCLK : Nat := 20000000
def MAX_VTCLK : Nat := 256000000
def MIN_MIPICLK : Nat := 82500000
def MAX_MIPICLK : Nat := 1000000000
def MIN_REFCLK : Nat := 6000000
def MAX_REFCLK : Nat := 27000000
def MIN_PLL_IN_CLK : Nat := 3000000
def MAX_PLL_IN_CLK : Nat := 27000000
def MIN_PLL_OP_CLK : Nat := 1000000000
def MAX_PLL_OP_CLK : Nat := 2080000000
def MIN_VT_SYS_CLK : Nat := 83330000
def MAX_VT_SYS_CLK : Nat := 2080000000

/-- Media bus pixel codes of `include/linux/v4l2-mediabus.h` used by the driver. -/
def V4L2_MBUS_FMT_SBGGR10_1X10 : Nat := 0x3007
def V4L2_MBUS_FMT_SGBRG10_1X10 : Nat := 0x300e
def V4L2_MBUS_FMT_SGRBG10_1X10 : Nat := 0x300a
def V4L2_MBUS_FMT_SRGGB10_1X10 : Nat := 0x300f

/-! ## Data model -/

/-- The `struct v4l2_rect` of this kernel generation (the tree still has
`drivers/media/video` and `media/v4l2-chip-ident.h`, which predate the change of
`width` and `height` to `__u32`): four `__s32` members. -/
structure v4l2_rect where
  left : Int
  top : Int
  width : Int
  height : Int
  deriving DecidableEq

/-- The `struct v4l2_fract`: two `__u32` members. -/
structure v4l2_fract where
  numerator : Nat
  denominator : Nat
  deriving DecidableEq

/-- The members of `struct v4l2_mbus_framefmt` read by the driver (all `__u32`). -/
structure v4l2_mbus_framefmt where
  width : Nat
  height : Nat
  code : Nat
  deriving DecidableEq

/-- Platform data: `unsigned long refclk` and `unsigned int lanes`. -/
structure galileo2_platform_data where
  refclk : Nat
  lanes : Nat
  deriving DecidableEq

/-- The anonymous `pll1` member of `struct galileo2`. -/
structure pll1_config where
  pre_pll_clk_div : Nat
  pll_multiplier : Nat
  vt_sys_clk_div : Nat
  vt_pix_clk_div : Nat
  op_sys_clk_div : Nat
  op_pix_clk_div : Nat
  deriving DecidableEq

/-- The anonymous `pll0` member of `struct galileo2`. -/
structure pll0_config where
  pre_pll_clk_div : Nat
  pll_multiplier : Nat
  deriving DecidableEq

/-- The members of `struct v4l2_ctrl` the driver uses: the new value `val` and the
current value `cur.val`, both `s32`. -/
structure v4l2_ctrl where
  val : Int
  cur_val : Int
  deriving DecidableEq

/-- The register macros of `galileo2_reg.h` the driver uses.  The header is not among
the sources at hand, so the registers are kept by name. -/
inductive reg_name where
  | PRE_PLL_CLK_DIV | PLL_MULTIPLIER | VT_SYS_CLK_DIV | VT_PIX_CLK_DIV
  | OP_SYS_CLK_DIV | OP_PIX_CLK_DIV
  | EXTCLK_FRQ_MHZ | GLOBAL_RESET_MODE_CONFIG1 | DPHY_CTRL
  | REQUESTED_LINK_BIT_RATE_MBPS_31_24 | REQUESTED_LINK_BIT_RATE_MBPS_23_16
  | REQUESTED_LINK_BIT_RATE_MBPS_15_8 | REQUESTED_LINK_BIT_RATE_MBPS_7_0
  | IMAGE_ORIENTATION
  | TRDY_CTRL | TSHUTTER_STROBE_DELAY_CTRL | TRDOUT_CTRL | TSHUTTER_STROBE_WIDTH_CTRL
  | TGRST_INTERVAL_CTRL | GLOBAL_RESET_CTRL1
  | COARSE_INTEGRATION_TIME | ANALOG_GAIN_CODE_GLOBAL
  | FLASH_TRIGGER_RS | FLASH_MODE_RS
  | TFLASH_STROBE_WIDTH_HIGH_CTRL | TFLASH_STROBE_WIDTH_HIGH_RS_CTRL
  | CSI_SIGNALING_MODE | CSI_DATA_FORMAT_SOURCE | CSI_DATA_FORMAT_DESTINATION | CSI_LANE_MODE
  | X_OUTPUT_SIZE | Y_OUTPUT_SIZE | SCALING_MODE | SPATIAL_SAMPLING | OUTPUT_IMAGE_WIDTH
  | VT_LINE_LENGTH_PCK | VT_FRAME_LENGTH_LINES
  | X_ADDR_START | Y_ADDR_START | X_ADDR_END | Y_ADDR_END
  | DIGITAL_CROP_X_OFFSET | DIGITAL_CROP_Y_OFFSET
  | DIGITAL_CROP_IMAGE_WIDTH | DIGITAL_CROP_IMAGE_HEIGHT
  | BINNING_MODE | BINNING_TYPE
  | SINGLE_DEFECT_CORRECT_ENABLE | COMBINED_COUPLET_SINGLE_DEFECT_CORRECT_ENABLE
  | MODE_SELECT | GROUPED_PARAMETER_HOLD
  deriving DecidableEq

/-- The `u16 reg` argument of the access helpers: a register macro, a register given by
its address (the table of `galileo2_raytrix_config`), or a macro plus an offset. -/
inductive sensor_reg where
  | name (r : reg_name)
  | addr (a : Nat)
  | plus (r : reg_name) (n : Nat)
  deriving DecidableEq

/-- The bit fields of `union global_reset_mode_config1`, as named by the initialisers
in `galileo2_init` and `galileo2_apply_ms`. -/
structure global_reset_mode_config1 where
  vf_to_glbrst : Nat
  glbrst_to_vf : Nat
  readout_start : Nat
  long_exposure_mode : Nat
  continous_global_reset_mode : Nat
  flash_strobe : Nat
  sstrobe_muxing : Nat
  sastrobe_muxing : Nat
  deriving DecidableEq

/-- The bit fields of `union image_orientation` the driver names, and the remaining
bits of the register. -/
structure image_orientation where
  h_mirror : Int
  v_mirror : Int
  others : Nat
  deriving DecidableEq

/-- What is passed as the `u8 val` of `galileo2_write8`: a number, or the `_register`
view of one of the two bit-field unions (their bit layout is in `galileo2_reg.h`). -/
inductive reg_val where
  | num (n : Nat)
  | glbrst_cfg1 (c : global_reset_mode_config1)
  | orientation (o : image_orientation)
  deriving DecidableEq

/-- A call of `i2c_transfer` by one of the access helpers: `galileo2_write8`,
`galileo2_write16`, `galileo2_read8` on the sensor, and `galileo2_shutter_write8` on the
shutter driver at address `0xc`. -/
inductive i2c_msg where
  | write8 (reg : sensor_reg) (val : reg_val)
  | write16 (reg : sensor_reg) (val : Nat)
  | read8 (reg : sensor_reg)
  | shutter_write8 (reg : Nat) (val : Nat)
  deriving DecidableEq

/-- The part of `struct galileo2` that the embedded functions read and write.  Each
control pointer is represented by the control it points to; `nvm_ms` is the 16-bit word
`swab16 (*((u16 *)(nvm + nvm_addr->ms)))` of the NVM image; `i2c_sensor` holds the calls
of `i2c_transfer` made on the client so far, oldest first. -/
structure galileo2 where
  pdata : galileo2_platform_data
  format : v4l2_mbus_framefmt
  frame_interval : v4l2_fract
  streaming : Bool
  timings_uptodate : Bool
  crop : v4l2_rect
  video_timing : v4l2_rect
  x_binning : Nat
  y_binning : Nat
  bits_per_pixel : Nat
  pll1 : pll1_config
  pll0 : pll0_config
  vtclk : Nat
  mipiclk : Nat
  line_duration_ns : Nat
  trdy_ctrl : Nat
  nvm_ms : Nat
  i2c_sensor : List i2c_msg
  hflip : v4l2_ctrl
  vflip : v4l2_ctrl
  exposure : v4l2_ctrl
  focus : v4l2_ctrl
  gain : v4l2_ctrl
  nd : v4l2_ctrl
  ms : v4l2_ctrl
  gs : v4l2_ctrl
  strobe_source : v4l2_ctrl
  strobe_width : v4l2_ctrl
  deriving DecidableEq

/-- The defaults set by `galileo2_probe` (full-array crop and format, 30 frames per
second), for a board with the given reference clock and lane count, before its call of
`galileo2_update_timings`; members that the probe leaves zeroed are zero.  The controls
hold the default values of `galileo2_initialize_controls` (the focus default and the NVM
word come from the device and are taken as 0), and no bus traffic is recorded. -/
def probe_state (refclk lanes : Nat) : galileo2 where
  pdata := { refclk := refclk, lanes := lanes }
  format := { width := 7716, height := 5364, code := V4L2_MBUS_FMT_SGBRG10_1X10 }
  frame_interval := { numerator := 1, denominator := 30 }
  streaming := false
  timings_uptodate := false
  crop := { left := 4, top := 4, width := 7716, height := 5364 }
  video_timing := { left := 0, top := 0, width := 0, height := 0 }
  x_binning := 0
  y_binning := 0
  bits_per_pixel := 0
  pll1 := { pre_pll_clk_div := 0, pll_multiplier := 0, vt_sys_clk_div := 0,
            vt_pix_clk_div := 0, op_sys_clk_div := 0, op_pix_clk_div := 0 }
  pll0 := { pre_pll_clk_div := 0, pll_multiplier := 0 }
  vtclk := 0
  mipiclk := 0
  line_duration_ns := 0
  trdy_ctrl := 0
  nvm_ms := 0
  i2c_sensor := []
  hflip := { val := 0, cur_val := 0 }
  vflip := { val := 0, cur_val := 0 }
  exposure := { val := 20000, cur_val := 20000 }
  focus := { val := 0, cur_val := 0 }
  gain := { val := 260, cur_val := 260 }
  nd := { val := 0, cur_val := 0 }
  ms := { val := 0, cur_val := 0 }
  gs := { val := 0, cur_val := 0 }
  strobe_source := { val := 0, cur_val := 0 }
  strobe_width := { val := 100, cur_val := 100 }

/-! ## Video timing and binning (`galileo2_calc_vt`) -/

/-- Lines 373-377 of `galileo2_calc_vt`: the two binning factors.  The quotients are
unsigned divisions (`__s32` by `__u32`), capped from above with `min`. -/
def calc_binning (g : galileo2) : Option galileo2 := do
  let x ← cdiv (ofS32 g.crop.width) g.format.width
  let g := { g with x_binning := min x 2 }
  let y ← cdiv (ofS32 g.crop.height) g.format.height
  pure { g with y_binning := min y 8 }

/-- Lines 383-384 of `galileo2_calc_vt`: line length and frame length in binned
pixels, stored into the `__s32` members of `video_timing`. -/
def calc_vt_timing (g : galileo2) : Option galileo2 := do
  let w ← cdiv (ofS32 g.crop.width) g.x_binning
  let g := { g with video_timing := { g.video_timing with width := toS32 (u32 (w + 512)) } }
  let h ← cdiv (ofS32 g.crop.height) g.y_binning
  pure { g with video_timing := { g.video_timing with height := toS32 (u32 (h + 24)) } }

/-- The function `galileo2_calc_vt`: returns the C return value and the new state, or
`none` when a division by zero is executed. -/
def galileo2_calc_vt (g : galileo2) : Option (Int × galileo2) := do
  let g ← calc_binning g
  let g ← calc_vt_timing g
  pure (0, g)

/-! ## Clock targets (`galileo2_calc_clocks`) -/

/-- The four cases of the `switch (fmt->code)` that set `bits_per_pixel`. -/
def is_bayer10 (code : Nat) : Bool :=
  code == V4L2_MBUS_FMT_SBGGR10_1X10 || code == V4L2_MBUS_FMT_SGBRG10_1X10 ||
  code == V4L2_MBUS_FMT_SGRBG10_1X10 || code == V4L2_MBUS_FMT_SRGGB10_1X10

/-- The function `galileo2_calc_clocks`.  The `#if 0` blocks are not compiled. -/
def galileo2_calc_clocks (g : galileo2) : Option (Int × galileo2) := do
  let vt := g.video_timing
  let fi := g.frame_interval
  let q ← div_u64 (u64 (u64 (toU64 vt.width * toU64 vt.height) * fi.denominator)) fi.numerator
  let g := { g with vtclk := ulong q }
  if is_bayer10 g.format.code then
    let g := { g with bits_per_pixel := 10 }
    let mipiclk_numerator := u64 (u64 (u64 (g.vtclk * g.bits_per_pixel) * g.format.width) * g.x_binning)
    let mipiclk_denominator := u32 (u32 (ofS32 g.crop.width * g.pdata.lanes) * 2)
    let m ← div_u64 mipiclk_numerator mipiclk_denominator
    pure (0, { g with mipiclk := ulong m })
  else
    pure (-EINVAL, { g with vtclk := 0, mipiclk := 0 })

/-! ## PLL search (`galileo2_pll_brute_force`) -/

/-- The macro `IS_BETWEEN (_f, _min, _max)`. -/
def IS_BETWEEN (f lo hi : Nat) : Bool := decide (lo ≤ f) && decide (f ≤ hi)

/-- The divider tables of `galileo2_pll_brute_force`, in array order. -/
def pre_pll_div : List Nat := [1, 2, 4]
def vt_sys_div : List Nat := [1, 2, 4, 6, 8, 10, 12]
def vt_pix_div : List Nat := [4, 5, 6, 7, 8, 9, 10, 12]
def op_sys_div : List Nat := [2, 4, 12, 16, 20, 24]

/-- The values taken by the loop `for (m = 36 ; m <= 832 ; m++)`, in order. -/
def pll_multipliers : List Nat := List.range' 36 797

/-- The locals `ret`, `best_error`, `best_p`, `best_m`, `best_vts`, `best_vtp` and
`best_op` of `galileo2_pll_brute_force`. -/
structure pll_best where
  ret : Int
  best_error : Int
  best_p : Nat
  best_m : Nat
  best_vts : Nat
  best_vtp : Nat
  best_op : Nat
  deriving DecidableEq

/-- The initial values of the locals (lines 593-601). -/
def pll_best_init : pll_best :=
  { ret := -EINVAL, best_error := -1, best_p := 0, best_m := 0, best_vts := 0,
    best_vtp := 0, best_op := 0 }

/-- Lines 640-663: the error of a combination against the targets stored in the state
(`tvt` is `galileo2->vtclk`, `tmipi` is `galileo2->mipiclk`); `none` stands for the
`continue` of the `keep_fps == 1` branch.  The differences are `unsigned long`
subtractions stored into a `long`. -/
def pll_error (keep_fps : Int) (tvt tmipi vtclk mipiclk : Nat) : Option Int :=
  let vt_error := wrapLong ((vtclk : Int) - (tvt : Int))
  let mipi_error := wrapLong ((mipiclk : Int) - (tmipi : Int))
  if keep_fps = 1 then
    if vt_error < 0 then none
    else if mipi_error < 0 then none
    else some (wrapLong (mipi_error + vt_error))
  else
    let vt_error := if vt_error < 0 then wrapLong (-vt_error) else vt_error
    let mipi_error := if mipi_error < 0 then wrapLong (-mipi_error) else mipi_error
    some (wrapLong (mipi_error + vt_error))

/-- Lines 665-673: the combination replaces the best one when its error is not larger
or when no combination has been recorded yet. -/
def pll_update (b : pll_best) (error : Int) (p m vts vtp op : Nat) : pll_best :=
  if error ≤ b.best_error ∨ b.best_error < 0 then
    { ret := 0, best_error := error, best_p := p, best_m := m, best_vts := vts,
      best_vtp := vtp, best_op := op }
  else b

/-- Body of the innermost loop, over `op_sys_div` (lines 633-673). -/
def pll_op_body (keep_fps : Int) (tvt tmipi p m vts vtp pll_op_clk vtclk : Nat)
    (b : pll_best) (op : Nat) : pll_best :=
  let mipiclk := pll_op_clk / op / 2
  match pll_error keep_fps tvt tmipi vtclk mipiclk with
  | none => b
  | some error => pll_update b error p m vts vtp op

/-- Body of the loop over `vt_pix_div` (lines 625-674). -/
def pll_vtp_body (keep_fps : Int) (tvt tmipi p m vts pll_op_clk vt_sys_clk : Nat)
    (b : pll_best) (vtp : Nat) : pll_best :=
  let vtclk := vt_sys_clk / vtp
  if !IS_BETWEEN vtclk MIN_VTCLK MAX_VTCLK then b
  else op_sys_div.foldl (pll_op_body keep_fps tvt tmipi p m vts vtp pll_op_clk vtclk) b

/-- Body of the loop over `vt_sys_div` (lines 618-675). -/
def pll_vts_body (keep_fps : Int) (tvt tmipi p m pll_op_clk : Nat)
    (b : pll_best) (vts : Nat) : pll_best :=
  let vt_sys_clk := pll_op_clk / vts
  if !IS_BETWEEN vt_sys_clk MIN_VT_SYS_CLK MAX_VT_SYS_CLK then b
  else vt_pix_div.foldl (pll_vtp_body keep_fps tvt tmipi p m vts pll_op_clk vt_sys_clk) b

/-- Body of the loop over the multiplier (lines 611-676); the product is an
`unsigned long` multiplication. -/
def pll_m_body (keep_fps : Int) (tvt tmipi p pll_in_clk : Nat)
    (b : pll_best) (m : Nat) : pll_best :=
  let pll_op_clk := ulong (pll_in_clk * m)
  if !IS_BETWEEN pll_op_clk MIN_PLL_OP_CLK MAX_PLL_OP_CLK then b
  else vt_sys_div.foldl (pll_vts_body keep_fps tvt tmipi p m pll_op_clk) b

/-- Body of the outermost loop, over `pre_pll_div` (lines 605-677). -/
def pll_p_body (keep_fps : Int) (refclk tvt tmipi : Nat)
    (b : pll_best) (p : Nat) : pll_best :=
  let pll_in_clk := refclk / p
  if !IS_BETWEEN pll_in_clk MIN_PLL_IN_CLK MAX_PLL_IN_CLK then b
  else pll_multipliers.foldl (pll_m_body keep_fps tvt tmipi p pll_in_clk) b

/-- The five nested loops of `galileo2_pll_brute_force` (lines 604-678). -/
def pll_search (keep_fps : Int) (refclk tvt tmipi : Nat) : pll_best :=
  pre_pll_div.foldl (pll_p_body keep_fps refclk tvt tmipi) pll_best_init

/-- Lines 683-708: what a successful search writes into the driver state.  The clocks
are recomputed from the best combination with `unsigned long` arithmetic, the frame
interval and the line duration are refreshed, and `pll1` receives the best combination
before being overwritten with fixed values. -/
def pll_store (g : galileo2) (b : pll_best) : galileo2 :=
  let vt := g.video_timing
  let g := { g with vtclk := ulong (g.pdata.refclk * b.best_m) /
                               u32 (u32 (b.best_p * b.best_vts) * b.best_vtp) }
  let g := { g with mipiclk := ulong (g.pdata.refclk * b.best_m) /
                                 u32 (u32 (b.best_p * b.best_op) * 2) }
  let g := { g with frame_interval :=
                      { denominator := u32 g.vtclk, numerator := ofS32 (vt.width * vt.height) } }
  let g := { g with line_duration_ns := ulong (u64 (toU64 vt.width * 1000000000) / 100000000) }
  let g := { g with pll1 := { g.pll1 with pre_pll_clk_div := b.best_p, pll_multiplier := b.best_m,
                                           vt_sys_clk_div := b.best_vts, vt_pix_clk_div := b.best_vtp,
                                           op_sys_clk_div := b.best_op } }
  { g with pll1 := { pre_pll_clk_div := 1, pll_multiplier := 720, vt_sys_clk_div := 6,
                     vt_pix_clk_div := 12, op_sys_clk_div := 6, op_pix_clk_div := 6 } }

/-- The function `galileo2_pll_brute_force`: C return value and new state. -/
def galileo2_pll_brute_force (g : galileo2) (keep_fps : Int) : Int × galileo2 :=
  let b := pll_search keep_fps g.pdata.refclk g.vtclk g.mipiclk
  if b.ret ≠ 0 then (b.ret, g) else (0, pll_store g b)

/-! ## PLL configuration (`galileo2_calc_plls`) -/

/-- The locals `best_error`, `best_p` and `best_m` of `galileo2_calc_plls`. -/
structure pll0_best where
  best_error : Int
  best_p : Nat
  best_m : Nat
  deriving DecidableEq

/-- Body of the inner PLL0 loop (lines 767-782): the error is the distance of the PLL
output to 1 GHz, and only a strictly smaller error replaces the best one. -/
def pll0_m_body (p pll_in_clk : Nat) (b : pll0_best) (m : Nat) : pll0_best :=
  let pll_op_clk := ulong (pll_in_clk * m)
  let error := wrapLong (1000000000 - (pll_op_clk : Int))
  let error := if error < 0 then wrapLong (-error) else error
  if error < b.best_error ∨ b.best_error < 0 then
    { best_error := error, best_p := u32 (p + 2 ^ 32 - 1), best_m := m }
  else b

/-- Body of the outer PLL0 loop (lines 761-783). -/
def pll0_p_body (refclk : Nat) (b : pll0_best) (p : Nat) : pll0_best :=
  let pll_in_clk := refclk / p
  if !IS_BETWEEN pll_in_clk MIN_PLL_IN_CLK MAX_PLL_IN_CLK then b
  else pll_multipliers.foldl (pll0_m_body p pll_in_clk) b

/-- Lines 761-786: the PLL0 search and the store of its result. -/
def pll0_store (g : galileo2) : galileo2 :=
  let b := pre_pll_div.foldl (pll0_p_body g.pdata.refclk)
    { best_error := -1, best_p := 0, best_m := 0 }
  { g with pll0 := { pre_pll_clk_div := b.best_p, pll_multiplier := b.best_m } }

/-- The three range sanity checks at the head of `galileo2_calc_plls` (lines 725-741). -/
def calc_plls_sane (g : galileo2) : Bool :=
  IS_BETWEEN g.mipiclk MIN_MIPICLK MAX_MIPICLK && IS_BETWEEN g.vtclk MIN_VTCLK MAX_VTCLK &&
  IS_BETWEEN g.pdata.refclk MIN_REFCLK MAX_REFCLK

/-- The function `galileo2_calc_plls`, instrumented with the list of the `keep_fps`
arguments of the calls to `galileo2_pll_brute_force` it makes, in call order. -/
def galileo2_calc_plls_traced (g : galileo2) : Int × galileo2 × List Int :=
  if !IS_BETWEEN g.mipiclk MIN_MIPICLK MAX_MIPICLK then (-EINVAL, g, [])
  else if !IS_BETWEEN g.vtclk MIN_VTCLK MAX_VTCLK then (-EINVAL, g, [])
  else if !IS_BETWEEN g.pdata.refclk MIN_REFCLK MAX_REFCLK then (-EINVAL, g, [])
  else
    let r1 := galileo2_pll_brute_force g 1
    if r1.1 < 0 then
      let r0 := galileo2_pll_brute_force r1.2 0
      if r0.1 < 0 then (-EINVAL, r0.2, [1, 0])
      else (0, pll0_store r0.2, [1, 0])
    else (0, pll0_store r1.2, [1])

/-- The function `galileo2_calc_plls`: C return value and new state. -/
def galileo2_calc_plls (g : galileo2) : Int × galileo2 :=
  let r := galileo2_calc_plls_traced g
  (r.1, r.2.1)

/-! ## Timing update (`galileo2_update_timings`) -/

/-- The function `galileo2_update_timings`.  The call of `galileo2_calc_plls` is under
`#if 0`; the `#else` branch sets the line duration and a fixed `pll1` configuration. -/
def galileo2_update_timings (g : galileo2) : Option (Int × galileo2) :=
  match galileo2_calc_vt g with
  | none => none
  | some (ret, g) =>
    if ret < 0 then some (ret, g)
    else
      match galileo2_calc_clocks g with
      | none => none
      | some (ret, g) =>
        if ret < 0 then some (ret, g)
        else
          let vt := g.video_timing
          let g := { g with line_duration_ns :=
                              ulong (u64 (toU64 vt.width * 1000000000) / 100000000) }
          let g := { g with pll1 := { pre_pll_clk_div := 1, pll_multiplier := 720,
                                      vt_sys_clk_div := 6, vt_pix_clk_div := 12,
                                      op_sys_clk_div := 6, op_pix_clk_div := 6 } }
          some (0, { g with timings_uptodate := true })

/-! ## Register access (`galileo2_write8`, `galileo2_write16`, `galileo2_read8`) -/

/-- Reduction of a natural number to the range of `u8`. -/
def u8 (n : Nat) : Nat := n % 2 ^ 8

/-- Reduction of a natural number to the range of `u16`. -/
def u16 (n : Nat) : Nat := n % 2 ^ 16

/-- Conversion of an `int` to `u16`: the low 16 bits of the value.  Wrapping the value
to the 32 bits of an `int` first does not change them. -/
def toU16 (i : Int) : Nat := (i % 2 ^ 16).toNat

/-- The `int` that holds a mathematical integer after wrapping to 32 bits. -/
def wrapInt (i : Int) : Int := (i + 2 ^ 31) % 2 ^ 32 - 2 ^ 31

/-- The device behind the I2C bus.  `transfer log msg` is the value `i2c_transfer`
returns for the call `msg` made after the calls `log` (negative on error);
`orientation log` and `glbrst_cfg1 log` are the contents of the registers
`IMAGE_ORIENTATION` and `GLOBAL_RESET_MODE_CONFIG1` that a successful read made after
`log` delivers. -/
structure i2c_bus where
  transfer : List i2c_msg → i2c_msg → Int
  orientation : List i2c_msg → image_orientation
  glbrst_cfg1 : List i2c_msg → global_reset_mode_config1

/-- A call of `i2c_transfer` on the sensor client: the call is recorded in the state and
the bus decides the return value. -/
def i2c_transfer (bus : i2c_bus) (g : galileo2) (msg : i2c_msg) : Int × galileo2 :=
  (bus.transfer g.i2c_sensor msg, { g with i2c_sensor := g.i2c_sensor ++ [msg] })

/-- A number passed as the `u8 val` argument of `galileo2_write8`. -/
def byte (n : Nat) : reg_val := reg_val.num (u8 n)

/-- The function `galileo2_write8`: the negative result of `i2c_transfer`, or 0. -/
def galileo2_write8 (bus : i2c_bus) (g : galileo2) (reg : sensor_reg) (val : reg_val) :
    Int × galileo2 :=
  let r := i2c_transfer bus g (i2c_msg.write8 reg val)
  if r.1 < 0 then (r.1, r.2) else (0, r.2)

/-- The function `galileo2_write16`; the value is converted to the `u16` parameter. -/
def galileo2_write16 (bus : i2c_bus) (g : galileo2) (reg : sensor_reg) (val : Nat) :
    Int × galileo2 :=
  let r := i2c_transfer bus g (i2c_msg.write16 reg (u16 val))
  if r.1 < 0 then (r.1, r.2) else (0, r.2)

/-- The function `galileo2_shutter_write8`. -/
def galileo2_shutter_write8 (bus : i2c_bus) (g : galileo2) (reg val : Nat) : Int × galileo2 :=
  let r := i2c_transfer bus g (i2c_msg.shutter_write8 (u8 reg) (u8 val))
  if r.1 < 0 then (r.1, r.2) else (0, r.2)

/-- The function `galileo2_read8` on `IMAGE_ORIENTATION`, reading into the union; a
failed transfer leaves the value 0. -/
def galileo2_read8_image_orientation (bus : i2c_bus) (g : galileo2) :
    Int × image_orientation × galileo2 :=
  let r := i2c_transfer bus g (i2c_msg.read8 (sensor_reg.name reg_name.IMAGE_ORIENTATION))
  if r.1 < 0 then (r.1, { h_mirror := 0, v_mirror := 0, others := 0 }, r.2)
  else (0, bus.orientation g.i2c_sensor, r.2)

/-- The function `galileo2_read8` on `GLOBAL_RESET_MODE_CONFIG1`, reading into the union;
a failed transfer leaves the value 0. -/
def galileo2_read8_glbrst_cfg1 (bus : i2c_bus) (g : galileo2) :
    Int × global_reset_mode_config1 × galileo2 :=
  let r := i2c_transfer bus g
    (i2c_msg.read8 (sensor_reg.name reg_name.GLOBAL_RESET_MODE_CONFIG1))
  if r.1 < 0 then
    (r.1, { vf_to_glbrst := 0, glbrst_to_vf := 0, readout_start := 0, long_exposure_mode := 0,
            continous_global_reset_mode := 0, flash_strobe := 0, sstrobe_muxing := 0,
            sastrobe_muxing := 0 }, r.2)
  else (0, bus.glbrst_cfg1 g.i2c_sensor, r.2)

/-! ## Register programming (`galileo2_apply_plls`, `galileo2_init`, `galileo2_configure`) -/

/-- The function `galileo2_apply_plls`; the `#if 0` block is not compiled. -/
def galileo2_apply_plls (bus : i2c_bus) (g : galileo2) : Int × galileo2 :=
  let g := (galileo2_write16 bus g (sensor_reg.name reg_name.PRE_PLL_CLK_DIV)
    g.pll1.pre_pll_clk_div).2
  let g := (galileo2_write16 bus g (sensor_reg.name reg_name.PLL_MULTIPLIER)
    g.pll1.pll_multiplier).2
  let g := (galileo2_write16 bus g (sensor_reg.name reg_name.VT_SYS_CLK_DIV)
    g.pll1.vt_sys_clk_div).2
  let g := (galileo2_write16 bus g (sensor_reg.name reg_name.VT_PIX_CLK_DIV)
    g.pll1.vt_pix_clk_div).2
  let g := (galileo2_write16 bus g (sensor_reg.name reg_name.OP_SYS_CLK_DIV)
    g.pll1.op_sys_clk_div).2
  let g := (galileo2_write16 bus g (sensor_reg.name reg_name.OP_PIX_CLK_DIV)
    g.pll1.op_pix_clk_div).2
  (0, g)

/-- The function `galileo2_init`; the `#if 0` block is not compiled.  `whole` and `fract`
are `u16` locals, the subtraction and the multiplication by `0x100` are `unsigned long`
operations. -/
def galileo2_init (bus : i2c_bus) (g : galileo2) : Int × galileo2 :=
  let glbrst_cfg1 : global_reset_mode_config1 :=
    { vf_to_glbrst := 0, glbrst_to_vf := 0, readout_start := 0, long_exposure_mode := 0,
      continous_global_reset_mode := 0, flash_strobe := 0, sstrobe_muxing := 1,
      sastrobe_muxing := 0 }
  let whole := u16 (g.pdata.refclk / 1000000)
  let fract := u16 (ulong (ulong (g.pdata.refclk + 2 ^ 32 - ulong (whole * 1000000)) * 0x100)
    / 1000000)
  let g := (galileo2_write8 bus g (sensor_reg.name reg_name.EXTCLK_FRQ_MHZ) (byte whole)).2
  let g := (galileo2_write8 bus g (sensor_reg.plus reg_name.EXTCLK_FRQ_MHZ 1) (byte fract)).2
  let g := (galileo2_write8 bus g (sensor_reg.name reg_name.GLOBAL_RESET_MODE_CONFIG1)
    (reg_val.glbrst_cfg1 glbrst_cfg1)).2
  let g := (galileo2_write8 bus g (sensor_reg.name reg_name.DPHY_CTRL) (byte 0x01)).2
  let g := (galileo2_write8 bus g
    (sensor_reg.name reg_name.REQUESTED_LINK_BIT_RATE_MBPS_31_24) (byte 0x0f)).2
  let g := (galileo2_write8 bus g
    (sensor_reg.name reg_name.REQUESTED_LINK_BIT_RATE_MBPS_23_16) (byte 0x99)).2
  let g := (galileo2_write8 bus g
    (sensor_reg.name reg_name.REQUESTED_LINK_BIT_RATE_MBPS_15_8) (byte 0x0)).2
  let g := (galileo2_write8 bus g
    (sensor_reg.name reg_name.REQUESTED_LINK_BIT_RATE_MBPS_7_0) (byte 0x0)).2
  (0, g)

/-- The function `galileo2_apply_exposure`; the `#if 0` block is not compiled.  The
product is a `u32` multiplication and `coarse` is a `u16` local. -/
def galileo2_apply_exposure (bus : i2c_bus) (g : galileo2) : Option (Int × galileo2) :=
  match cdiv (u32 (ofS32 g.exposure.val * 1000)) g.line_duration_ns with
  | none => none
  | some q =>
    let coarse := u16 q
    some (0, (galileo2_write16 bus g (sensor_reg.name reg_name.COARSE_INTEGRATION_TIME)
      coarse).2)

/-- The function `galileo2_apply_gain`. -/
def galileo2_apply_gain (bus : i2c_bus) (g : galileo2) : Int × galileo2 :=
  let gain := ofS32 g.gain.val
  (0, (galileo2_write16 bus g (sensor_reg.name reg_name.ANALOG_GAIN_CODE_GLOBAL) gain).2)

/-- The function `galileo2_apply_focus`. -/
def galileo2_apply_focus (g : galileo2) : Int × galileo2 := (0, g)

/-- The function `galileo2_apply_nd`. -/
def galileo2_apply_nd (g : galileo2) : Int × galileo2 := (0, g)

/-- The function `galileo2_synchronize_ctrl`. -/
def galileo2_synchronize_ctrl (ctrl : v4l2_ctrl) : v4l2_ctrl := { ctrl with cur_val := ctrl.val }

/-- Lines 1249-1321 of `galileo2_configure`: the register writes between the call of
`galileo2_init` and the controls.  The crop sizes are divided as unsigned values. -/
def configure_registers (bus : i2c_bus) (g : galileo2) : Option galileo2 :=
  let vt := g.video_timing
  let c := g.crop
  let fmt := g.format
  let g := (galileo2_write8 bus g (sensor_reg.name reg_name.CSI_SIGNALING_MODE) (byte 0x2)).2
  let g := (galileo2_write8 bus g (sensor_reg.name reg_name.CSI_DATA_FORMAT_SOURCE)
    (byte g.bits_per_pixel)).2
  let g := (galileo2_write8 bus g (sensor_reg.name reg_name.CSI_DATA_FORMAT_DESTINATION)
    (byte g.bits_per_pixel)).2
  let g := (galileo2_write8 bus g (sensor_reg.name reg_name.CSI_LANE_MODE)
    (byte (u32 (g.pdata.lanes + 2 ^ 32 - 1)))).2
  let g := (galileo2_write16 bus g (sensor_reg.name reg_name.X_OUTPUT_SIZE) fmt.width).2
  let g := (galileo2_write16 bus g (sensor_reg.name reg_name.Y_OUTPUT_SIZE) fmt.height).2
  let g := (galileo2_write16 bus g (sensor_reg.name reg_name.SCALING_MODE) 0x0001).2
  let g := (galileo2_write16 bus g (sensor_reg.name reg_name.SPATIAL_SAMPLING) 0x0000).2
  let g := (galileo2_write16 bus g (sensor_reg.name reg_name.OUTPUT_IMAGE_WIDTH) fmt.width).2
  let g := (galileo2_write16 bus g (sensor_reg.name reg_name.VT_LINE_LENGTH_PCK)
    (toU16 vt.width)).2
  let g := (galileo2_write16 bus g (sensor_reg.name reg_name.VT_FRAME_LENGTH_LINES)
    (toU16 vt.height)).2
  let g := (galileo2_write16 bus g (sensor_reg.name reg_name.X_ADDR_START) (toU16 c.left)).2
  let g := (galileo2_write16 bus g (sensor_reg.name reg_name.Y_ADDR_START) (toU16 c.top)).2
  let g := (galileo2_write16 bus g (sensor_reg.name reg_name.X_ADDR_END)
    (toU16 (c.left + c.width - 1))).2
  let g := (galileo2_write16 bus g (sensor_reg.name reg_name.Y_ADDR_END)
    (toU16 (c.top + c.height - 1))).2
  let g := (galileo2_write16 bus g (sensor_reg.name reg_name.DIGITAL_CROP_X_OFFSET) 0x0000).2
  let g := (galileo2_write16 bus g (sensor_reg.name reg_name.DIGITAL_CROP_Y_OFFSET) 0x0000).2
  match cdiv (ofS32 c.width) g.x_binning with
  | none => none
  | some w =>
    let g := (galileo2_write16 bus g (sensor_reg.name reg_name.DIGITAL_CROP_IMAGE_WIDTH) w).2
    match cdiv (ofS32 c.height) g.y_binning with
    | none => none
    | some h =>
      let g := (galileo2_write16 bus g (sensor_reg.name reg_name.DIGITAL_CROP_IMAGE_HEIGHT)
        h).2
      let g :=
        if g.x_binning = 1 ∧ g.y_binning = 1 then
          let g := (galileo2_write8 bus g (sensor_reg.name reg_name.BINNING_MODE)
            (byte 0x0)).2
          (galileo2_write8 bus g (sensor_reg.name reg_name.BINNING_TYPE) (byte 0x0)).2
        else
          let g := (galileo2_write8 bus g (sensor_reg.name reg_name.BINNING_MODE)
            (byte 0x1)).2
          (galileo2_write8 bus g (sensor_reg.name reg_name.BINNING_TYPE)
            (byte (u32 (g.x_binning <<< 4) ||| g.y_binning))).2
      let g := (galileo2_write8 bus g (sensor_reg.name reg_name.SINGLE_DEFECT_CORRECT_ENABLE)
        (byte 0x00)).2
      some (galileo2_write8 bus g
        (sensor_reg.name reg_name.COMBINED_COUPLET_SINGLE_DEFECT_CORRECT_ENABLE)
        (byte 0x01)).2

/-- The function `galileo2_configure`; the `#if 0` blocks are not compiled. -/
def galileo2_configure (bus : i2c_bus) (g : galileo2) : Option (Int × galileo2) :=
  let r := galileo2_init bus g
  if r.1 < 0 then some r
  else
    match configure_registers bus r.2 with
    | none => none
    | some g =>
      match galileo2_apply_exposure bus g with
      | none => none
      | some r =>
        let g := (galileo2_apply_gain bus r.2).2
        let g := (galileo2_apply_focus g).2
        let g := { g with exposure := galileo2_synchronize_ctrl g.exposure }
        let g := { g with focus := galileo2_synchronize_ctrl g.focus }
        some (0, g)

/-- The register table `config` of `galileo2_raytrix_config`, in array order. -/
def raytrix_config_table : List (Nat × Nat) :=
  [(0x130, 0x02), (0x131, 0xCD), (0x132, 0x01), (0x133, 0x33), (0x134, 0x03),
   (0x135, 0x54), (0x136, 0x13), (0x137, 0x33), (0x3000, 0x54), (0x3003, 0x55),
   (0x3004, 0x54), (0x3011, 0x04), (0x303a, 0x1B), (0x303b, 0x17), (0x303c, 0x14),
   (0x303d, 0x11), (0x30b5, 0x90), (0x30fe, 0x00), (0x3105, 0x30), (0x3121, 0x20),
   (0x312B, 0x80), (0x312f, 0x30), (0x3137, 0x11), (0x313c, 0x10), (0x313d, 0x02),
   (0x3154, 0x01), (0x3155, 0x07), (0x3156, 0x11), (0x3157, 0x25), (0x3201, 0x00),
   (0x0b05, 0x00), (0x0b06, 0x01), (0x0b07, 0x98), (0x0b0a, 0x01), (0x0b0b, 0x98),
   (0x3280, 0x0C), (0x3281, 0x0A), (0x3282, 0x08), (0x3283, 0x40), (0x3284, 0x80),
   (0x3307, 0x2C), (0x3308, 0x20), (0x3484, 0x1C), (0x3480, 0x34), (0x3490, 0x64),
   (0x3491, 0x04), (0x3492, 0x02), (0x3493, 0x01), (0x3494, 0xff), (0x3495, 0x00),
   (0x3496, 0x06), (0x3497, 0x49), (0x3498, 0xb4), (0x3499, 0x00), (0x349A, 0x0C),
   (0x349B, 0x00), (0x349C, 0x00), (0x349D, 0x00), (0x349E, 0x00), (0x349F, 0x00),
   (0x3480, 0x35), (0x3480, 0x04), (0x0C02, 0xC1), (0x0800, 0x00), (0x3200, 0x00),
   (0x3162, 0x00), (0x0601, 0x00)]

/-- The loop of `galileo2_raytrix_config` over the rest of the table: it stops at the
first write that does not return 0. -/
def raytrix_config_loop (bus : i2c_bus) : galileo2 → List (Nat × Nat) → Int × galileo2
  | g, [] => (0, g)
  | g, (reg, val) :: rest =>
    let r := galileo2_write8 bus g (sensor_reg.addr reg) (byte val)
    if r.1 ≠ 0 then r else raytrix_config_loop bus r.2 rest

/-- The function `galileo2_raytrix_config`. -/
def galileo2_raytrix_config (bus : i2c_bus) (g : galileo2) : Int × galileo2 :=
  raytrix_config_loop bus g raytrix_config_table

/-! ## Shutter, flips and flash (`galileo2_set_shutter`, `galileo2_apply_ms`, ...) -/

/-- The values of `enum mech_shutter_state`. -/
def MS_STATE_SSTROBE : Nat := 0
def MS_STATE_OPEN : Nat := 1
def MS_STATE_CLOSE : Nat := 2

/-- The value `V4L2_FLASH_STROBE_SOURCE_SOFTWARE` of `enum v4l2_flash_strobe_source`
(`include/linux/videodev2.h`). -/
def V4L2_FLASH_STROBE_SOURCE_SOFTWARE : Int := 0

/-- The function `galileo2_drive_shutter`. -/
def galileo2_drive_shutter (bus : i2c_bus) (g : galileo2) (opn : Int) : Int × galileo2 :=
  let g := (galileo2_shutter_write8 bus g 0x02 0x15).2
  let g :=
    if opn ≠ 0 then (galileo2_shutter_write8 bus g 0x06 0xb4).2
    else (galileo2_shutter_write8 bus g 0x06 0xb1).2
  (0, g)

/-- The function `galileo2_set_shutter`: a `switch` on the value of the `ms` control. -/
def galileo2_set_shutter (bus : i2c_bus) (g : galileo2) : Int × galileo2 :=
  if g.ms.val = (MS_STATE_SSTROBE : Int) then
    let g := (galileo2_shutter_write8 bus g 0x02 0x0a).2
    let g := (galileo2_shutter_write8 bus g 0x06 0xb4).2
    (0, g)
  else if g.ms.val = (MS_STATE_OPEN : Int) then galileo2_drive_shutter bus g 1
  else if g.ms.val = (MS_STATE_CLOSE : Int) then galileo2_drive_shutter bus g 0
  else (0, g)

/-- The function `galileo2_apply_hflip`: read, set the bit field, write back.  The value
of the control (0 or 1) is kept as it is. -/
def galileo2_apply_hflip (bus : i2c_bus) (g : galileo2) : Int × galileo2 :=
  let r := galileo2_read8_image_orientation bus g
  let reg := { r.2.1 with h_mirror := g.hflip.val }
  (0, (galileo2_write8 bus r.2.2 (sensor_reg.name reg_name.IMAGE_ORIENTATION)
    (reg_val.orientation reg)).2)

/-- The function `galileo2_apply_vflip`. -/
def galileo2_apply_vflip (bus : i2c_bus) (g : galileo2) : Int × galileo2 :=
  let r := galileo2_read8_image_orientation bus g
  let reg := { r.2.1 with v_mirror := g.vflip.val }
  (0, (galileo2_write8 bus r.2.2 (sensor_reg.name reg_name.IMAGE_ORIENTATION)
    (reg_val.orientation reg)).2)

/-- The local `sdelay_ctrl` of `galileo2_apply_ms` (lines 1078-1083): the NVM shutter
delay in line units.  The numerator is a `u32` expression, the divisor is
`line_duration_ns`, and the quotient is stored in a `u16`. -/
def ms_sdelay_ctrl (g : galileo2) : Option Nat :=
  let half_line_duration := u32 (g.line_duration_ns / 2)
  let sdelay := u16 g.nvm_ms
  match cdiv (u32 (u32 (sdelay * 1000) + half_line_duration)) g.line_duration_ns with
  | none => none
  | some q => some (u16 q)

/-- The local `trdout_ctrl` of `galileo2_apply_ms` (lines 1078, 1087): the exposure in
line units, computed like `sdelay_ctrl`. -/
def ms_trdout_ctrl (g : galileo2) : Option Nat :=
  let half_line_duration := u32 (g.line_duration_ns / 2)
  let exposure_us := ofS32 g.exposure.val
  match cdiv (u32 (u32 (exposure_us * 1000) + half_line_duration)) g.line_duration_ns with
  | none => none
  | some q => some (u16 q)

/-- The initial value of the local `glbrst_cfg1` of `galileo2_apply_ms`. -/
def ms_glbrst_cfg1 : global_reset_mode_config1 :=
  { vf_to_glbrst := 0, glbrst_to_vf := 0, readout_start := 0, long_exposure_mode := 0,
    continous_global_reset_mode := 1, flash_strobe := 0, sstrobe_muxing := 1,
    sastrobe_muxing := 1 }

/-- The function `galileo2_apply_ms`.  With the `gs` control off it leaves global-shutter
mode; otherwise it computes the shutter timings in `u16` locals and writes them. -/
def galileo2_apply_ms (bus : i2c_bus) (g : galileo2) : Option (Int × galileo2) :=
  let ms_state := ofS32 g.ms.val
  let c := g.crop
  let vt := g.video_timing
  let glbrst_cfg1 :=
    if ms_state ≠ MS_STATE_SSTROBE then { ms_glbrst_cfg1 with sastrobe_muxing := 0 }
    else ms_glbrst_cfg1
  if g.gs.val = 0 then
    let glbrst_cfg1 := { glbrst_cfg1 with sastrobe_muxing := 0,
                                          continous_global_reset_mode := 0 }
    let g := (galileo2_write8 bus g (sensor_reg.name reg_name.GLOBAL_RESET_MODE_CONFIG1)
      (reg_val.glbrst_cfg1 glbrst_cfg1)).2
    let g := (galileo2_write8 bus g (sensor_reg.name reg_name.GLOBAL_RESET_CTRL1)
      (byte 0x0)).2
    if ms_state ≠ MS_STATE_CLOSE then some (galileo2_set_shutter bus g)
    else some (0, g)
  else
    let g := { g with trdy_ctrl := 0x0034 }
    match ms_sdelay_ctrl g with
    | none => none
    | some sdelay_ctrl =>
      match ms_trdout_ctrl g with
      | none => none
      | some trdout_ctrl =>
        let g :=
          if sdelay_ctrl > g.trdy_ctrl + trdout_ctrl then
            { g with trdy_ctrl := toU16 ((sdelay_ctrl : Int) - (trdout_ctrl : Int)) }
          else g
        let str_delay_ctrl :=
          toU16 ((g.trdy_ctrl : Int) + (trdout_ctrl : Int) - (sdelay_ctrl : Int))
        let g := (galileo2_write16 bus g (sensor_reg.name reg_name.TRDY_CTRL) g.trdy_ctrl).2
        let g := (galileo2_write16 bus g
          (sensor_reg.name reg_name.TSHUTTER_STROBE_DELAY_CTRL) str_delay_ctrl).2
        let g := (galileo2_write16 bus g (sensor_reg.name reg_name.TRDOUT_CTRL) trdout_ctrl).2
        match cdiv (ofS32 c.height) g.y_binning with
        | none => none
        | some h =>
          let g := (galileo2_write16 bus g
            (sensor_reg.name reg_name.TSHUTTER_STROBE_WIDTH_CTRL) (u32 (h + sdelay_ctrl))).2
          let tgrst_interval_ctrl :=
            toU16 (vt.height + (trdout_ctrl : Int) + (g.trdy_ctrl : Int) + (sdelay_ctrl : Int)
              + 512)
          let g := (galileo2_write16 bus g (sensor_reg.name reg_name.TGRST_INTERVAL_CTRL)
            tgrst_interval_ctrl).2
          let g := (galileo2_write8 bus g
            (sensor_reg.name reg_name.GLOBAL_RESET_MODE_CONFIG1)
            (reg_val.glbrst_cfg1 glbrst_cfg1)).2
          let g := (galileo2_write8 bus g (sensor_reg.name reg_name.GLOBAL_RESET_CTRL1)
            (byte 0x1)).2
          some (0, g)

/-- The function `galileo2_apply_flash_strobe`.  The width is an `int` expression, the
division truncates towards zero. -/
def galileo2_apply_flash_strobe (bus : i2c_bus) (g : galileo2) : Int × galileo2 :=
  let strobe_source := g.strobe_source.val
  let r := galileo2_read8_glbrst_cfg1 bus g
  let glbrst_cfg1 := r.2.1
  let g := r.2.2
  if strobe_source = V4L2_FLASH_STROBE_SOURCE_SOFTWARE then
    let glbrst_cfg1 := { glbrst_cfg1 with flash_strobe := 0 }
    let g := (galileo2_write8 bus g (sensor_reg.name reg_name.GLOBAL_RESET_MODE_CONFIG1)
      (reg_val.glbrst_cfg1 glbrst_cfg1)).2
    let g := (galileo2_write8 bus g (sensor_reg.name reg_name.FLASH_TRIGGER_RS) (byte 0x0)).2
    (0, g)
  else if g.gs.val ≠ 0 then
    let glbrst_cfg1 := { glbrst_cfg1 with flash_strobe := 1 }
    let g := (galileo2_write8 bus g (sensor_reg.name reg_name.GLOBAL_RESET_MODE_CONFIG1)
      (reg_val.glbrst_cfg1 glbrst_cfg1)).2
    let g := (galileo2_write16 bus g (sensor_reg.name reg_name.TFLASH_STROBE_WIDTH_HIGH_CTRL)
      (toU16 (Int.tdiv (wrapInt (g.strobe_width.val * 1000)) 108))).2
    (0, g)
  else
    let g := (galileo2_write16 bus g
      (sensor_reg.name reg_name.TFLASH_STROBE_WIDTH_HIGH_RS_CTRL)
      (toU16 (Int.tdiv (wrapInt (g.strobe_width.val * 1000)) 108))).2
    let g := (galileo2_write8 bus g (sensor_reg.name reg_name.FLASH_MODE_RS) (byte 0x1)).2
    let g := (galileo2_write8 bus g (sensor_reg.name reg_name.FLASH_TRIGGER_RS) (byte 0x1)).2
    (0, g)

/-- The value of `trdy_ctrl` after the comparison of lines 1089-1090. -/
def ms_trdy_ctrl (s t : Nat) : Nat := if s > 0x0034 + t then s - t else 0x0034

/-- The configuration byte written by `galileo2_apply_ms` in global-shutter mode. -/
def ms_glbrst_cfg1_of (g : galileo2) : global_reset_mode_config1 :=
  if ofS32 g.ms.val ≠ MS_STATE_SSTROBE then { ms_glbrst_cfg1 with sastrobe_muxing := 0 }
  else ms_glbrst_cfg1

/-- Whether a call of `i2c_transfer` writes a register: every call but a read does. -/
def is_register_write : i2c_msg → Bool
  | i2c_msg.read8 _ => false
  | _ => true

/-! ## Streaming (`galileo2_s_stream`) -/

/-- The function `galileo2_s_stream`: C return value and new state, or `none` when one
of the called functions divides by zero. -/
def galileo2_s_stream (bus : i2c_bus) (g : galileo2) (enable : Int) :
    Option (Int × galileo2) :=
  if enable = 0 then
    if g.streaming = false then some (0, g)
    else
      let g := { g with streaming := false }
      let g :=
        if g.gs.val ≠ 0 then
          (galileo2_write8 bus g (sensor_reg.name reg_name.GLOBAL_RESET_CTRL1) (byte 0x0)).2
        else g
      let g := (galileo2_write8 bus g (sensor_reg.name reg_name.MODE_SELECT) (byte 0x00)).2
      some (0, g)
  else
    match (if g.timings_uptodate = false then galileo2_update_timings g else some (0, g)) with
    | none => none
    | some (ret, g) =>
      if ret < 0 then some (ret, g)
      else
        let r := galileo2_raytrix_config bus g
        if r.1 < 0 then some r
        else
          let r := galileo2_apply_plls bus r.2
          if r.1 < 0 then some r
          else
            match galileo2_configure bus r.2 with
            | none => none
            | some (ret, g) =>
              if ret < 0 then some (ret, g)
              else
                let g := { g with streaming := true }
                let g := (galileo2_set_shutter bus g).2
                let g := (galileo2_apply_hflip bus g).2
                let g := (galileo2_apply_vflip bus g).2
                let g := (galileo2_apply_nd g).2
                match galileo2_apply_ms bus g with
                | none => none
                | some r =>
                  let g := (galileo2_apply_flash_strobe bus r.2).2
                  let g := (galileo2_write8 bus g (sensor_reg.name reg_name.MODE_SELECT)
                    (byte 0x01)).2
                  some (0, g)

/-! ## Format, crop, frame interval and controls (`galileo2_set_fmt`, ...) -/

/-- The values of `enum v4l2_subdev_format_whence` (`include/linux/v4l2-subdev.h`). -/
inductive v4l2_subdev_format_whence where
  | V4L2_SUBDEV_FORMAT_TRY
  | V4L2_SUBDEV_FORMAT_ACTIVE
  deriving DecidableEq

/-- The selection targets the driver distinguishes; `other n` is any other value of
`sel->target`. -/
inductive v4l2_sel_tgt where
  | V4L2_SEL_TGT_CROP
  | V4L2_SEL_TGT_CROP_BOUNDS
  | other (n : Nat)
  deriving DecidableEq

/-- The control identifiers of the `switch` in `galileo2_s_ctrl` (the case labels of a
`switch` are distinct values); `other n` is any other value of `ctrl->id`. -/
inductive v4l2_cid where
  | V4L2_CID_HFLIP
  | V4L2_CID_VFLIP
  | V4L2_CID_EXPOSURE_ABSOLUTE
  | V4L2_CID_FOCUS_ABSOLUTE
  | V4L2_CID_GALILEO2_ND
  | V4L2_CID_FLASH_STROBE_SOURCE
  | V4L2_CID_GALILEO2_STROBE_WIDTH
  | V4L2_CID_ANALOGUE_GAIN
  | V4L2_CID_GALILEO2_GS
  | V4L2_CID_GALILEO2_MS
  | other (n : Nat)
  deriving DecidableEq

/-- The function `galileo2_set_fmt`.  With `V4L2_SUBDEV_FORMAT_TRY` only the try format
of the file handle and the caller's structure are touched, which are not part of the
driver state. -/
def galileo2_set_fmt (g : galileo2) (which : v4l2_subdev_format_whence)
    (format : v4l2_mbus_framefmt) : Int × galileo2 :=
  let g :=
    if which = v4l2_subdev_format_whence.V4L2_SUBDEV_FORMAT_TRY then g
    else { g with format := format }
  let g := { g with timings_uptodate := false }
  (0, g)

/-- The function `galileo2_set_selection`.  While streaming the binning factors are
recomputed as in `galileo2_calc_vt` and the crop is written to the sensor. -/
def galileo2_set_selection (bus : i2c_bus) (g : galileo2) (target : v4l2_sel_tgt)
    (r : v4l2_rect) : Option (Int × galileo2) :=
  if target = v4l2_sel_tgt.V4L2_SEL_TGT_CROP then
    let g := { g with crop := r }
    let g := { g with timings_uptodate := false }
    if g.streaming = false then some (0, g)
    else
      match calc_binning g with
      | none => none
      | some g =>
        let c := g.crop
        let g := (galileo2_write16 bus g (sensor_reg.name reg_name.GROUPED_PARAMETER_HOLD)
          0x1).2
        let g := (galileo2_write16 bus g (sensor_reg.name reg_name.X_ADDR_START)
          (toU16 c.left)).2
        let g := (galileo2_write16 bus g (sensor_reg.name reg_name.Y_ADDR_START)
          (toU16 c.top)).2
        let g := (galileo2_write16 bus g (sensor_reg.name reg_name.X_ADDR_END)
          (toU16 (c.left + c.width - 1))).2
        let g := (galileo2_write16 bus g (sensor_reg.name reg_name.Y_ADDR_END)
          (toU16 (c.top + c.height - 1))).2
        match cdiv (ofS32 c.width) g.x_binning with
        | none => none
        | some w =>
          let g := (galileo2_write16 bus g
            (sensor_reg.name reg_name.DIGITAL_CROP_IMAGE_WIDTH) w).2
          match cdiv (ofS32 c.height) g.y_binning with
          | none => none
          | some h =>
            let g := (galileo2_write16 bus g
              (sensor_reg.name reg_name.DIGITAL_CROP_IMAGE_HEIGHT) h).2
            let g := (galileo2_write8 bus g (sensor_reg.name reg_name.BINNING_TYPE)
              (byte (u32 (g.x_binning <<< 4) ||| g.y_binning))).2
            let g := (galileo2_write16 bus g
              (sensor_reg.name reg_name.GROUPED_PARAMETER_HOLD) 0x0).2
            some (0, g)
  else some (-EINVAL, g)

/-- The messages `galileo2_set_selection` sends while streaming, for the crop `c`, the
binning factors `xb`, `yb` and the two quotients `w`, `h`. -/
def set_selection_msgs (c : v4l2_rect) (xb yb w h : Nat) : List i2c_msg :=
  [i2c_msg.write16 (sensor_reg.name reg_name.GROUPED_PARAMETER_HOLD) (u16 0x1),
   i2c_msg.write16 (sensor_reg.name reg_name.X_ADDR_START) (u16 (toU16 c.left)),
   i2c_msg.write16 (sensor_reg.name reg_name.Y_ADDR_START) (u16 (toU16 c.top)),
   i2c_msg.write16 (sensor_reg.name reg_name.X_ADDR_END) (u16 (toU16 (c.left + c.width - 1))),
   i2c_msg.write16 (sensor_reg.name reg_name.Y_ADDR_END) (u16 (toU16 (c.top + c.height - 1))),
   i2c_msg.write16 (sensor_reg.name reg_name.DIGITAL_CROP_IMAGE_WIDTH) (u16 w),
   i2c_msg.write16 (sensor_reg.name reg_name.DIGITAL_CROP_IMAGE_HEIGHT) (u16 h),
   i2c_msg.write8 (sensor_reg.name reg_name.BINNING_TYPE) (byte (u32 (xb <<< 4) ||| yb)),
   i2c_msg.write16 (sensor_reg.name reg_name.GROUPED_PARAMETER_HOLD) (u16 0x0)]

/-- The function `galileo2_s_frame_interval`.  The dividend of `div_u64` is a `u64`
product, the divisor `vt->width * cur_fi->denominator` a 32-bit product; the quotient is
stored in the `__s32` member `vt->height`, which the comparison with the `u32` local
`min_vt_height` reads as unsigned. -/
def galileo2_s_frame_interval (bus : i2c_bus) (g : galileo2) (interval : v4l2_fract) :
    Option (Int × galileo2) :=
  let g := { g with frame_interval := interval }
  let g := { g with timings_uptodate := false }
  if g.streaming = false then some (0, g)
  else
    match div_u64 (u64 (g.vtclk * g.frame_interval.numerator))
        (u32 (ofS32 g.video_timing.width * g.frame_interval.denominator)) with
    | none => none
    | some q =>
      let g := { g with video_timing := { g.video_timing with height := toS32 q } }
      match cdiv (ofS32 g.crop.height) g.y_binning with
      | none => none
      | some h =>
        let min_vt_height := u32 (h + 42)
        let g :=
          if ofS32 g.video_timing.height < min_vt_height then
            let g := { g with video_timing :=
                                { g.video_timing with height := toS32 min_vt_height } }
            let g := { g with frame_interval :=
                                { g.frame_interval with denominator := u32 g.vtclk } }
            { g with frame_interval :=
                       { g.frame_interval with
                         numerator := ofS32 (g.video_timing.width * g.video_timing.height) } }
          else g
        let g := (galileo2_write16 bus g (sensor_reg.name reg_name.VT_FRAME_LENGTH_LINES)
          (toU16 g.video_timing.height)).2
        some (0, g)

/-- The function `galileo2_s_ctrl`; the new value of the control is already in the
control (`ctrl->val`) when the function is called. -/
def galileo2_s_ctrl (bus : i2c_bus) (g : galileo2) (id : v4l2_cid) : Option (Int × galileo2) :=
  if g.streaming = false then some (0, g)
  else
    match id with
    | v4l2_cid.V4L2_CID_HFLIP => some (galileo2_apply_hflip bus g)
    | v4l2_cid.V4L2_CID_VFLIP => some (galileo2_apply_vflip bus g)
    | v4l2_cid.V4L2_CID_EXPOSURE_ABSOLUTE => galileo2_apply_exposure bus g
    | v4l2_cid.V4L2_CID_FOCUS_ABSOLUTE => some (galileo2_apply_focus g)
    | v4l2_cid.V4L2_CID_GALILEO2_ND => some (galileo2_apply_nd g)
    | v4l2_cid.V4L2_CID_FLASH_STROBE_SOURCE => some (galileo2_apply_flash_strobe bus g)
    | v4l2_cid.V4L2_CID_GALILEO2_STROBE_WIDTH => some (galileo2_apply_flash_strobe bus g)
    | v4l2_cid.V4L2_CID_ANALOGUE_GAIN => some (galileo2_apply_gain bus g)
    | v4l2_cid.V4L2_CID_GALILEO2_GS => galileo2_apply_ms bus g
    | v4l2_cid.V4L2_CID_GALILEO2_MS => some (galileo2_set_shutter bus g)
    | v4l2_cid.other _ => some (0, g)

/-! ## The combinations enumerated by the search -/

/-- A combination of divider values tried by the search: pre-divider, multiplier,
vt-system divider, vt-pixel divider and output-system divider. -/
structure pll_cand where
  p : Nat
  m : Nat
  vts : Nat
  vtp : Nat
  op : Nat
  deriving DecidableEq

/-- The clocks the search computes for a combination (lines 605-638): PLL input, PLL
output (an `unsigned long` product), vt-system clock, achieved vtclk and achieved
mipiclk. -/
def cand_pll_in_clk (refclk : Nat) (c : pll_cand) : Nat := refclk / c.p
def cand_pll_op_clk (refclk : Nat) (c : pll_cand) : Nat := ulong (refclk / c.p * c.m)
def cand_vt_sys_clk (refclk : Nat) (c : pll_cand) : Nat := cand_pll_op_clk refclk c / c.vts
def cand_vtclk (refclk : Nat) (c : pll_cand) : Nat := cand_vt_sys_clk refclk c / c.vtp
def cand_mipiclk (refclk : Nat) (c : pll_cand) : Nat := cand_pll_op_clk refclk c / c.op / 2

/-- A combination of the enumerated divider sets that passes the four range checks of
the search (PLL input, PLL output, vt-system clock, vtclk). -/
def pll_admissible (refclk : Nat) (c : pll_cand) : Prop :=
  c.p ∈ pre_pll_div ∧ (36 ≤ c.m ∧ c.m ≤ 832) ∧ c.vts ∈ vt_sys_div ∧ c.vtp ∈ vt_pix_div ∧
  c.op ∈ op_sys_div ∧
  IS_BETWEEN (cand_pll_in_clk refclk c) MIN_PLL_IN_CLK MAX_PLL_IN_CLK = true ∧
  IS_BETWEEN (cand_pll_op_clk refclk c) MIN_PLL_OP_CLK MAX_PLL_OP_CLK = true ∧
  IS_BETWEEN (cand_vt_sys_clk refclk c) MIN_VT_SYS_CLK MAX_VT_SYS_CLK = true ∧
  IS_BETWEEN (cand_vtclk refclk c) MIN_VTCLK MAX_VTCLK = true

instance (refclk : Nat) (c : pll_cand) : Decidable (pll_admissible refclk c) := by
  unfold pll_admissible; infer_instance

/-- The combinations that reach the innermost loop body, in iteration order. -/
def pll_candidates (refclk : Nat) : List pll_cand :=
  pre_pll_div.flatMap fun p =>
    if IS_BETWEEN (refclk / p) MIN_PLL_IN_CLK MAX_PLL_IN_CLK then
      pll_multipliers.flatMap fun m =>
        if IS_BETWEEN (ulong (refclk / p * m)) MIN_PLL_OP_CLK MAX_PLL_OP_CLK then
          vt_sys_div.flatMap fun vts =>
            if IS_BETWEEN (ulong (refclk / p * m) / vts) MIN_VT_SYS_CLK MAX_VT_SYS_CLK then
              vt_pix_div.flatMap fun vtp =>
                if IS_BETWEEN (ulong (refclk / p * m) / vts / vtp) MIN_VTCLK MAX_VTCLK then
                  op_sys_div.map fun op => { p := p, m := m, vts := vts, vtp := vtp, op := op }
                else []
            else []
        else []
    else []

/-- The innermost loop body as a function of the combination. -/
def pll_step (keep_fps : Int) (refclk tvt tmipi : Nat) (b : pll_best) (c : pll_cand) : pll_best :=
  match pll_error keep_fps tvt tmipi (cand_vtclk refclk c) (cand_mipiclk refclk c) with
  | none => b
  | some error => pll_update b error c.p c.m c.vts c.vtp c.op

/-- The combination recorded in the locals `best_p` ... `best_op`. -/
def pll_best_cand (b : pll_best) : pll_cand :=
  { p := b.best_p, m := b.best_m, vts := b.best_vts, vtp := b.best_vtp, op := b.best_op }

/-- The error the search computes for a combination; `none` when it is skipped. -/
def pll_score (keep_fps : Int) (refclk tvt tmipi : Nat) (c : pll_cand) : Option Int :=
  pll_error keep_fps tvt tmipi (cand_vtclk refclk c) (cand_mipiclk refclk c)

/-- Loop invariant of the search over the combinations `l` seen so far: either nothing
was recorded and every combination was skipped, or the recorded combination is one of
`l`, carries its own error, and no combination of `l` has a smaller error. -/
def pll_inv (sc : pll_cand → Option Int) (b : pll_best) (l : List pll_cand) : Prop :=
  (b.ret ≠ 0 → b = pll_best_init ∧ ∀ c ∈ l, sc c = none) ∧
  (b.ret = 0 → 0 ≤ b.best_error ∧
     (∃ c ∈ l, sc c = some b.best_error ∧ pll_best_cand b = c) ∧
     ∀ c ∈ l, ∀ e, sc c = some e → b.best_error ≤ e)

/-- The combination selected by `galileo2_pll_brute_force` for the targets and the
reference clock stored in the state. -/
def pll_selected (g : galileo2) (keep_fps : Int) : pll_cand :=
  pll_best_cand (pll_search keep_fps g.pdata.refclk g.vtclk g.mipiclk)

/-- The error sum of the spec: `|achieved_vtclk - target_vtclk| +
|achieved_mipiclk - target_mipiclk|` over the integers. -/
def pll_abs_error (tvt tmipi vtclk mipiclk : Nat) : Int :=
  |(vtclk : Int) - tvt| + |(mipiclk : Int) - tmipi|

/-- Loop invariant of the search on ties: once a combination is recorded, it is one of
the combinations `l` seen so far, carries its own error, and every combination seen
after it has a strictly larger error (or was skipped). -/
def pll_inv_last (sc : pll_cand → Option Int) (b : pll_best) (l : List pll_cand) : Prop :=
  b.ret = 0 → ∃ l1 l2, l = l1 ++ pll_best_cand b :: l2 ∧
    sc (pll_best_cand b) = some b.best_error ∧
    ∀ c ∈ l2, ∀ e, sc c = some e → b.best_error < e

/-! ## Evaluation of the search on concrete targets

The search visits some 160000 combinations.  To evaluate it on concrete targets the
development uses a second search over natural numbers that skips a PLL output whose
mipiclk error alone rules it out; `pll_search_eq_nat` proves that it returns the locals
of `pll_search` whenever both targets are below `2 ^ 30`. -/

/-- Evaluation device: the locals of the search with the error as a natural number and
a flag instead of the `best_error < 0` convention. -/
structure pll_acc where
  found : Bool
  err : Nat
  p : Nat
  m : Nat
  vts : Nat
  vtp : Nat
  op : Nat
  deriving DecidableEq

/-- The locals of the source that an accumulator stands for. -/
def pll_acc.toBest (a : pll_acc) : pll_best :=
  if a.found then
    { ret := 0, best_error := (a.err : Int), best_p := a.p, best_m := a.m, best_vts := a.vts,
      best_vtp := a.vtp, best_op := a.op }
  else pll_best_init

/-- Evaluation device: passes `n` to `k` after a case analysis on `n`, so that the
kernel reduces `n` to a numeral first. -/
def force {α : Type} (n : Nat) (k : Nat → α) : α :=
  match n with
  | 0 => k 0
  | n + 1 => k (n + 1)

/-- Evaluation device: a left fold that takes the accumulator apart at every step. -/
def acc_foldl (f : pll_acc → Nat → pll_acc) : pll_acc → List Nat → pll_acc
  | a, [] => a
  | a, x :: xs =>
    match f a x with
    | ⟨fd, e, p, m, vts, vtp, op⟩ => acc_foldl f ⟨fd, e, p, m, vts, vtp, op⟩ xs

/-- The error of a combination over the natural numbers, valid when no `long` wraps. -/
def pll_error_nat (keep1 : Bool) (tvt tmipi vtclk mipiclk : Nat) : Option Nat :=
  if keep1 then
    if vtclk < tvt ∨ mipiclk < tmipi then none
    else some ((mipiclk - tmipi) + (vtclk - tvt))
  else some (((mipiclk - tmipi) + (tmipi - mipiclk)) + ((vtclk - tvt) + (tvt - vtclk)))

/-- Counterpart of `pll_op_body` on accumulators. -/
def acc_op_body (keep1 : Bool) (tvt tmipi p m vts vtp pll_op_clk vtclk : Nat)
    (a : pll_acc) (op : Nat) : pll_acc :=
  match pll_error_nat keep1 tvt tmipi vtclk (pll_op_clk / op / 2) with
  | none => a
  | some e =>
    force e fun e =>
      if e ≤ a.err ∨ a.found = false then
        { found := true, err := e, p := p, m := m, vts := vts, vtp := vtp, op := op }
      else a

/-- Counterpart of `pll_vtp_body` on accumulators. -/
def acc_vtp_body (keep1 : Bool) (tvt tmipi p m vts pll_op_clk vt_sys_clk : Nat)
    (a : pll_acc) (vtp : Nat) : pll_acc :=
  force (vt_sys_clk / vtp) fun vtclk =>
    if !IS_BETWEEN vtclk MIN_VTCLK MAX_VTCLK then a
    else acc_foldl (acc_op_body keep1 tvt tmipi p m vts vtp pll_op_clk vtclk) a op_sys_div

/-- Counterpart of `pll_vts_body` on accumulators. -/
def acc_vts_body (keep1 : Bool) (tvt tmipi p m pll_op_clk : Nat)
    (a : pll_acc) (vts : Nat) : pll_acc :=
  force (pll_op_clk / vts) fun vt_sys_clk =>
    if !IS_BETWEEN vt_sys_clk MIN_VT_SYS_CLK MAX_VT_SYS_CLK then a
    else acc_foldl (acc_vtp_body keep1 tvt tmipi p m vts pll_op_clk vt_sys_clk) a vt_pix_div

/-- True when, for this PLL output, every output divider is either skipped or has a
mipiclk error alone that exceeds the recorded error: no combination with this PLL
output can then replace the recorded one. -/
def acc_prune (keep1 : Bool) (tvt tmipi pll_op_clk : Nat) (a : pll_acc) : Bool :=
  op_sys_div.all fun op =>
    match pll_error_nat keep1 tvt tmipi tvt (pll_op_clk / op / 2) with
    | none => true
    | some e => a.found && decide (a.err < e)

/-- Counterpart of `pll_m_body` on accumulators, skipping the inner loops when
`acc_prune` holds. -/
def acc_m_body (keep1 : Bool) (tvt tmipi p pll_in_clk : Nat)
    (a : pll_acc) (m : Nat) : pll_acc :=
  force (ulong (pll_in_clk * m)) fun pll_op_clk =>
    if !IS_BETWEEN pll_op_clk MIN_PLL_OP_CLK MAX_PLL_OP_CLK then a
    else if acc_prune keep1 tvt tmipi pll_op_clk a then a
    else acc_foldl (acc_vts_body keep1 tvt tmipi p m pll_op_clk) a vt_sys_div

/-- Counterpart of `pll_p_body` on accumulators. -/
def acc_p_body (keep1 : Bool) (refclk tvt tmipi : Nat) (a : pll_acc) (p : Nat) : pll_acc :=
  if !IS_BETWEEN (refclk / p) MIN_PLL_IN_CLK MAX_PLL_IN_CLK then a
  else acc_foldl (acc_m_body keep1 tvt tmipi p (refclk / p)) a pll_multipliers

/-- Counterpart of `pll_search` on accumulators. -/
def pll_search_nat (keep1 : Bool) (refclk tvt tmipi : Nat) : pll_acc :=
  acc_foldl (acc_p_body keep1 refclk tvt tmipi)
    { found := false, err := 0, p := 0, m := 0, vts := 0, vtp := 0, op := 0 } pre_pll_div

/-! ## Concrete driver states used as examples -/

/-- The probe state after `galileo2_set_fmt` with the full pixel array (7728 x 5368) as
output format; the crop is still the probe's 7716 x 5364. -/
def format_full_array_state : galileo2 :=
  { probe_state 26000000 4 with
    format := { width := 7728, height := 5368, code := V4L2_MBUS_FMT_SGBRG10_1X10 } }

/-- A state whose crop and output format are both `INT_MAX` pixels wide. -/
def wide_crop_state : galileo2 :=
  { probe_state 26000000 4 with
    crop := { left := 0, top := 0, width := 2147483647, height := 5364 },
    format := { width := 2147483647, height := 5364, code := V4L2_MBUS_FMT_SGBRG10_1X10 } }

/-- Full-array crop and format with a requested frame interval of 1/100 s. -/
def full_array_100fps_state : galileo2 :=
  { probe_state 26000000 4 with
    crop := { left := 0, top := 0, width := 7728, height := 5368 },
    format := { width := 7728, height := 5368, code := V4L2_MBUS_FMT_SGBRG10_1X10 },
    frame_interval := { numerator := 1, denominator := 100 } }

/-- The probe state of a four-lane board after `galileo2_s_frame_interval` with 1/80 s. -/
def probe_80fps_state : galileo2 :=
  { probe_state 26000000 4 with frame_interval := { numerator := 1, denominator := 80 } }

/-- The probe state with a pixel code the driver does not know (`0`). -/
def unknown_code_state : galileo2 :=
  { probe_state 26000000 4 with format := { width := 7716, height := 5364, code := 0 } }

/-- A driver state with the given reference clock and clock targets. -/
def pll_target_state (refclk tvt tmipi : Nat) : galileo2 :=
  { probe_state refclk 4 with vtclk := tvt, mipiclk := tmipi }

/-- The targets of the worked example: vtclk 100 MHz, mipiclk 500 MHz, refclk 26 MHz. -/
def reference_target_state : galileo2 := pll_target_state 26000000 100000000 500000000

/-- Targets at the lower end of both hardware ranges: vtclk 20 MHz, mipiclk 82.5 MHz. -/
def low_mipiclk_state : galileo2 := pll_target_state 26000000 20000000 82500000

/-- A state whose target vtclk (4 GHz) is outside the range of a `long`. -/
def wrapped_target_state : galileo2 := pll_target_state 26000000 4000000000 83416666

/-- The targets vtclk = 1 Hz and mipiclk = 1 Hz with a 26 MHz reference clock. -/
def unreachable_target_state : galileo2 := pll_target_state 26000000 1 1

/-- A state with consistent timings and clock targets: crop and format 488 x 976 on a
one-lane board, frame interval 1/24 s; `galileo2_calc_vt` gives the video timing
1000 x 1000 and `galileo2_calc_clocks` the targets 24 MHz and 120 MHz. -/
def round_trip_state : galileo2 :=
  { probe_state 26000000 1 with
    crop := { left := 0, top := 0, width := 488, height := 976 },
    format := { width := 488, height := 976, code := V4L2_MBUS_FMT_SGBRG10_1X10 },
    frame_interval := { numerator := 1, denominator := 24 },
    video_timing := { left := 0, top := 0, width := 1000, height := 1000 },
    x_binning := 1, y_binning := 1, bits_per_pixel := 10,
    vtclk := 24000000, mipiclk := 120000000 }

/-- The state `round_trip_state` after a successful `galileo2_pll_brute_force` with
`keep_fps = 0` followed by `galileo2_calc_clocks`. -/
def round_trip_second_state : galileo2 :=
  { round_trip_state with
    frame_interval := { numerator := 1000000, denominator := 23833333 },
    line_duration_ns := 10000,
    pll1 := { pre_pll_clk_div := 1, pll_multiplier := 720, vt_sys_clk_div := 6,
              vt_pix_clk_div := 12, op_sys_clk_div := 6, op_pix_clk_div := 6 },
    vtclk := 23833333, mipiclk := 119166665 }

/-- The state `round_trip_state` with a line length of 500000000 pixel clocks and a
frame length of 25 lines. -/
def wide_timing_state : galileo2 :=
  { round_trip_state with
    video_timing := { left := 0, top := 0, width := 500000000, height := 25 } }

/-- The state left by `galileo2_update_timings` on the probe state of a four-lane board
with a 26 MHz reference clock (crop and format 7716 x 5364, 30 frames per second). -/
def probe_timed_state : galileo2 :=
  { probe_state 26000000 4 with
    timings_uptodate := true,
    video_timing := { left := 0, top := 0, width := 8228, height := 5388 },
    x_binning := 1, y_binning := 1, bits_per_pixel := 10,
    vtclk := 1329973920, mipiclk := 1662467400, line_duration_ns := 82280,
    pll1 := { pre_pll_clk_div := 1, pll_multiplier := 720, vt_sys_clk_div := 6,
              vt_pix_clk_div := 12, op_sys_clk_div := 6, op_pix_clk_div := 6 } }

/-- A bus on which every transfer succeeds and every register reads as zero. -/
def quiet_bus : i2c_bus where
  transfer := fun _ _ => 1
  orientation := fun _ => { h_mirror := 0, v_mirror := 0, others := 0 }
  glbrst_cfg1 := fun _ =>
    { vf_to_glbrst := 0, glbrst_to_vf := 0, readout_start := 0, long_exposure_mode := 0,
      continous_global_reset_mode := 0, flash_strobe := 0, sstrobe_muxing := 0,
      sastrobe_muxing := 0 }

/-- Global-shutter mode on the full pixel array: crop and format 7728 x 5368 give the
line length 8240 and `line_duration_ns = 82400`; the exposure is the default 20000 us
and the NVM shutter delay is 5000. -/
def global_shutter_state : galileo2 :=
  { probe_state 26000000 4 with
    timings_uptodate := true,
    crop := { left := 0, top := 0, width := 7728, height := 5368 },
    format := { width := 7728, height := 5368, code := V4L2_MBUS_FMT_SGBRG10_1X10 },
    video_timing := { left := 0, top := 0, width := 8240, height := 5392 },
    x_binning := 1, y_binning := 1, bits_per_pixel := 10,
    vtclk := 1332902400, mipiclk := 1666128000, line_duration_ns := 82400,
    pll1 := { pre_pll_clk_div := 1, pll_multiplier := 720, vt_sys_clk_div := 6,
              vt_pix_clk_div := 12, op_sys_clk_div := 6, op_pix_clk_div := 6 },
    nvm_ms := 5000,
    gs := { val := 1, cur_val := 1 } }

/-- Global-shutter mode with the longest exposure of the control range (1000000 us) on
a short line: crop and format 1000 x 976 give the line length 1512 and
`line_duration_ns = 15120`. -/
def long_exposure_state : galileo2 :=
  { probe_state 26000000 4 with
    timings_uptodate := true,
    crop := { left := 0, top := 0, width := 1000, height := 976 },
    format := { width := 1000, height := 976, code := V4L2_MBUS_FMT_SGBRG10_1X10 },
    video_timing := { left := 0, top := 0, width := 1512, height := 1000 },
    x_binning := 1, y_binning := 1, bits_per_pixel := 10,
    vtclk := 45360000, mipiclk := 56700000, line_duration_ns := 15120,
    pll1 := { pre_pll_clk_div := 1, pll_multiplier := 720, vt_sys_clk_div := 6,
              vt_pix_clk_div := 12, op_sys_clk_div := 6, op_pix_clk_div := 6 },
    nvm_ms := 5000,
    gs := { val := 1, cur_val := 1 },
    exposure := { val := 1000000, cur_val := 1000000 } }

/-- The state `probe_timed_state` while streaming. -/
def streaming_probe_state : galileo2 := { probe_timed_state with streaming := true }

/-- A bus on which every transfer fails with `-EIO` (`-5`). -/
def failing_bus : i2c_bus where
  transfer := fun _ _ => -5
  orientation := fun _ => { h_mirror := 0, v_mirror := 0, others := 0 }
  glbrst_cfg1 := fun _ =>
    { vf_to_glbrst := 0, glbrst_to_vf := 0, readout_start := 0, long_exposure_mode := 0,
      continous_global_reset_mode := 0, flash_strobe := 0, sstrobe_muxing := 0,
      sastrobe_muxing := 0 }

/-- A reference clock of 6000001 Hz, which the pre-divider 2 does not divide, with the
targets vtclk 240 MHz and mipiclk 300 MHz. -/
def odd_refclk_state : galileo2 := pll_target_state 6000001 240000000 300000000

/-! # Verified properties -/

/-! ## Machine integer lemmas -/

/-- A non-negative value below `2 ^ 32` converts to itself. -/
theorem ofS32_of_nonneg (i : Int) (h0 : 0 ≤ i) (h1 : i < 2 ^ 32) : ofS32 i = i.toNat := by
  unfold ofS32
  rw [Int.emod_eq_of_lt h0 h1]

/-- A value below `2 ^ 31` is stored unchanged in a signed 32-bit member. -/
theorem toS32_u32_of_lt (n : Nat) (h : n < 2 ^ 31) : toS32 (u32 n) = (n : Int) := by
  have h2 : n % 2 ^ 32 = n := Nat.mod_eq_of_lt (by omega)
  unfold toS32 u32
  rw [Nat.mod_mod, h2, if_pos h]

/-- A value inside the range of a `long` is not changed by wrapping. -/
theorem wrapLong_of_range (i : Int) (h0 : -2 ^ 31 ≤ i) (h1 : i < 2 ^ 31) : wrapLong i = i := by
  unfold wrapLong
  rw [Int.emod_eq_of_lt (by omega) (by omega)]
  omega

/-- The macro `IS_BETWEEN` as a proposition. -/
theorem IS_BETWEEN_iff (f lo hi : Nat) : IS_BETWEEN f lo hi = true ↔ lo ≤ f ∧ f ≤ hi := by
  simp [IS_BETWEEN]

/-! ## Video timing and binning -/

/-- C1: with the probe's crop (7716 x 5364) and the full pixel array (7728 x 5368) as
output format, `galileo2_calc_vt` computes `x_binning = 0` and `y_binning = 0` (there is
no lower bound on the quotient, only `min`), where the clamp to `[1, 2]` and `[1, 8]`
gives 1, and it then divides the crop size by the zero binning factor. -/
theorem galileo2_calc_vt_zero_binning :
    (calc_binning format_full_array_state).map (fun g => (g.x_binning, g.y_binning)) = some (0, 0) ∧
    clamp (7716 / 7728) 1 2 = 1 ∧ clamp (5364 / 5368) 1 8 = 1 ∧
    galileo2_calc_vt format_full_array_state = none := by
  decide

/-- C2, as stated, fails: for a crop and a format that are both `INT_MAX` pixels wide
the binning factors are 1 and the stored line length is `-2147483137`, not
`crop.width / x_binning + 512`, because the sum leaves the range of the `__s32` member. -/
theorem galileo2_calc_vt_line_length_wraps :
    ∃ g', galileo2_calc_vt wide_crop_state = some (0, g') ∧
      g'.x_binning = 1 ∧ g'.y_binning = 1 ∧
      g'.video_timing.width = -2147483137 ∧
      g'.video_timing.width ≠ wide_crop_state.crop.width / (g'.x_binning : Int) + 512 := by
  refine ⟨_, rfl, ?_, ?_, ?_, ?_⟩ <;> decide

/-- C2, amended: when the crop width and height are non-negative `__s32` values, the
binning factors are non-zero, and `crop.width / x_binning + 512` and
`crop.height / y_binning + 24` are below `2 ^ 31`, `galileo2_calc_vt` returns 0 and
stores exactly these two values as line length and frame length. -/
theorem galileo2_calc_vt_timing (g : galileo2)
    (hw : 0 ≤ g.crop.width) (hwt : g.crop.width < 2 ^ 31)
    (hh : 0 ≤ g.crop.height) (hht : g.crop.height < 2 ^ 31)
    (hx : min (g.crop.width.toNat / g.format.width) 2 ≠ 0)
    (hy : min (g.crop.height.toNat / g.format.height) 8 ≠ 0)
    (hw' : g.crop.width / ((min (g.crop.width.toNat / g.format.width) 2 : Nat) : Int) + 512 < 2 ^ 31)
    (hh' : g.crop.height / ((min (g.crop.height.toNat / g.format.height) 8 : Nat) : Int) + 24 < 2 ^ 31) :
    ∃ g', galileo2_calc_vt g = some (0, g') ∧
      g'.x_binning = min (g.crop.width.toNat / g.format.width) 2 ∧
      g'.y_binning = min (g.crop.height.toNat / g.format.height) 8 ∧
      g'.video_timing.width = g.crop.width / (g'.x_binning : Int) + 512 ∧
      g'.video_timing.height = g.crop.height / (g'.y_binning : Int) + 24 := by
  obtain ⟨W, hW⟩ : ∃ W : Nat, g.crop.width = (W : Int) := ⟨_, (Int.toNat_of_nonneg hw).symm⟩
  obtain ⟨H, hH⟩ : ∃ H : Nat, g.crop.height = (H : Int) := ⟨_, (Int.toNat_of_nonneg hh).symm⟩
  rw [hW] at hx hw' hwt
  rw [hH] at hy hh' hht
  simp only [Int.toNat_ofNat] at hx hy hw' hh'
  have hfw : g.format.width ≠ 0 := by
    intro h; rw [h] at hx; simp at hx
  have hfh : g.format.height ≠ 0 := by
    intro h; rw [h] at hy; simp at hy
  have hw2 : W / min (W / g.format.width) 2 + 512 < 2 ^ 31 := by
    have := hw'
    rw [← Int.ofNat_ediv] at this
    exact_mod_cast this
  have hh2 : H / min (H / g.format.height) 8 + 24 < 2 ^ 31 := by
    have := hh'
    rw [← Int.ofNat_ediv] at this
    exact_mod_cast this
  have hWo : ofS32 g.crop.width = W := by
    rw [ofS32_of_nonneg _ hw (by rw [hW]; omega), hW, Int.toNat_ofNat]
  have hHo : ofS32 g.crop.height = H := by
    rw [ofS32_of_nonneg _ hh (by rw [hH]; omega), hH, Int.toNat_ofNat]
  refine ⟨{ g with x_binning := min (W / g.format.width) 2,
                   y_binning := min (H / g.format.height) 8,
                   video_timing := { g.video_timing with
                     width := ((W / min (W / g.format.width) 2 + 512 : Nat) : Int),
                     height := ((H / min (H / g.format.height) 8 + 24 : Nat) : Int) } }, ?_, ?_, ?_, ?_, ?_⟩
  · simp only [galileo2_calc_vt, calc_binning, calc_vt_timing, cdiv, hWo, hHo, hfw, hfh, hx, hy,
      if_false, bind, Option.bind, pure, toS32_u32_of_lt _ hw2, toS32_u32_of_lt _ hh2]
  · simp [hW]
  · simp [hH]
  · simp only [hW]; push_cast; rfl
  · simp only [hH]; push_cast; rfl

/-- C2, witness: the probe state (crop and format 7716 x 5364). -/
theorem galileo2_calc_vt_timing_witness :
    ∃ g', galileo2_calc_vt (probe_state 26000000 4) = some (0, g') ∧
      g'.x_binning = min ((probe_state 26000000 4).crop.width.toNat /
        (probe_state 26000000 4).format.width) 2 ∧
      g'.y_binning = min ((probe_state 26000000 4).crop.height.toNat /
        (probe_state 26000000 4).format.height) 8 ∧
      g'.video_timing.width = (probe_state 26000000 4).crop.width / (g'.x_binning : Int) + 512 ∧
      g'.video_timing.height = (probe_state 26000000 4).crop.height / (g'.y_binning : Int) + 24 :=
  galileo2_calc_vt_timing (probe_state 26000000 4) (by decide) (by decide) (by decide) (by decide)
    (by decide) (by decide) (by decide) (by decide)

/-! ## Clock targets -/

/-- C3: for the full pixel array (crop and format 7728 x 5368, hence a video timing of
8240 x 5392) and a frame interval of 1/100 s, the exact quotient
`8240 * 5392 * 100 / 1` is 4443008000, but `galileo2_calc_clocks` stores 148040704 in
`vtclk`: the 64-bit quotient is reduced modulo `2 ^ 32` by the store into the
`unsigned long` member. -/
theorem galileo2_calc_clocks_vtclk_truncated :
    ((galileo2_calc_vt full_array_100fps_state).bind (fun r => galileo2_calc_clocks r.2)).map
        (fun r => (r.1, r.2.video_timing.width, r.2.video_timing.height, r.2.vtclk)) =
      some (0, 8240, 5392, 148040704) ∧
    8240 * 5392 * 100 / 1 = 4443008000 ∧ 4443008000 % 2 ^ 32 = 148040704 := by
  decide

/-- C4: for the probe state of a four-lane board with a frame interval of 1/80 s,
`galileo2_calc_clocks` stores `vtclk = 3546597120` and `mipiclk = 138279104`, whereas
`floor (vtclk * 10 * format.width * x_binning / (crop.width * lanes * 2))`, with
`format.width = crop.width = 7716`, `x_binning = 1` and `lanes = 4`, is 4433246400: the quotient is reduced modulo `2 ^ 32` by the store into `mipiclk`. -/
theorem galileo2_calc_clocks_mipiclk_truncated :
    ((galileo2_calc_vt probe_80fps_state).bind (fun r => galileo2_calc_clocks r.2)).map
        (fun r => (r.1, r.2.vtclk, r.2.bits_per_pixel, r.2.x_binning, r.2.mipiclk)) =
      some (0, 3546597120, 10, 1, 138279104) ∧
    3546597120 * 10 * 7716 * 1 / (7716 * 4 * 2) = 4433246400 ∧
    4433246400 % 2 ^ 32 = 138279104 := by
  decide

/-- The `default` branch of the `switch` is taken exactly for the other codes. -/
theorem is_bayer10_eq_false_iff (code : Nat) :
    is_bayer10 code = false ↔
      (code ≠ V4L2_MBUS_FMT_SBGGR10_1X10 ∧ code ≠ V4L2_MBUS_FMT_SGBRG10_1X10 ∧
       code ≠ V4L2_MBUS_FMT_SGRBG10_1X10 ∧ code ≠ V4L2_MBUS_FMT_SRGGB10_1X10) := by
  simp [is_bayer10, and_assoc]

/-- C5: when the frame-interval numerator is non-zero (so that the `vtclk` division is
defined), `galileo2_calc_clocks` returns `-EINVAL` exactly when the format code is none
of the four 10-bit Bayer codes; a return of `-EINVAL` leaves `vtclk = 0` and
`mipiclk = 0`, a return of 0 leaves `bits_per_pixel = 10`, and no other value is
returned. -/
theorem galileo2_calc_clocks_einval_iff (g : galileo2)
    (hnum : u32 g.frame_interval.numerator ≠ 0) :
    ((∃ g', galileo2_calc_clocks g = some (-EINVAL, g')) ↔
      (g.format.code ≠ V4L2_MBUS_FMT_SBGGR10_1X10 ∧ g.format.code ≠ V4L2_MBUS_FMT_SGBRG10_1X10 ∧
       g.format.code ≠ V4L2_MBUS_FMT_SGRBG10_1X10 ∧ g.format.code ≠ V4L2_MBUS_FMT_SRGGB10_1X10)) ∧
    (∀ g', galileo2_calc_clocks g = some (-EINVAL, g') → g'.vtclk = 0 ∧ g'.mipiclk = 0) ∧
    (∀ g', galileo2_calc_clocks g = some (0, g') → g'.bits_per_pixel = 10) ∧
    (∀ r g', galileo2_calc_clocks g = some (r, g') → r = 0 ∨ r = -EINVAL) := by
  rw [← is_bayer10_eq_false_iff]
  cases hb : is_bayer10 g.format.code
  · simp [galileo2_calc_clocks, div_u64, cdiv, hnum, hb, bind, Option.bind, EINVAL]
  · by_cases hd : u32 (u32 (u32 (ofS32 g.crop.width * g.pdata.lanes) * 2)) = 0 <;>
      simp [galileo2_calc_clocks, div_u64, cdiv, hnum, hb, hd, bind, Option.bind, EINVAL]

/-- C5, witness: the probe state with an unknown pixel code. -/
theorem galileo2_calc_clocks_einval_iff_witness :
    u32 unknown_code_state.frame_interval.numerator ≠ 0 ∧
    (∃ g', galileo2_calc_clocks unknown_code_state = some (-EINVAL, g')) :=
  ⟨by decide,
   ((galileo2_calc_clocks_einval_iff unknown_code_state (by decide)).1).mpr (by decide)⟩

/-! ## The search as a fold over its combinations -/

/-- The error of the source in closed form, when targets and achieved clocks are all
below `2 ^ 30` (no `long` wraps). -/
theorem pll_error_of_small (keep_fps : Int) (tvt tmipi vtclk mipiclk : Nat)
    (h1 : tvt < 2 ^ 30) (h2 : tmipi < 2 ^ 30) (h3 : vtclk < 2 ^ 30) (h4 : mipiclk < 2 ^ 30) :
    pll_error keep_fps tvt tmipi vtclk mipiclk =
      if keep_fps = 1 then
        (if vtclk < tvt ∨ mipiclk < tmipi then none
         else some (((mipiclk : Int) - tmipi) + ((vtclk : Int) - tvt)))
      else some (|(mipiclk : Int) - tmipi| + |(vtclk : Int) - tvt|) := by
  have e1 : wrapLong ((vtclk : Int) - (tvt : Int)) = (vtclk : Int) - tvt :=
    wrapLong_of_range _ (by omega) (by omega)
  have e2 : wrapLong ((mipiclk : Int) - (tmipi : Int)) = (mipiclk : Int) - tmipi :=
    wrapLong_of_range _ (by omega) (by omega)
  unfold pll_error
  simp only [e1, e2]
  by_cases hk : keep_fps = 1
  · simp only [hk, if_true]
    by_cases ha : vtclk < tvt
    · have : (vtclk : Int) - tvt < 0 := by omega
      simp [ha, this]
    · by_cases hb : mipiclk < tmipi
      · have : (mipiclk : Int) - tmipi < 0 := by omega
        have h' : ¬ ((vtclk : Int) - tvt < 0) := by omega
        simp [hb, this, h']
      · have h' : ¬ ((vtclk : Int) - tvt < 0) := by omega
        have h'' : ¬ ((mipiclk : Int) - tmipi < 0) := by omega
        simp only [h', h'', ha, hb, if_false, or_self]
        rw [wrapLong_of_range _ (by omega) (by omega)]
  · simp only [hk, if_false]
    have a1 : (if (vtclk : Int) - tvt < 0 then wrapLong (-((vtclk : Int) - tvt)) else (vtclk : Int) - tvt)
        = |(vtclk : Int) - tvt| := by
      split_ifs with h
      · rw [wrapLong_of_range _ (by omega) (by omega), abs_of_neg h]
      · rw [abs_of_nonneg (by omega)]
    have a2 : (if (mipiclk : Int) - tmipi < 0 then wrapLong (-((mipiclk : Int) - tmipi)) else (mipiclk : Int) - tmipi)
        = |(mipiclk : Int) - tmipi| := by
      split_ifs with h
      · rw [wrapLong_of_range _ (by omega) (by omega), abs_of_neg h]
      · rw [abs_of_nonneg (by omega)]
    rw [a1, a2]
    have b1 : |(vtclk : Int) - tvt| < 2 ^ 30 := by rw [abs_lt]; constructor <;> omega
    have b2 : |(mipiclk : Int) - tmipi| < 2 ^ 30 := by rw [abs_lt]; constructor <;> omega
    have c1 := abs_nonneg ((vtclk : Int) - tvt)
    have c2 := abs_nonneg ((mipiclk : Int) - tmipi)
    rw [wrapLong_of_range _ (by omega) (by omega)]

/-- A loop whose body is a guarded inner loop is one loop over the concatenation of the
inner ranges that pass the guard. -/
theorem foldl_flatMap_guard {α β γ : Type} (l : List α) (c : α → Bool) (G : α → List β)
    (F : γ → β → γ) (b : γ) :
    l.foldl (fun b x => if !c x then b else (G x).foldl F b) b =
      (l.flatMap (fun x => if c x then G x else [])).foldl F b := by
  induction l generalizing b with
  | nil => rfl
  | cons x xs ih =>
    simp only [List.foldl_cons, List.flatMap_cons, List.foldl_append]
    rw [ih]
    cases c x <;> rfl

/-- The five nested loops are a single left fold of `pll_step` over `pll_candidates`. -/
theorem pll_search_eq_foldl (keep_fps : Int) (refclk tvt tmipi : Nat) :
    pll_search keep_fps refclk tvt tmipi =
      (pll_candidates refclk).foldl (pll_step keep_fps refclk tvt tmipi) pll_best_init := by
  have hop : ∀ p m vts vtp b,
      op_sys_div.foldl (pll_op_body keep_fps tvt tmipi p m vts vtp (ulong (refclk / p * m))
        (ulong (refclk / p * m) / vts / vtp)) b =
      (op_sys_div.map fun op => ({ p := p, m := m, vts := vts, vtp := vtp, op := op } : pll_cand)).foldl
        (pll_step keep_fps refclk tvt tmipi) b := by
    intro p m vts vtp b
    rw [List.foldl_map]
    rfl
  have hvtp : ∀ p m vts, pll_vtp_body keep_fps tvt tmipi p m vts (ulong (refclk / p * m))
        (ulong (refclk / p * m) / vts) =
      fun b vtp => if !IS_BETWEEN (ulong (refclk / p * m) / vts / vtp) MIN_VTCLK MAX_VTCLK then b
        else ((op_sys_div.map fun op => ({ p := p, m := m, vts := vts, vtp := vtp, op := op } : pll_cand))).foldl
          (pll_step keep_fps refclk tvt tmipi) b := by
    intro p m vts
    funext b vtp
    simp only [pll_vtp_body, hop]
  have hvts : ∀ p m, pll_vts_body keep_fps tvt tmipi p m (ulong (refclk / p * m)) =
      fun b vts => if !IS_BETWEEN (ulong (refclk / p * m) / vts) MIN_VT_SYS_CLK MAX_VT_SYS_CLK then b
        else (vt_pix_div.flatMap fun vtp =>
                if IS_BETWEEN (ulong (refclk / p * m) / vts / vtp) MIN_VTCLK MAX_VTCLK then
                  op_sys_div.map fun op => ({ p := p, m := m, vts := vts, vtp := vtp, op := op } : pll_cand)
                else []).foldl (pll_step keep_fps refclk tvt tmipi) b := by
    intro p m
    funext b vts
    simp only [pll_vts_body, hvtp, foldl_flatMap_guard]
  have hm : ∀ p, pll_m_body keep_fps tvt tmipi p (refclk / p) =
      fun b m => if !IS_BETWEEN (ulong (refclk / p * m)) MIN_PLL_OP_CLK MAX_PLL_OP_CLK then b
        else (vt_sys_div.flatMap fun vts =>
            if IS_BETWEEN (ulong (refclk / p * m) / vts) MIN_VT_SYS_CLK MAX_VT_SYS_CLK then
              vt_pix_div.flatMap fun vtp =>
                if IS_BETWEEN (ulong (refclk / p * m) / vts / vtp) MIN_VTCLK MAX_VTCLK then
                  op_sys_div.map fun op => ({ p := p, m := m, vts := vts, vtp := vtp, op := op } : pll_cand)
                else []
            else []).foldl (pll_step keep_fps refclk tvt tmipi) b := by
    intro p
    funext b m
    simp only [pll_m_body, hvts, foldl_flatMap_guard]
  have hp : pll_p_body keep_fps refclk tvt tmipi =
      fun b p => if !IS_BETWEEN (refclk / p) MIN_PLL_IN_CLK MAX_PLL_IN_CLK then b
        else (pll_multipliers.flatMap fun m =>
        if IS_BETWEEN (ulong (refclk / p * m)) MIN_PLL_OP_CLK MAX_PLL_OP_CLK then
          vt_sys_div.flatMap fun vts =>
            if IS_BETWEEN (ulong (refclk / p * m) / vts) MIN_VT_SYS_CLK MAX_VT_SYS_CLK then
              vt_pix_div.flatMap fun vtp =>
                if IS_BETWEEN (ulong (refclk / p * m) / vts / vtp) MIN_VTCLK MAX_VTCLK then
                  op_sys_div.map fun op => ({ p := p, m := m, vts := vts, vtp := vtp, op := op } : pll_cand)
                else []
            else []
        else []).foldl (pll_step keep_fps refclk tvt tmipi) b := by
    funext b p
    simp only [pll_p_body, hm, foldl_flatMap_guard]
  unfold pll_search pll_candidates
  rw [hp, foldl_flatMap_guard]

/-- The combinations that reach the innermost loop body are the admissible ones. -/
theorem mem_pll_candidates (refclk : Nat) (c : pll_cand) :
    c ∈ pll_candidates refclk ↔ pll_admissible refclk c := by
  obtain ⟨p, m, vts, vtp, op⟩ := c
  unfold pll_candidates pll_admissible cand_pll_in_clk cand_vtclk cand_vt_sys_clk cand_pll_op_clk
    pll_multipliers
  simp only [List.mem_flatMap, List.mem_map, List.mem_ite_nil_right, List.mem_range'_1,
    pll_cand.mk.injEq]
  constructor
  · rintro ⟨p', hp', h1, m', hm', h2, vts', hvts', h3, vtp', hvtp', h4, op', hop', rfl, rfl, rfl, rfl, rfl⟩
    exact ⟨hp', ⟨hm'.1, by omega⟩, hvts', hvtp', hop', h1, h2, h3, h4⟩
  · rintro ⟨hp, hm, hvts, hvtp, hop, h1, h2, h3, h4⟩
    exact ⟨p, hp, h1, m, ⟨hm.1, by omega⟩, h2, vts, hvts, h3, vtp, hvtp, h4, op, hop, rfl, rfl, rfl, rfl, rfl⟩

/-- The invariant holds before the first iteration. -/
theorem pll_inv_init (sc : pll_cand → Option Int) : pll_inv sc pll_best_init [] := by
  refine ⟨fun _ => ⟨rfl, ?_⟩, fun h => ?_⟩
  · intro c hc; cases hc
  · exact absurd h (by decide)

/-- One iteration preserves the invariant, provided the error of the combination it
visits is not negative. -/
theorem pll_inv_step (keep_fps : Int) (refclk tvt tmipi : Nat) (b : pll_best)
    (l : List pll_cand) (c : pll_cand)
    (hb : pll_inv (pll_score keep_fps refclk tvt tmipi) b l)
    (hc : ∀ e, pll_score keep_fps refclk tvt tmipi c = some e → 0 ≤ e) :
    pll_inv (pll_score keep_fps refclk tvt tmipi) (pll_step keep_fps refclk tvt tmipi b c)
      (l ++ [c]) := by
  obtain ⟨h1, h2⟩ := hb
  unfold pll_step
  cases hs : pll_error keep_fps tvt tmipi (cand_vtclk refclk c) (cand_mipiclk refclk c) with
  | none =>
    have hs' : pll_score keep_fps refclk tvt tmipi c = none := hs
    refine ⟨fun h => ⟨(h1 h).1, ?_⟩, fun h => ?_⟩
    · intro c' hc'
      rcases List.mem_append.mp hc' with h' | h'
      · exact (h1 h).2 c' h'
      · rw [List.mem_singleton.mp h']; exact hs'
    · obtain ⟨h0, ⟨c0, hc0, hc0'⟩, hmin⟩ := h2 h
      refine ⟨h0, ⟨c0, List.mem_append_left _ hc0, hc0'⟩, ?_⟩
      intro c' hc' e he
      rcases List.mem_append.mp hc' with h' | h'
      · exact hmin c' h' e he
      · rw [List.mem_singleton.mp h', hs'] at he; cases he
  | some e =>
    have hs' : pll_score keep_fps refclk tvt tmipi c = some e := hs
    have he0 : 0 ≤ e := hc e hs'
    simp only [pll_update]
    by_cases hu : e ≤ b.best_error ∨ b.best_error < 0
    · rw [if_pos hu]
      refine ⟨fun h => absurd rfl h, fun _ => ⟨he0, ⟨c, List.mem_append_right _ (List.mem_singleton.mpr rfl), hs', rfl⟩, ?_⟩⟩
      intro c' hc' e' he'
      rcases List.mem_append.mp hc' with h' | h'
      · by_cases hr : b.ret = 0
        · obtain ⟨h0, _, hmin⟩ := h2 hr
          have := hmin c' h' e' he'
          rcases hu with hu | hu
          · exact le_trans hu this
          · omega
        · have := (h1 hr).2 c' h'
          rw [this] at he'; cases he'
      · rw [List.mem_singleton.mp h', hs'] at he'
        cases he'; exact le_refl _
    · rw [if_neg hu]
      have hu1 : b.best_error < e := by
        by_contra hcon; exact hu (Or.inl (not_lt.mp hcon))
      have hu2 : 0 ≤ b.best_error := by
        by_contra hcon; exact hu (Or.inr (not_le.mp hcon))
      have hr : b.ret = 0 := by
        by_contra hr
        have := (h1 hr).1
        rw [this] at hu2
        exact absurd hu2 (by decide)
      refine ⟨fun h => absurd hr h, fun _ => ?_⟩
      obtain ⟨h0, ⟨c0, hc0, hc0'⟩, hmin⟩ := h2 hr
      refine ⟨h0, ⟨c0, List.mem_append_left _ hc0, hc0'⟩, ?_⟩
      intro c' hc' e' he'
      rcases List.mem_append.mp hc' with h' | h'
      · exact hmin c' h' e' he'
      · rw [List.mem_singleton.mp h', hs'] at he'
        cases he'; exact le_of_lt hu1

/-- The invariant is preserved by any number of iterations. -/
theorem pll_inv_foldl (keep_fps : Int) (refclk tvt tmipi : Nat) (l2 : List pll_cand) :
    ∀ (l1 : List pll_cand) (b : pll_best),
      pll_inv (pll_score keep_fps refclk tvt tmipi) b l1 →
      (∀ c ∈ l2, ∀ e, pll_score keep_fps refclk tvt tmipi c = some e → 0 ≤ e) →
      pll_inv (pll_score keep_fps refclk tvt tmipi)
        (l2.foldl (pll_step keep_fps refclk tvt tmipi) b) (l1 ++ l2) := by
  induction l2 with
  | nil => intro l1 b hb _; simpa using hb
  | cons c cs ih =>
    intro l1 b hb hn
    have h1 := pll_inv_step keep_fps refclk tvt tmipi b l1 c hb
      (hn c (List.mem_cons_self _ _))
    have h2 := ih (l1 ++ [c]) _ h1 (fun c' hc' => hn c' (List.mem_cons_of_mem _ hc'))
    simpa [List.append_assoc] using h2

/-- The invariant holds for the result of the search over all admissible combinations,
provided no admissible combination has a negative error. -/
theorem pll_search_inv (keep_fps : Int) (refclk tvt tmipi : Nat)
    (hn : ∀ c, pll_admissible refclk c →
      ∀ e, pll_score keep_fps refclk tvt tmipi c = some e → 0 ≤ e) :
    pll_inv (pll_score keep_fps refclk tvt tmipi) (pll_search keep_fps refclk tvt tmipi)
      (pll_candidates refclk) := by
  have h := pll_inv_foldl keep_fps refclk tvt tmipi (pll_candidates refclk) [] pll_best_init
    (pll_inv_init _) (fun c hc => hn c ((mem_pll_candidates refclk c).mp hc))
  rw [List.nil_append, ← pll_search_eq_foldl] at h
  exact h

/-- The achieved vtclk of an admissible combination is inside `[MIN_VTCLK, MAX_VTCLK]`. -/
theorem pll_admissible_vtclk (refclk : Nat) (c : pll_cand) (h : pll_admissible refclk c) :
    MIN_VTCLK ≤ cand_vtclk refclk c ∧ cand_vtclk refclk c ≤ MAX_VTCLK :=
  (IS_BETWEEN_iff _ _ _).mp h.2.2.2.2.2.2.2.2

/-- The achieved mipiclk of an admissible combination is below `2 ^ 30`. -/
theorem pll_admissible_mipiclk_lt (refclk : Nat) (c : pll_cand) (h : pll_admissible refclk c) :
    cand_mipiclk refclk c < 2 ^ 30 := by
  have h1 := ((IS_BETWEEN_iff _ _ _).mp h.2.2.2.2.2.2.1).2
  have h2 : cand_pll_op_clk refclk c / c.op ≤ cand_pll_op_clk refclk c := Nat.div_le_self _ _
  have h3 : cand_mipiclk refclk c ≤ cand_pll_op_clk refclk c / 2 := Nat.div_le_div_right h2
  have h4 : cand_pll_op_clk refclk c / 2 ≤ MAX_PLL_OP_CLK / 2 := Nat.div_le_div_right h1
  have h5 : MAX_PLL_OP_CLK / 2 < 2 ^ 30 := by decide
  omega

/-- The achieved mipiclk of an admissible combination is at most 520 MHz: the PLL output
is at most `MAX_PLL_OP_CLK` and the output divider is at least 2. -/
theorem pll_admissible_mipiclk_le (refclk : Nat) (c : pll_cand) (h : pll_admissible refclk c) :
    cand_mipiclk refclk c ≤ 520000000 := by
  have h1 : cand_pll_op_clk refclk c ≤ 2080000000 := ((IS_BETWEEN_iff _ _ _).mp h.2.2.2.2.2.2.1).2
  have hop : 2 ≤ c.op := by
    have := h.2.2.2.2.1
    simp only [op_sys_div, List.mem_cons, List.mem_singleton, List.not_mem_nil, or_false] at this
    omega
  have h2 : cand_pll_op_clk refclk c / c.op ≤ cand_pll_op_clk refclk c / 2 :=
    Nat.div_le_div_left hop (by decide)
  have h3 : cand_mipiclk refclk c ≤ cand_pll_op_clk refclk c / 2 / 2 := Nat.div_le_div_right h2
  omega

/-- For targets below `2 ^ 30` the error the search computes for an admissible
combination is the error sum of the spec, and with `keep_fps = 1` the combination is
skipped exactly when an achieved clock is below its target. -/
theorem pll_score_of_small (keep_fps : Int) (refclk tvt tmipi : Nat) (c : pll_cand)
    (h1 : tvt < 2 ^ 30) (h2 : tmipi < 2 ^ 30) (hc : pll_admissible refclk c) :
    pll_score keep_fps refclk tvt tmipi c =
      if keep_fps = 1 then
        (if cand_vtclk refclk c < tvt ∨ cand_mipiclk refclk c < tmipi then none
         else some (pll_abs_error tvt tmipi (cand_vtclk refclk c) (cand_mipiclk refclk c)))
      else some (pll_abs_error tvt tmipi (cand_vtclk refclk c) (cand_mipiclk refclk c)) := by
  have hv := (pll_admissible_vtclk refclk c hc).2
  have hv' : cand_vtclk refclk c < 2 ^ 30 := lt_of_le_of_lt hv (by decide)
  have hm' := pll_admissible_mipiclk_lt refclk c hc
  unfold pll_score pll_abs_error
  rw [pll_error_of_small keep_fps tvt tmipi _ _ h1 h2 hv' hm']
  by_cases hk : keep_fps = 1
  · simp only [hk, if_true]
    by_cases hr : cand_vtclk refclk c < tvt ∨ cand_mipiclk refclk c < tmipi
    · simp only [hr, if_true]
    · simp only [hr, if_false]
      have a : ¬ cand_vtclk refclk c < tvt := fun h => hr (Or.inl h)
      have b : ¬ cand_mipiclk refclk c < tmipi := fun h => hr (Or.inr h)
      rw [abs_of_nonneg (by omega), abs_of_nonneg (by omega)]
      congr 1; ring
  · simp only [hk, if_false]
    congr 1; ring

/-- For targets below `2 ^ 30` no admissible combination has a negative error. -/
theorem pll_score_nonneg_of_small (keep_fps : Int) (refclk tvt tmipi : Nat)
    (h1 : tvt < 2 ^ 30) (h2 : tmipi < 2 ^ 30) (c : pll_cand) (hc : pll_admissible refclk c)
    (e : Int) (he : pll_score keep_fps refclk tvt tmipi c = some e) : 0 ≤ e := by
  rw [pll_score_of_small keep_fps refclk tvt tmipi c h1 h2 hc] at he
  have hpos : 0 ≤ pll_abs_error tvt tmipi (cand_vtclk refclk c) (cand_mipiclk refclk c) :=
    add_nonneg (abs_nonneg _) (abs_nonneg _)
  split_ifs at he <;> cases he <;> exact hpos

/-- The return value of `galileo2_pll_brute_force` is the local `ret` of the search. -/
theorem galileo2_pll_brute_force_ret (g : galileo2) (keep_fps : Int) :
    (galileo2_pll_brute_force g keep_fps).1 =
      (pll_search keep_fps g.pdata.refclk g.vtclk g.mipiclk).ret := by
  unfold galileo2_pll_brute_force
  by_cases h : (pll_search keep_fps g.pdata.refclk g.vtclk g.mipiclk).ret = 0
  · simp [h]
  · simp [h]

/-- A search that ends with `ret = 0` makes `galileo2_pll_brute_force` return 0 and store
its result. -/
theorem galileo2_pll_brute_force_of_search (g : galileo2) (keep_fps : Int) (b : pll_best)
    (h : pll_search keep_fps g.pdata.refclk g.vtclk g.mipiclk = b) (hb : b.ret = 0) :
    galileo2_pll_brute_force g keep_fps = (0, pll_store g b) := by
  unfold galileo2_pll_brute_force
  simp only [h, hb, ne_eq, not_true_eq_false, if_false]

/-- A failing `galileo2_pll_brute_force` leaves the state unchanged. -/
theorem galileo2_pll_brute_force_fail_state (g : galileo2) (keep_fps : Int)
    (h : (galileo2_pll_brute_force g keep_fps).1 < 0) :
    (galileo2_pll_brute_force g keep_fps).2 = g := by
  unfold galileo2_pll_brute_force at h ⊢
  by_cases hr : (pll_search keep_fps g.pdata.refclk g.vtclk g.mipiclk).ret = 0
  · simp [hr] at h
  · simp [hr]

/-- The vtclk stored after a successful search (lines 684-685). -/
theorem pll_store_vtclk (g : galileo2) (b : pll_best) :
    (pll_store g b).vtclk =
      ulong (g.pdata.refclk * b.best_m) / u32 (u32 (b.best_p * b.best_vts) * b.best_vtp) := rfl

/-- The mipiclk stored after a successful search (lines 686-687). -/
theorem pll_store_mipiclk (g : galileo2) (b : pll_best) :
    (pll_store g b).mipiclk =
      ulong (g.pdata.refclk * b.best_m) / u32 (u32 (b.best_p * b.best_op) * 2) := rfl

/-! ## Correctness of the evaluation device -/

/-- The device `force` does not change the value. -/
theorem force_eq {α : Type} (n : Nat) (k : Nat → α) : force n k = k n := by
  cases n <;> rfl

/-- The device `acc_foldl` is the ordinary left fold. -/
theorem acc_foldl_eq (f : pll_acc → Nat → pll_acc) (a : pll_acc) (l : List Nat) :
    acc_foldl f a l = l.foldl f a := by
  induction l generalizing a with
  | nil => rfl
  | cons x xs ih => simp only [acc_foldl, List.foldl_cons]; exact ih _

/-- Two loops whose bodies correspond through `pll_acc.toBest` have corresponding
results. -/
theorem foldl_toBest {α : Type} (f : pll_best → α → pll_best) (f' : pll_acc → α → pll_acc)
    (l : List α) (h : ∀ a x, x ∈ l → f (pll_acc.toBest a) x = pll_acc.toBest (f' a x))
    (a : pll_acc) : l.foldl f (pll_acc.toBest a) = pll_acc.toBest (l.foldl f' a) := by
  induction l generalizing a with
  | nil => rfl
  | cons x xs ih =>
    rw [List.foldl_cons, List.foldl_cons, h a x (List.mem_cons_self _ _)]
    exact ih (fun a y hy => h a y (List.mem_cons_of_mem _ hy)) _

/-- A loop whose body never changes the accumulator returns it. -/
theorem foldl_fixed {α β : Type} (f : β → α → β) (b : β) (l : List α)
    (h : ∀ x ∈ l, f b x = b) : l.foldl f b = b := by
  induction l with
  | nil => rfl
  | cons x xs ih =>
    rw [List.foldl_cons, h x (List.mem_cons_self _ _)]
    exact ih (fun y hy => h y (List.mem_cons_of_mem _ hy))

/-- Below `2 ^ 30` the error of the source is the error over the natural numbers. -/
theorem pll_error_eq_nat (keep_fps : Int) (tvt tmipi vtclk mipiclk : Nat)
    (h1 : tvt < 2 ^ 30) (h2 : tmipi < 2 ^ 30) (h3 : vtclk < 2 ^ 30) (h4 : mipiclk < 2 ^ 30) :
    pll_error keep_fps tvt tmipi vtclk mipiclk =
      Option.map Int.ofNat (pll_error_nat (decide (keep_fps = 1)) tvt tmipi vtclk mipiclk) := by
  rw [pll_error_of_small keep_fps tvt tmipi vtclk mipiclk h1 h2 h3 h4]
  unfold pll_error_nat
  by_cases hk : keep_fps = 1
  · simp only [hk, if_true, decide_True]
    by_cases hr : vtclk < tvt ∨ mipiclk < tmipi
    · simp only [hr, if_true, Option.map_none']
    · simp only [hr, if_false, Option.map_some', Int.ofNat_eq_coe]
      congr 1
      omega
  · simp only [hk, if_false, decide_False, Option.map_some', Bool.false_eq_true]
    congr 1
    have a1 : |(mipiclk : Int) - tmipi| = (((mipiclk - tmipi) + (tmipi - mipiclk) : Nat) : Int) := by
      rcases le_total tmipi mipiclk with h | h
      · rw [abs_of_nonneg (by omega)]; omega
      · rw [abs_of_nonpos (by omega)]; omega
    have a2 : |(vtclk : Int) - tvt| = (((vtclk - tvt) + (tvt - vtclk) : Nat) : Int) := by
      rcases le_total tvt vtclk with h | h
      · rw [abs_of_nonneg (by omega)]; omega
      · rw [abs_of_nonpos (by omega)]; omega
    rw [a1, a2, Int.ofNat_eq_coe]
    push_cast
    ring

/-- The innermost loop body corresponds to its counterpart on accumulators. -/
theorem pll_op_body_toBest (keep_fps : Int) (tvt tmipi p m vts vtp pll_op_clk vtclk : Nat)
    (h1 : tvt < 2 ^ 30) (h2 : tmipi < 2 ^ 30)
    (hpop : pll_op_clk ≤ MAX_PLL_OP_CLK) (hvt : vtclk ≤ MAX_VTCLK) (a : pll_acc) (op : Nat) :
    pll_op_body keep_fps tvt tmipi p m vts vtp pll_op_clk vtclk (pll_acc.toBest a) op =
      pll_acc.toBest (acc_op_body (decide (keep_fps = 1)) tvt tmipi p m vts vtp pll_op_clk vtclk a op) := by
  have hm : pll_op_clk / op / 2 < 2 ^ 30 := by
    have a : pll_op_clk / op ≤ pll_op_clk := Nat.div_le_self _ _
    have b' : pll_op_clk / op / 2 ≤ pll_op_clk / 2 := Nat.div_le_div_right a
    have c : pll_op_clk / 2 ≤ MAX_PLL_OP_CLK / 2 := Nat.div_le_div_right hpop
    have d : MAX_PLL_OP_CLK / 2 < 2 ^ 30 := by decide
    omega
  have hv : vtclk < 2 ^ 30 := lt_of_le_of_lt hvt (by decide)
  unfold pll_op_body acc_op_body
  simp only
  rw [pll_error_eq_nat keep_fps tvt tmipi vtclk _ h1 h2 hv hm]
  cases pll_error_nat (decide (keep_fps = 1)) tvt tmipi vtclk (pll_op_clk / op / 2) with
  | none => rfl
  | some e =>
    simp only [Option.map_some', force_eq, Int.ofNat_eq_coe]
    obtain ⟨fd, err, p', m', vts', vtp', op'⟩ := a
    cases fd
    · simp [pll_acc.toBest, pll_update, pll_best_init]
    · by_cases hle : e ≤ err
      · have : (e : Int) ≤ (err : Int) := by exact_mod_cast hle
        simp [pll_acc.toBest, pll_update, hle, this]
      · have h' : ¬ ((e : Int) ≤ (err : Int)) := by omega
        have h'' : ¬ ((err : Int) < 0) := by omega
        simp [pll_acc.toBest, pll_update, hle, h', h'']

/-- When `acc_prune` holds the innermost loop body leaves the accumulator unchanged. -/
theorem acc_op_body_of_prune (keep1 : Bool) (tvt tmipi p m vts vtp pll_op_clk vtclk : Nat)
    (a : pll_acc) (op : Nat) (hop : op ∈ op_sys_div)
    (hpr : acc_prune keep1 tvt tmipi pll_op_clk a = true) :
    acc_op_body keep1 tvt tmipi p m vts vtp pll_op_clk vtclk a op = a := by
  have hall := (List.all_eq_true.mp hpr) op hop
  unfold acc_op_body
  unfold pll_error_nat at hall ⊢
  cases keep1
  · simp only [Bool.false_eq_true, if_false, Bool.and_eq_true, decide_eq_true_eq] at hall ⊢
    rw [force_eq, if_neg]
    rw [hall.1]
    simp only [Bool.true_eq_false, or_false, not_le]
    omega
  · simp only [if_true] at hall ⊢
    by_cases hr : vtclk < tvt ∨ pll_op_clk / op / 2 < tmipi
    · simp only [hr, if_true]
    · have hr' : ¬ (tvt < tvt ∨ pll_op_clk / op / 2 < tmipi) := by omega
      simp only [hr, hr', if_false, Bool.and_eq_true, decide_eq_true_eq] at hall ⊢
      rw [force_eq, if_neg]
      rw [hall.1]
      simp only [Bool.true_eq_false, or_false, not_le]
      omega

/-- The body of the multiplier loop corresponds to its counterpart on accumulators,
pruning included. -/
theorem acc_m_body_toBest (keep_fps : Int) (tvt tmipi p pll_in_clk : Nat)
    (h1 : tvt < 2 ^ 30) (h2 : tmipi < 2 ^ 30) (a : pll_acc) (m : Nat) :
    pll_m_body keep_fps tvt tmipi p pll_in_clk (pll_acc.toBest a) m =
      pll_acc.toBest (acc_m_body (decide (keep_fps = 1)) tvt tmipi p pll_in_clk a m) := by
  unfold pll_m_body acc_m_body
  simp only [force_eq]
  cases hb : IS_BETWEEN (ulong (pll_in_clk * m)) MIN_PLL_OP_CLK MAX_PLL_OP_CLK
  · rfl
  · have hpop := ((IS_BETWEEN_iff _ _ _).mp hb).2
    simp only [Bool.not_true, Bool.false_eq_true, if_false]
    have hfull : vt_sys_div.foldl (pll_vts_body keep_fps tvt tmipi p m (ulong (pll_in_clk * m)))
          (pll_acc.toBest a) =
        pll_acc.toBest (acc_foldl (acc_vts_body (decide (keep_fps = 1)) tvt tmipi p m
          (ulong (pll_in_clk * m))) a vt_sys_div) := by
      rw [acc_foldl_eq]
      apply foldl_toBest
      intro a vts _
      unfold pll_vts_body acc_vts_body
      simp only [force_eq]
      split_ifs
      · rfl
      · rw [acc_foldl_eq]
        apply foldl_toBest
        intro a vtp _
        unfold pll_vtp_body acc_vtp_body
        simp only [force_eq]
        split_ifs with hvt
        · rfl
        · have hvt' : IS_BETWEEN (ulong (pll_in_clk * m) / vts / vtp) MIN_VTCLK MAX_VTCLK = true := by
            simpa using hvt
          rw [acc_foldl_eq]
          apply foldl_toBest
          intro a op _
          exact pll_op_body_toBest keep_fps tvt tmipi p m vts vtp _ _ h1 h2 hpop
            ((IS_BETWEEN_iff _ _ _).mp hvt').2 a op
    rw [hfull]
    cases hpr : acc_prune (decide (keep_fps = 1)) tvt tmipi (ulong (pll_in_clk * m)) a
    · rfl
    · simp only [if_true]
      congr 1
      rw [acc_foldl_eq]
      apply foldl_fixed
      intro vts _
      unfold acc_vts_body
      simp only [force_eq]
      split_ifs
      · rfl
      · rw [acc_foldl_eq]
        apply foldl_fixed
        intro vtp _
        unfold acc_vtp_body
        simp only [force_eq]
        split_ifs
        · rfl
        · rw [acc_foldl_eq]
          apply foldl_fixed
          intro op hop
          exact acc_op_body_of_prune _ tvt tmipi p m vts vtp _ _ a op hop hpr

/-- For targets below `2 ^ 30` the search of the source returns the locals that the
search over natural numbers stands for. -/
theorem pll_search_eq_nat (keep_fps : Int) (refclk tvt tmipi : Nat)
    (h1 : tvt < 2 ^ 30) (h2 : tmipi < 2 ^ 30) :
    pll_search keep_fps refclk tvt tmipi =
      pll_acc.toBest (pll_search_nat (decide (keep_fps = 1)) refclk tvt tmipi) := by
  unfold pll_search pll_search_nat
  rw [acc_foldl_eq]
  have h0 : pll_best_init = pll_acc.toBest
      { found := false, err := 0, p := 0, m := 0, vts := 0, vtp := 0, op := 0 } := rfl
  rw [h0]
  apply foldl_toBest
  intro a p _
  unfold pll_p_body acc_p_body
  simp only
  split_ifs
  · rfl
  · rw [acc_foldl_eq]
    apply foldl_toBest
    intro a m _
    exact acc_m_body_toBest keep_fps tvt tmipi p (refclk / p) h1 h2 a m

/-- Kernel evaluation of the search for refclk 26 MHz and targets 100 MHz, 500 MHz,
`keep_fps = 1`. -/
theorem pll_search_nat_reference :
    pll_search_nat true 26000000 100000000 500000000 =
      { found := true, err := 600000, p := 4, m := 308, vts := 4, vtp := 5, op := 2 } := by
  decide!

/-- Kernel evaluation of the search for refclk 26 MHz and targets 20 MHz, 82.5 MHz,
`keep_fps = 0`. -/
theorem pll_search_nat_low_mipiclk :
    pll_search_nat false 26000000 20000000 82500000 =
      { found := true, err := 654206, p := 2, m := 813, vts := 12, vtp := 8, op := 12 } := by
  decide!

/-- Result of the search of the source for the reference targets, `keep_fps = 1`. -/
theorem pll_search_reference :
    pll_search 1 26000000 100000000 500000000 =
      { ret := 0, best_error := 600000, best_p := 4, best_m := 308, best_vts := 4,
        best_vtp := 5, best_op := 2 } := by
  rw [pll_search_eq_nat 1 26000000 100000000 500000000 (by norm_num) (by norm_num)]
  have hk : decide ((1 : Int) = 1) = true := by decide
  rw [hk, pll_search_nat_reference]
  rfl

/-- Result of the search of the source for the low targets, `keep_fps = 0`. -/
theorem pll_search_low_mipiclk :
    pll_search 0 26000000 20000000 82500000 =
      { ret := 0, best_error := 654206, best_p := 2, best_m := 813, best_vts := 12,
        best_vtp := 8, best_op := 12 } := by
  rw [pll_search_eq_nat 0 26000000 20000000 82500000 (by norm_num) (by norm_num)]
  have hk : decide ((0 : Int) = 1) = false := by decide
  rw [hk, pll_search_nat_low_mipiclk]
  rfl

/-! ## Properties of the PLL search -/

/-- C6: for refclk 26 MHz, target vtclk 20 MHz, target mipiclk 82.5 MHz and
`keep_fps = 0`, `galileo2_pll_brute_force` succeeds and selects the admissible
combination (2, 813, 12, 8, 12), whose achieved mipiclk
`pll_op_clk / op_sys_div / 2 = 82461058` is below `MIN_MIPICLK`; that value is also
the mipiclk it stores.  The loop range-checks the achieved vtclk but not the achieved
mipiclk. -/
theorem galileo2_pll_brute_force_mipiclk_below_min :
    (galileo2_pll_brute_force low_mipiclk_state 0).1 = 0 ∧
    pll_selected low_mipiclk_state 0 = { p := 2, m := 813, vts := 12, vtp := 8, op := 12 } ∧
    pll_admissible 26000000 (pll_selected low_mipiclk_state 0) ∧
    cand_mipiclk 26000000 (pll_selected low_mipiclk_state 0) = 82461058 ∧
    (galileo2_pll_brute_force low_mipiclk_state 0).2.mipiclk = 82461058 ∧
    82461058 < MIN_MIPICLK := by
  have hs : pll_search 0 low_mipiclk_state.pdata.refclk low_mipiclk_state.vtclk
      low_mipiclk_state.mipiclk =
      { ret := 0, best_error := 654206, best_p := 2, best_m := 813, best_vts := 12,
        best_vtp := 8, best_op := 12 } := pll_search_low_mipiclk
  have hsel : pll_selected low_mipiclk_state 0 =
      { p := 2, m := 813, vts := 12, vtp := 8, op := 12 } := by
    unfold pll_selected; rw [hs]; rfl
  have hbf := galileo2_pll_brute_force_of_search low_mipiclk_state 0 _ hs rfl
  refine ⟨?_, hsel, ?_, ?_, ?_, by decide⟩
  · rw [hbf]
  · rw [hsel]; decide
  · rw [hsel]; decide
  · rw [hbf, pll_store_mipiclk]
    decide

/-- C7: for targets inside the hardware ranges and `keep_fps = 1`, a successful
`galileo2_pll_brute_force` selected an admissible combination whose achieved vtclk and
mipiclk are at or above the targets (the mipiclk is then inside its hardware range as
well); the call returns `-EINVAL` exactly when no
admissible combination has both achieved clocks at or above the targets; and it returns
nothing but 0 or `-EINVAL`. -/
theorem galileo2_pll_brute_force_keep_fps (g : galileo2)
    (hvt : MIN_VTCLK ≤ g.vtclk ∧ g.vtclk ≤ MAX_VTCLK)
    (hmipi : MIN_MIPICLK ≤ g.mipiclk ∧ g.mipiclk ≤ MAX_MIPICLK) :
    ((galileo2_pll_brute_force g 1).1 = 0 →
      pll_admissible g.pdata.refclk (pll_selected g 1) ∧
      g.vtclk ≤ cand_vtclk g.pdata.refclk (pll_selected g 1) ∧
      g.mipiclk ≤ cand_mipiclk g.pdata.refclk (pll_selected g 1) ∧
      cand_mipiclk g.pdata.refclk (pll_selected g 1) ≤ MAX_MIPICLK) ∧
    ((galileo2_pll_brute_force g 1).1 = -EINVAL ↔
      ¬ ∃ c, pll_admissible g.pdata.refclk c ∧ g.vtclk ≤ cand_vtclk g.pdata.refclk c ∧
        g.mipiclk ≤ cand_mipiclk g.pdata.refclk c) ∧
    ((galileo2_pll_brute_force g 1).1 = 0 ∨ (galileo2_pll_brute_force g 1).1 = -EINVAL) := by
  have h1 : g.vtclk < 2 ^ 30 := lt_of_le_of_lt hvt.2 (by decide)
  have h2 : g.mipiclk < 2 ^ 30 := lt_of_le_of_lt hmipi.2 (by decide)
  have hinv := pll_search_inv 1 g.pdata.refclk g.vtclk g.mipiclk
    (pll_score_nonneg_of_small 1 g.pdata.refclk g.vtclk g.mipiclk h1 h2)
  rw [galileo2_pll_brute_force_ret]
  obtain ⟨hA, hB⟩ := hinv
  have hsel : (pll_search 1 g.pdata.refclk g.vtclk g.mipiclk).ret = 0 →
      pll_admissible g.pdata.refclk (pll_selected g 1) ∧
      g.vtclk ≤ cand_vtclk g.pdata.refclk (pll_selected g 1) ∧
      g.mipiclk ≤ cand_mipiclk g.pdata.refclk (pll_selected g 1) ∧
      cand_mipiclk g.pdata.refclk (pll_selected g 1) ≤ MAX_MIPICLK := by
    intro h0
    obtain ⟨_, ⟨c, hc, hsc, hbc⟩, _⟩ := hB h0
    have hadm := (mem_pll_candidates _ _).mp hc
    have hc' : pll_selected g 1 = c := hbc
    rw [hc']
    rw [pll_score_of_small 1 g.pdata.refclk g.vtclk g.mipiclk c h1 h2 hadm] at hsc
    simp only [if_true] at hsc
    split_ifs at hsc with hr
    have hle : cand_mipiclk g.pdata.refclk c ≤ MAX_MIPICLK :=
      le_trans (pll_admissible_mipiclk_le _ c hadm) (by decide)
    exact ⟨hadm, by omega, by omega, hle⟩
  have hfail : (pll_search 1 g.pdata.refclk g.vtclk g.mipiclk).ret ≠ 0 →
      (pll_search 1 g.pdata.refclk g.vtclk g.mipiclk).ret = -EINVAL ∧
      ¬ ∃ c, pll_admissible g.pdata.refclk c ∧ g.vtclk ≤ cand_vtclk g.pdata.refclk c ∧
        g.mipiclk ≤ cand_mipiclk g.pdata.refclk c := by
    intro hne
    obtain ⟨hinit, hnone⟩ := hA hne
    refine ⟨by rw [hinit]; rfl, ?_⟩
    rintro ⟨c, hadm, hv, hm⟩
    have := hnone c ((mem_pll_candidates _ _).mpr hadm)
    rw [pll_score_of_small 1 g.pdata.refclk g.vtclk g.mipiclk c h1 h2 hadm] at this
    simp only [if_true] at this
    split_ifs at this with hr
    omega
  refine ⟨hsel, ⟨?_, ?_⟩, ?_⟩
  · intro he
    have hne : (pll_search 1 g.pdata.refclk g.vtclk g.mipiclk).ret ≠ 0 := by
      rw [he]; decide
    exact (hfail hne).2
  · intro hno
    by_cases h0 : (pll_search 1 g.pdata.refclk g.vtclk g.mipiclk).ret = 0
    · exact absurd ⟨_, (hsel h0).1, (hsel h0).2.1, (hsel h0).2.2.1⟩ hno
    · exact (hfail h0).1
  · by_cases h0 : (pll_search 1 g.pdata.refclk g.vtclk g.mipiclk).ret = 0
    · exact Or.inl h0
    · exact Or.inr (hfail h0).1

/-- C7, witness: the targets 100 MHz and 500 MHz with a 26 MHz reference clock; the
search succeeds and the selected combination is at or above both targets. -/
theorem galileo2_pll_brute_force_keep_fps_witness :
    (MIN_VTCLK ≤ reference_target_state.vtclk ∧ reference_target_state.vtclk ≤ MAX_VTCLK) ∧
    (MIN_MIPICLK ≤ reference_target_state.mipiclk ∧
      reference_target_state.mipiclk ≤ MAX_MIPICLK) ∧
    (galileo2_pll_brute_force reference_target_state 1).1 = 0 ∧
    pll_admissible reference_target_state.pdata.refclk (pll_selected reference_target_state 1) ∧
    reference_target_state.vtclk ≤
      cand_vtclk reference_target_state.pdata.refclk (pll_selected reference_target_state 1) ∧
    reference_target_state.mipiclk ≤
      cand_mipiclk reference_target_state.pdata.refclk (pll_selected reference_target_state 1) ∧
    cand_mipiclk reference_target_state.pdata.refclk (pll_selected reference_target_state 1) ≤
      MAX_MIPICLK :=
  have h1 : (galileo2_pll_brute_force reference_target_state 1).1 = 0 := by
    rw [galileo2_pll_brute_force_of_search reference_target_state 1 _ pll_search_reference rfl]
  ⟨by decide, by decide, h1,
   (galileo2_pll_brute_force_keep_fps reference_target_state (by decide) (by decide)).1 h1⟩

/-- With a target vtclk of 4 GHz the `long` difference `vtclk - target` wraps to
`vtclk + 294967296`, which the `keep_fps = 0` branch takes as the vtclk error. -/
theorem pll_error_of_wrapped_vtclk (tmipi vtclk mipiclk : Nat)
    (h2 : tmipi < 2 ^ 30) (h3 : vtclk ≤ MAX_VTCLK) (h4 : mipiclk < 2 ^ 30) :
    pll_error 0 4000000000 tmipi vtclk mipiclk =
      some (|(mipiclk : Int) - tmipi| + ((vtclk : Int) + 294967296)) := by
  have hv : vtclk ≤ 256000000 := h3
  have e1 : wrapLong ((vtclk : Int) - ((4000000000 : Nat) : Int)) = (vtclk : Int) + 294967296 := by
    unfold wrapLong
    omega
  have e2 : wrapLong ((mipiclk : Int) - (tmipi : Int)) = (mipiclk : Int) - tmipi :=
    wrapLong_of_range _ (by omega) (by omega)
  unfold pll_error
  simp only [e1, e2]
  have hk : ¬ ((0 : Int) = 1) := by decide
  have hp : ¬ ((vtclk : Int) + 294967296 < 0) := by omega
  simp only [hk, hp, if_false]
  have a2 : (if (mipiclk : Int) - tmipi < 0 then wrapLong (-((mipiclk : Int) - tmipi)) else (mipiclk : Int) - tmipi)
      = |(mipiclk : Int) - tmipi| := by
    split_ifs with h
    · rw [wrapLong_of_range _ (by omega) (by omega), abs_of_neg h]
    · rw [abs_of_nonneg (by omega)]
  rw [a2]
  have b2 : |(mipiclk : Int) - tmipi| < 2 ^ 30 := by rw [abs_lt]; constructor <;> omega
  have c2 := abs_nonneg ((mipiclk : Int) - tmipi)
  rw [wrapLong_of_range _ (by omega) (by omega)]

/-- C8, as stated, fails: with a target vtclk of 4 GHz (refclk 26 MHz, target mipiclk
83416666, `keep_fps = 0`) the search succeeds, but the `long` difference
`vtclk - target` wraps to a positive value, the search prefers the lowest vtclk, and
the admissible combination (4, 308, 2, 4, 12) has a strictly smaller error sum than
the selected one. -/
theorem galileo2_pll_brute_force_not_minimal :
    (galileo2_pll_brute_force wrapped_target_state 0).1 = 0 ∧
    ∃ c, pll_admissible 26000000 c ∧
      pll_abs_error 4000000000 83416666 (cand_vtclk 26000000 c) (cand_mipiclk 26000000 c) <
        pll_abs_error 4000000000 83416666
          (cand_vtclk 26000000 (pll_selected wrapped_target_state 0))
          (cand_mipiclk 26000000 (pll_selected wrapped_target_state 0)) := by
  have hsc : ∀ c, pll_admissible 26000000 c →
      pll_score 0 26000000 4000000000 83416666 c =
        some (|(cand_mipiclk 26000000 c : Int) - (83416666 : Nat)| +
          ((cand_vtclk 26000000 c : Int) + 294967296)) := by
    intro c hc
    exact pll_error_of_wrapped_vtclk 83416666 _ _ (by decide)
      (pll_admissible_vtclk _ c hc).2 (pll_admissible_mipiclk_lt _ c hc)
  have hinv := pll_search_inv 0 26000000 4000000000 83416666 (by
    intro c hc e he
    rw [hsc c hc] at he
    have := abs_nonneg ((cand_mipiclk 26000000 c : Int) - (83416666 : Nat))
    have h := Option.some.inj he
    omega)
  have hx : pll_admissible 26000000 ⟨4, 308, 10, 10, 12⟩ := by decide
  have hxv : cand_vtclk 26000000 ⟨4, 308, 10, 10, 12⟩ = 20020000 := by decide
  have hxm : cand_mipiclk 26000000 ⟨4, 308, 10, 10, 12⟩ = 83416666 := by decide
  have hy : pll_admissible 26000000 ⟨4, 308, 2, 4, 12⟩ := by decide
  have hyv : cand_vtclk 26000000 ⟨4, 308, 2, 4, 12⟩ = 250250000 := by decide
  have hym : cand_mipiclk 26000000 ⟨4, 308, 2, 4, 12⟩ = 83416666 := by decide
  have hret : (pll_search 0 26000000 4000000000 83416666).ret = 0 := by
    by_contra hne
    have := (hinv.1 hne).2 _ ((mem_pll_candidates _ _).mpr hx)
    rw [hsc _ hx] at this
    exact absurd this (by simp)
  obtain ⟨_, ⟨c0, hc0, hsc0, hbc0⟩, hmin⟩ := hinv.2 hret
  have hadm0 := (mem_pll_candidates _ _).mp hc0
  have hsel : pll_selected wrapped_target_state 0 = c0 := hbc0
  refine ⟨by rw [galileo2_pll_brute_force_ret]; exact hret, ⟨4, 308, 2, 4, 12⟩, hy, ?_⟩
  rw [hsel, hyv, hym]
  have hle := hmin _ ((mem_pll_candidates _ _).mpr hx) _ (hsc _ hx)
  rw [hsc c0 hadm0] at hsc0
  have hbe := Option.some.inj hsc0
  rw [hxv, hxm] at hle
  have hv0 := (pll_admissible_vtclk _ c0 hadm0)
  have hv0' : cand_vtclk 26000000 c0 ≤ 256000000 := hv0.2
  have hnn := abs_nonneg ((cand_mipiclk 26000000 c0 : Int) - (83416666 : Nat))
  unfold pll_abs_error
  have a1 : |((cand_vtclk 26000000 c0 : Nat) : Int) - ((4000000000 : Nat) : Int)| =
      4000000000 - (cand_vtclk 26000000 c0 : Int) := by
    rw [abs_of_neg (by omega)]; push_cast; ring
  have a2 : |((250250000 : Nat) : Int) - ((4000000000 : Nat) : Int)| = 3749750000 := by
    norm_num
  have a3 : |((83416666 : Nat) : Int) - ((83416666 : Nat) : Int)| = 0 := by simp
  rw [a1, a2, a3]
  simp only [sub_self, abs_zero] at hle
  omega

/-- C8, amended: for targets inside the hardware ranges, a successful
`galileo2_pll_brute_force` selected an admissible combination (passing the
not-below-target check when `keep_fps = 1`) whose error sum
`|achieved_vtclk - target| + |achieved_mipiclk - target|` is at most that of every
admissible combination (passing the same check when `keep_fps = 1`). -/
theorem galileo2_pll_brute_force_minimal (g : galileo2) (keep_fps : Int)
    (hvt : MIN_VTCLK ≤ g.vtclk ∧ g.vtclk ≤ MAX_VTCLK)
    (hmipi : MIN_MIPICLK ≤ g.mipiclk ∧ g.mipiclk ≤ MAX_MIPICLK)
    (hok : (galileo2_pll_brute_force g keep_fps).1 = 0) :
    pll_admissible g.pdata.refclk (pll_selected g keep_fps) ∧
    (keep_fps = 1 → g.vtclk ≤ cand_vtclk g.pdata.refclk (pll_selected g keep_fps) ∧
      g.mipiclk ≤ cand_mipiclk g.pdata.refclk (pll_selected g keep_fps)) ∧
    ∀ c, pll_admissible g.pdata.refclk c →
      (keep_fps = 1 → g.vtclk ≤ cand_vtclk g.pdata.refclk c ∧
        g.mipiclk ≤ cand_mipiclk g.pdata.refclk c) →
      pll_abs_error g.vtclk g.mipiclk (cand_vtclk g.pdata.refclk (pll_selected g keep_fps))
          (cand_mipiclk g.pdata.refclk (pll_selected g keep_fps)) ≤
        pll_abs_error g.vtclk g.mipiclk (cand_vtclk g.pdata.refclk c)
          (cand_mipiclk g.pdata.refclk c) := by
  have h1 : g.vtclk < 2 ^ 30 := lt_of_le_of_lt hvt.2 (by decide)
  have h2 : g.mipiclk < 2 ^ 30 := lt_of_le_of_lt hmipi.2 (by decide)
  have hinv := pll_search_inv keep_fps g.pdata.refclk g.vtclk g.mipiclk
    (pll_score_nonneg_of_small keep_fps g.pdata.refclk g.vtclk g.mipiclk h1 h2)
  rw [galileo2_pll_brute_force_ret] at hok
  obtain ⟨_, ⟨c0, hc0, hsc0, hbc0⟩, hmin⟩ := hinv.2 hok
  have hadm0 := (mem_pll_candidates _ _).mp hc0
  have hc' : pll_selected g keep_fps = c0 := hbc0
  rw [hc']
  rw [pll_score_of_small keep_fps g.pdata.refclk g.vtclk g.mipiclk c0 h1 h2 hadm0] at hsc0
  have hbe : (pll_search keep_fps g.pdata.refclk g.vtclk g.mipiclk).best_error =
      pll_abs_error g.vtclk g.mipiclk (cand_vtclk g.pdata.refclk c0)
        (cand_mipiclk g.pdata.refclk c0) := by
    split_ifs at hsc0
    · exact (Option.some.inj hsc0).symm
    · exact (Option.some.inj hsc0).symm
  refine ⟨hadm0, ?_, ?_⟩
  · intro hk
    simp only [hk, if_true] at hsc0
    split_ifs at hsc0 with hr
    exact ⟨by omega, by omega⟩
  · intro c hadm hpass
    have hsc := pll_score_of_small keep_fps g.pdata.refclk g.vtclk g.mipiclk c h1 h2 hadm
    rw [← hbe]
    apply hmin c ((mem_pll_candidates _ _).mpr hadm)
    rw [hsc]
    by_cases hk : keep_fps = 1
    · have hp := hpass hk
      have hr : ¬ (cand_vtclk g.pdata.refclk c < g.vtclk ∨ cand_mipiclk g.pdata.refclk c < g.mipiclk) := by
        omega
      simp only [hk, if_true, hr, if_false]
    · simp only [hk, if_false]

/-- C8, witness: the targets 100 MHz and 500 MHz with a 26 MHz reference clock and
`keep_fps = 1`. -/
theorem galileo2_pll_brute_force_minimal_witness :
    (MIN_VTCLK ≤ reference_target_state.vtclk ∧ reference_target_state.vtclk ≤ MAX_VTCLK) ∧
    (MIN_MIPICLK ≤ reference_target_state.mipiclk ∧
      reference_target_state.mipiclk ≤ MAX_MIPICLK) ∧
    (galileo2_pll_brute_force reference_target_state 1).1 = 0 ∧
    pll_admissible reference_target_state.pdata.refclk (pll_selected reference_target_state 1) :=
  have h1 : (galileo2_pll_brute_force reference_target_state 1).1 = 0 := by
    rw [galileo2_pll_brute_force_of_search reference_target_state 1 _ pll_search_reference rfl]
  ⟨by decide, by decide, h1,
   (galileo2_pll_brute_force_minimal reference_target_state 1 (by decide) (by decide) h1).1⟩

/-! ## Properties of `galileo2_calc_plls` -/

/-- The PLL0 search writes the `pll0` member only. -/
theorem pll0_store_eq (g : galileo2) : pll0_store g = { g with pll0 := (pll0_store g).pll0 } := rfl

/-- A failed sanity check returns `-EINVAL` without calling the search. -/
theorem galileo2_calc_plls_traced_of_not_sane (g : galileo2) (hs : calc_plls_sane g = false) :
    galileo2_calc_plls_traced g = (-EINVAL, g, []) := by
  unfold galileo2_calc_plls_traced
  unfold calc_plls_sane at hs
  cases h1 : IS_BETWEEN g.mipiclk MIN_MIPICLK MAX_MIPICLK <;>
  cases h2 : IS_BETWEEN g.vtclk MIN_VTCLK MAX_VTCLK <;>
  cases h3 : IS_BETWEEN g.pdata.refclk MIN_REFCLK MAX_REFCLK <;>
  simp [h1, h2, h3] at hs ⊢

/-- The control flow of `galileo2_calc_plls` after the sanity checks. -/
theorem galileo2_calc_plls_traced_of_sane (g : galileo2) (hs : calc_plls_sane g = true) :
    galileo2_calc_plls_traced g =
      if (galileo2_pll_brute_force g 1).1 < 0 then
        (if (galileo2_pll_brute_force g 0).1 < 0 then (-EINVAL, g, [1, 0])
         else (0, pll0_store (galileo2_pll_brute_force g 0).2, [1, 0]))
      else (0, pll0_store (galileo2_pll_brute_force g 1).2, [1]) := by
  unfold galileo2_calc_plls_traced
  unfold calc_plls_sane at hs
  simp only [Bool.and_eq_true] at hs
  obtain ⟨⟨h1, h2⟩, h3⟩ := hs
  simp only [h1, h2, h3, Bool.not_true, Bool.false_eq_true, if_false]
  by_cases hp1 : (galileo2_pll_brute_force g 1).1 < 0
  · simp only [hp1, if_true, galileo2_pll_brute_force_fail_state g 1 hp1]
    by_cases hp0 : (galileo2_pll_brute_force g 0).1 < 0
    · simp only [hp0, if_true, galileo2_pll_brute_force_fail_state g 0 hp0]
    · simp only [hp0, if_false]
  · simp only [hp1, if_false]

/-- C9: `galileo2_calc_plls` calls the search with `keep_fps = 1` first and with
`keep_fps = 0` exactly when the first call failed (no call at all when a sanity check
fails); it returns an error exactly when a sanity check fails or both calls fail; and
when the first call succeeds it returns 0 with the state left by that call, changed
only in the `pll0` member. -/
theorem galileo2_calc_plls_two_pass (g : galileo2) :
    galileo2_calc_plls g = ((galileo2_calc_plls_traced g).1, (galileo2_calc_plls_traced g).2.1) ∧
    ((galileo2_calc_plls_traced g).2.2 =
      if calc_plls_sane g then
        (if (galileo2_pll_brute_force g 1).1 < 0 then [1, 0] else [1])
      else []) ∧
    ((galileo2_calc_plls g).1 < 0 ↔
      (calc_plls_sane g = false ∨
        ((galileo2_pll_brute_force g 1).1 < 0 ∧ (galileo2_pll_brute_force g 0).1 < 0))) ∧
    (calc_plls_sane g = true → ¬ (galileo2_pll_brute_force g 1).1 < 0 →
      (galileo2_calc_plls g).1 = 0 ∧
      (galileo2_calc_plls g).2 =
        { (galileo2_pll_brute_force g 1).2 with pll0 := (galileo2_calc_plls g).2.pll0 }) := by
  have hE : (-EINVAL : Int) < 0 := by decide
  have hZ : ¬ ((0 : Int) < 0) := by decide
  unfold galileo2_calc_plls
  cases hs : calc_plls_sane g
  · rw [galileo2_calc_plls_traced_of_not_sane g hs]
    simp [hE]
  · rw [galileo2_calc_plls_traced_of_sane g hs]
    by_cases hp1 : (galileo2_pll_brute_force g 1).1 < 0
    · by_cases hp0 : (galileo2_pll_brute_force g 0).1 < 0
      · simp [hp1, hp0, hE]
      · simp [hp1, hp0, hZ]
    · simp only [hp1, if_false, if_true, hZ, false_and, or_false, Bool.true_eq_false,
        not_false_eq_true, true_and, forall_true_left, true_implies]
      exact pll0_store_eq _

/-- C10: for refclk 26 MHz, target vtclk 100 MHz and target mipiclk 500 MHz the
`keep_fps = 1` pass succeeds (selecting the combination (4, 308, 4, 5, 2)),
`galileo2_calc_plls` returns 0, and the clocks it stores, 46412908 and 232064544, are
inside `[MIN_VTCLK, MAX_VTCLK]` and `[MIN_MIPICLK, MAX_MIPICLK]`. -/
theorem galileo2_calc_plls_reference_targets (g : galileo2)
    (hr : g.pdata.refclk = 26000000) (hv : g.vtclk = 100000000) (hm : g.mipiclk = 500000000) :
    (galileo2_pll_brute_force g 1).1 = 0 ∧
    pll_selected g 1 = { p := 4, m := 308, vts := 4, vtp := 5, op := 2 } ∧
    (galileo2_calc_plls g).1 = 0 ∧
    (galileo2_calc_plls g).2.vtclk = 46412908 ∧
    (galileo2_calc_plls g).2.mipiclk = 232064544 ∧
    (MIN_VTCLK ≤ (galileo2_calc_plls g).2.vtclk ∧ (galileo2_calc_plls g).2.vtclk ≤ MAX_VTCLK) ∧
    (MIN_MIPICLK ≤ (galileo2_calc_plls g).2.mipiclk ∧
      (galileo2_calc_plls g).2.mipiclk ≤ MAX_MIPICLK) := by
  have hs : pll_search 1 g.pdata.refclk g.vtclk g.mipiclk =
      { ret := 0, best_error := 600000, best_p := 4, best_m := 308, best_vts := 4,
        best_vtp := 5, best_op := 2 } := by
    rw [hr, hv, hm]; exact pll_search_reference
  have hbf := galileo2_pll_brute_force_of_search g 1 _ hs rfl
  have hp1 : (galileo2_pll_brute_force g 1).1 = 0 := by rw [hbf]
  have hsane : calc_plls_sane g = true := by
    unfold calc_plls_sane; rw [hr, hv, hm]; decide
  have hnot : ¬ (galileo2_pll_brute_force g 1).1 < 0 := by rw [hp1]; decide
  have hc : galileo2_calc_plls g = (0, pll0_store (galileo2_pll_brute_force g 1).2) := by
    unfold galileo2_calc_plls
    rw [galileo2_calc_plls_traced_of_sane g hsane, if_neg hnot]
  have hvt : (galileo2_calc_plls g).2.vtclk = 46412908 := by
    rw [hc, hbf]
    show (pll_store g _).vtclk = 46412908
    rw [pll_store_vtclk, hr]
    decide
  have hmi : (galileo2_calc_plls g).2.mipiclk = 232064544 := by
    rw [hc, hbf]
    show (pll_store g _).mipiclk = 232064544
    rw [pll_store_mipiclk, hr]
    decide
  refine ⟨hp1, ?_, ?_, hvt, hmi, ?_, ?_⟩
  · unfold pll_selected; rw [hs]; rfl
  · rw [hc]
  · rw [hvt]; decide
  · rw [hmi]; decide

/-- C10, witness: the state `reference_target_state`. -/
theorem galileo2_calc_plls_reference_targets_witness :
    reference_target_state.pdata.refclk = 26000000 ∧
    reference_target_state.vtclk = 100000000 ∧
    reference_target_state.mipiclk = 500000000 ∧
    (galileo2_calc_plls reference_target_state).1 = 0 :=
  ⟨rfl, rfl, rfl, (galileo2_calc_plls_reference_targets reference_target_state rfl rfl rfl).2.2.1⟩

/-! ## Unreachable targets -/

/-- The search succeeds as soon as one admissible combination is not skipped (targets
below `2 ^ 30`). -/
theorem pll_search_ret_of_scored (keep_fps : Int) (refclk tvt tmipi : Nat)
    (h1 : tvt < 2 ^ 30) (h2 : tmipi < 2 ^ 30) (c : pll_cand) (hc : pll_admissible refclk c)
    (e : Int) (he : pll_score keep_fps refclk tvt tmipi c = some e) :
    (pll_search keep_fps refclk tvt tmipi).ret = 0 := by
  by_contra hne
  have hinv := pll_search_inv keep_fps refclk tvt tmipi
    (pll_score_nonneg_of_small keep_fps refclk tvt tmipi h1 h2)
  have hnone := (hinv.1 hne).2 c ((mem_pll_candidates _ _).mpr hc)
  rw [hnone] at he
  exact Option.noConfusion he

/-- With a 26 MHz reference clock the search succeeds for the targets (1, 1) in both
modes: the combination (4, 154, 10, 5, 24) passes the range checks and its clocks,
20020000 and 20854166, are above the targets. -/
theorem galileo2_pll_brute_force_unreachable (g : galileo2) (keep_fps : Int)
    (hr : g.pdata.refclk = 26000000) (hv : g.vtclk = 1) (hm : g.mipiclk = 1) :
    (galileo2_pll_brute_force g keep_fps).1 = 0 := by
  rw [galileo2_pll_brute_force_ret, hr, hv, hm]
  have hc : pll_admissible 26000000 { p := 4, m := 154, vts := 10, vtp := 5, op := 24 } := by
    decide
  have hs := pll_score_of_small keep_fps 26000000 1 1 _ (by norm_num) (by norm_num) hc
  have hno : ¬ (cand_vtclk 26000000 { p := 4, m := 154, vts := 10, vtp := 5, op := 24 } < 1 ∨
      cand_mipiclk 26000000 { p := 4, m := 154, vts := 10, vtp := 5, op := 24 } < 1) := by
    decide
  rw [if_neg hno, ite_self] at hs
  exact pll_search_ret_of_scored keep_fps 26000000 1 1 (by norm_num) (by norm_num) _ hc _ hs

/-- C11, counterexample: for refclk 26 MHz and the targets vtclk = 1, mipiclk = 1,
`galileo2_pll_brute_force` returns 0 (success), not an error, with `keep_fps = 1` and
with `keep_fps = 0`. -/
theorem galileo2_pll_brute_force_unreachable_succeeds :
    (galileo2_pll_brute_force unreachable_target_state 1).1 = 0 ∧
    (galileo2_pll_brute_force unreachable_target_state 0).1 = 0 ∧
    ¬ ((galileo2_pll_brute_force unreachable_target_state 1).1 < 0) ∧
    ¬ ((galileo2_pll_brute_force unreachable_target_state 0).1 < 0) := by
  have h1 := galileo2_pll_brute_force_unreachable unreachable_target_state 1 rfl rfl rfl
  have h0 := galileo2_pll_brute_force_unreachable unreachable_target_state 0 rfl rfl rfl
  refine ⟨h1, h0, ?_, ?_⟩
  · rw [h1]; decide
  · rw [h0]; decide

/-- C11, amended: for the targets vtclk = 1, mipiclk = 1 and a 26 MHz reference clock,
`galileo2_calc_plls` returns `-EINVAL` from its range checks, leaving the state
unchanged and calling `galileo2_pll_brute_force` in neither pass; the search itself has
no range check on the targets and, called on them, returns 0 for `keep_fps = 1` and for
`keep_fps = 0`. -/
theorem galileo2_calc_plls_unreachable (g : galileo2)
    (hr : g.pdata.refclk = 26000000) (hv : g.vtclk = 1) (hm : g.mipiclk = 1) :
    galileo2_calc_plls_traced g = (-EINVAL, g, []) ∧
    galileo2_calc_plls g = (-EINVAL, g) ∧
    (galileo2_calc_plls g).1 < 0 ∧
    (galileo2_pll_brute_force g 1).1 = 0 ∧
    (galileo2_pll_brute_force g 0).1 = 0 := by
  have hs : calc_plls_sane g = false := by
    unfold calc_plls_sane; rw [hr, hv, hm]; decide
  have ht := galileo2_calc_plls_traced_of_not_sane g hs
  have hc : galileo2_calc_plls g = (-EINVAL, g) := by
    unfold galileo2_calc_plls; rw [ht]
  refine ⟨ht, hc, ?_, galileo2_pll_brute_force_unreachable g 1 hr hv hm,
    galileo2_pll_brute_force_unreachable g 0 hr hv hm⟩
  rw [hc]
  show (-EINVAL : Int) < 0
  decide

/-- C11, witness: the state `unreachable_target_state`. -/
theorem galileo2_calc_plls_unreachable_witness :
    unreachable_target_state.pdata.refclk = 26000000 ∧
    unreachable_target_state.vtclk = 1 ∧ unreachable_target_state.mipiclk = 1 ∧
    (galileo2_calc_plls unreachable_target_state).1 < 0 ∧
    (galileo2_pll_brute_force unreachable_target_state 1).1 = 0 :=
  ⟨rfl, rfl, rfl, (galileo2_calc_plls_unreachable unreachable_target_state rfl rfl rfl).2.2.1,
    (galileo2_calc_plls_unreachable unreachable_target_state rfl rfl rfl).2.2.2.1⟩

/-! ## Evaluation of the search on the round-trip targets -/

/-- Kernel evaluation of the search for refclk 26 MHz and targets 24 MHz, 120 MHz,
`keep_fps = 0`. -/
theorem pll_search_nat_round_trip :
    pll_search_nat false 26000000 24000000 120000000 =
      { found := true, err := 5291667, p := 4, m := 154, vts := 6, vtp := 7, op := 4 } := by
  decide!

/-- Kernel evaluation of the search for refclk 26 MHz and targets 23833333 Hz,
119166665 Hz, `keep_fps = 0`. -/
theorem pll_search_nat_round_trip_second :
    pll_search_nat false 26000000 23833333 119166665 =
      { found := true, err := 5958335, p := 4, m := 154, vts := 6, vtp := 7, op := 4 } := by
  decide!

/-- Result of the search of the source for the targets of `round_trip_state`. -/
theorem pll_search_round_trip :
    pll_search 0 26000000 24000000 120000000 =
      { ret := 0, best_error := 5291667, best_p := 4, best_m := 154, best_vts := 6,
        best_vtp := 7, best_op := 4 } := by
  rw [pll_search_eq_nat 0 26000000 24000000 120000000 (by norm_num) (by norm_num)]
  have hk : decide ((0 : Int) = 1) = false := by decide
  rw [hk, pll_search_nat_round_trip]
  rfl

/-- Result of the search of the source for the targets of `round_trip_second_state`. -/
theorem pll_search_round_trip_second :
    pll_search 0 26000000 23833333 119166665 =
      { ret := 0, best_error := 5958335, best_p := 4, best_m := 154, best_vts := 6,
        best_vtp := 7, best_op := 4 } := by
  rw [pll_search_eq_nat 0 26000000 23833333 119166665 (by norm_num) (by norm_num)]
  have hk : decide ((0 : Int) = 1) = false := by decide
  rw [hk, pll_search_nat_round_trip_second]
  rfl

/-- The state `round_trip_state` is the one `galileo2_calc_vt` and
`galileo2_calc_clocks` compute from its crop, format and frame interval. -/
theorem round_trip_state_consistent :
    galileo2_calc_vt round_trip_state = some (0, round_trip_state) ∧
    galileo2_calc_clocks round_trip_state = some (0, round_trip_state) := by
  constructor <;> decide

/-- The recomputation of the clock targets after the first solve of `round_trip_state`. -/
theorem round_trip_calc_clocks :
    galileo2_calc_clocks (pll_store round_trip_state
      { ret := 0, best_error := 5291667, best_p := 4, best_m := 154, best_vts := 6,
        best_vtp := 7, best_op := 4 }) = some (0, round_trip_second_state) := by
  decide

/-! ## What a successful search stores -/

/-- A successful `galileo2_pll_brute_force` leaves the state written by `pll_store`. -/
theorem galileo2_pll_brute_force_state_of_ok (g : galileo2) (keep_fps : Int)
    (hok : (galileo2_pll_brute_force g keep_fps).1 = 0) :
    (galileo2_pll_brute_force g keep_fps).2 =
      pll_store g (pll_search keep_fps g.pdata.refclk g.vtclk g.mipiclk) := by
  rw [galileo2_pll_brute_force_ret] at hok
  rw [galileo2_pll_brute_force_of_search g keep_fps _ rfl hok]

/-- The members that `pll_store` leaves alone or overwrites with fixed values. -/
theorem pll_store_pdata (g : galileo2) (b : pll_best) : (pll_store g b).pdata = g.pdata := rfl

theorem pll_store_video_timing (g : galileo2) (b : pll_best) :
    (pll_store g b).video_timing = g.video_timing := rfl

theorem pll_store_pll1 (g : galileo2) (b : pll_best) :
    (pll_store g b).pll1 =
      { pre_pll_clk_div := 1, pll_multiplier := 720, vt_sys_clk_div := 6,
        vt_pix_clk_div := 12, op_sys_clk_div := 6, op_pix_clk_div := 6 } := rfl

/-- The frame interval and the line duration stored after a successful search. -/
theorem pll_store_frame_interval (g : galileo2) (b : pll_best) :
    (pll_store g b).frame_interval =
      { numerator := ofS32 (g.video_timing.width * g.video_timing.height),
        denominator := u32 (pll_store g b).vtclk } := rfl

theorem pll_store_line_duration (g : galileo2) (b : pll_best) :
    (pll_store g b).line_duration_ns =
      ulong (u64 (toU64 g.video_timing.width * 1000000000) / 100000000) := rfl

/-- The stored vtclk fits the 32-bit member. -/
theorem pll_store_vtclk_lt (g : galileo2) (b : pll_best) : (pll_store g b).vtclk < 2 ^ 32 := by
  rw [pll_store_vtclk]
  have h1 : ulong (g.pdata.refclk * b.best_m) < 2 ^ 32 := Nat.mod_lt _ (by decide)
  exact lt_of_le_of_lt (Nat.div_le_self _ _) h1

/-- The line duration expression for a line length `w` with `w * 10` below `2 ^ 32`. -/
theorem line_duration_of_small (w : Nat) (h : w * 10 < 2 ^ 32) :
    ulong (u64 (toU64 (w : Int) * 1000000000) / 100000000) = w * 10 := by
  have h1 : toU64 (w : Int) = w := by
    unfold toU64
    rw [Int.emod_eq_of_lt (by omega) (by omega), Int.toNat_ofNat]
  have h2 : u64 (w * 1000000000) = w * 1000000000 := by
    unfold u64; exact Nat.mod_eq_of_lt (by omega)
  have h3 : w * 1000000000 / 100000000 = w * 10 := by omega
  rw [h1, h2, h3]
  unfold ulong BITS_PER_LONG
  exact Nat.mod_eq_of_lt h

/-- For targets below `2 ^ 30`, a successful search recorded an admissible combination
together with its error sum, and no admissible combination that is not skipped has a
smaller one. -/
theorem pll_search_selected (keep_fps : Int) (refclk tvt tmipi : Nat)
    (h1 : tvt < 2 ^ 30) (h2 : tmipi < 2 ^ 30)
    (hok : (pll_search keep_fps refclk tvt tmipi).ret = 0) :
    pll_admissible refclk (pll_best_cand (pll_search keep_fps refclk tvt tmipi)) ∧
    (pll_search keep_fps refclk tvt tmipi).best_error =
      pll_abs_error tvt tmipi
        (cand_vtclk refclk (pll_best_cand (pll_search keep_fps refclk tvt tmipi)))
        (cand_mipiclk refclk (pll_best_cand (pll_search keep_fps refclk tvt tmipi))) ∧
    ∀ c e, pll_admissible refclk c → pll_score keep_fps refclk tvt tmipi c = some e →
      (pll_search keep_fps refclk tvt tmipi).best_error ≤ e := by
  have hinv := pll_search_inv keep_fps refclk tvt tmipi
    (pll_score_nonneg_of_small keep_fps refclk tvt tmipi h1 h2)
  obtain ⟨_, ⟨c0, hc0, hsc0, hbc0⟩, hmin⟩ := hinv.2 hok
  have hadm0 := (mem_pll_candidates _ _).mp hc0
  rw [hbc0]
  rw [pll_score_of_small keep_fps refclk tvt tmipi c0 h1 h2 hadm0] at hsc0
  refine ⟨hadm0, ?_, ?_⟩
  · split_ifs at hsc0
    · exact (Option.some.inj hsc0).symm
    · exact (Option.some.inj hsc0).symm
  · intro c e hadm he
    exact hmin c ((mem_pll_candidates _ _).mpr hadm) e he

/-- The divider product of an admissible combination does not wrap. -/
theorem pll_admissible_divisors (refclk : Nat) (c : pll_cand) (h : pll_admissible refclk c) :
    u32 (u32 (c.p * c.vts) * c.vtp) = c.p * c.vts * c.vtp ∧
    u32 (u32 (c.p * c.op) * 2) = c.p * c.op * 2 := by
  have hp : c.p ≤ 4 := by
    have := h.1
    simp only [pre_pll_div, List.mem_cons, List.mem_singleton, List.not_mem_nil, or_false] at this
    omega
  have hvts : c.vts ≤ 12 := by
    have := h.2.2.1
    simp only [vt_sys_div, List.mem_cons, List.mem_singleton, List.not_mem_nil, or_false] at this
    omega
  have hvtp : c.vtp ≤ 12 := by
    have := h.2.2.2.1
    simp only [vt_pix_div, List.mem_cons, List.mem_singleton, List.not_mem_nil, or_false] at this
    omega
  have hop : c.op ≤ 24 := by
    have := h.2.2.2.2.1
    simp only [op_sys_div, List.mem_cons, List.mem_singleton, List.not_mem_nil, or_false] at this
    omega
  have a1 : c.p * c.vts ≤ 4 * 12 := Nat.mul_le_mul hp hvts
  have a2 : c.p * c.vts * c.vtp ≤ 4 * 12 * 12 := Nat.mul_le_mul a1 hvtp
  have a3 : c.p * c.op ≤ 4 * 24 := Nat.mul_le_mul hp hop
  unfold u32
  rw [Nat.mod_eq_of_lt (by omega : c.p * c.vts < 2 ^ 32),
    Nat.mod_eq_of_lt (by omega : c.p * c.vts * c.vtp < 2 ^ 32),
    Nat.mod_eq_of_lt (by omega : c.p * c.op < 2 ^ 32),
    Nat.mod_eq_of_lt (by omega : c.p * c.op * 2 < 2 ^ 32)]
  exact ⟨rfl, rfl⟩

/-- C12, as stated, fails: for `round_trip_state` (refclk 26 MHz, targets 24 MHz and
120 MHz, `keep_fps = 0`) the search succeeds and finds the combination
(4, 154, 6, 7, 4), but the stored `pll1` has multiplier 720, and the stored `pll1`
does not reproduce the stored clocks: `26000000 * 720 / (1 * 6 * 12) = 260000000` where
the stored vtclk is 23833333, and `26000000 * 720 / (1 * 6 * 2) = 1560000000` where the
stored mipiclk is 125125000. -/
theorem galileo2_pll_brute_force_pll1_not_selected :
    (galileo2_pll_brute_force round_trip_state 0).1 = 0 ∧
    pll_selected round_trip_state 0 = { p := 4, m := 154, vts := 6, vtp := 7, op := 4 } ∧
    (galileo2_pll_brute_force round_trip_state 0).2.pll1 =
      { pre_pll_clk_div := 1, pll_multiplier := 720, vt_sys_clk_div := 6,
        vt_pix_clk_div := 12, op_sys_clk_div := 6, op_pix_clk_div := 6 } ∧
    (galileo2_pll_brute_force round_trip_state 0).2.vtclk = 23833333 ∧
    (galileo2_pll_brute_force round_trip_state 0).2.mipiclk = 125125000 ∧
    26000000 * 720 / (1 * 6 * 12) ≠ (galileo2_pll_brute_force round_trip_state 0).2.vtclk ∧
    26000000 * 720 / (1 * 6 * 2) ≠ (galileo2_pll_brute_force round_trip_state 0).2.mipiclk := by
  have hs : pll_search 0 round_trip_state.pdata.refclk round_trip_state.vtclk
      round_trip_state.mipiclk =
      { ret := 0, best_error := 5291667, best_p := 4, best_m := 154, best_vts := 6,
        best_vtp := 7, best_op := 4 } := pll_search_round_trip
  have hbf := galileo2_pll_brute_force_of_search round_trip_state 0 _ hs rfl
  have hv : (galileo2_pll_brute_force round_trip_state 0).2.vtclk = 23833333 := by
    rw [hbf]; show (pll_store round_trip_state _).vtclk = 23833333
    rw [pll_store_vtclk]; decide
  have hm : (galileo2_pll_brute_force round_trip_state 0).2.mipiclk = 125125000 := by
    rw [hbf]; show (pll_store round_trip_state _).mipiclk = 125125000
    rw [pll_store_mipiclk]; decide
  refine ⟨?_, ?_, ?_, hv, hm, ?_, ?_⟩
  · rw [hbf]
  · unfold pll_selected; rw [hs]; rfl
  · rw [hbf]; rfl
  · rw [hv]; decide
  · rw [hm]; decide

/-- C12, amended: after a successful `galileo2_pll_brute_force` on targets not above the
hardware maxima, the stored `pll1` is the fixed configuration (1, 720, 6, 12, 6, 6)
that lines 703-708 write over the combination the search found, and the stored clocks
are those of the found combination (p, m, vts, vtp, op):
`refclk * m / (p * vts * vtp)` and `refclk * m / (p * op * 2)`, whenever `refclk * m`
is below `2 ^ 32`. -/
theorem galileo2_pll_brute_force_pll1 (g : galileo2) (keep_fps : Int)
    (hvt : g.vtclk ≤ MAX_VTCLK) (hmipi : g.mipiclk ≤ MAX_MIPICLK)
    (hok : (galileo2_pll_brute_force g keep_fps).1 = 0)
    (hw : g.pdata.refclk * (pll_selected g keep_fps).m < 2 ^ 32) :
    (galileo2_pll_brute_force g keep_fps).2.pll1 =
      { pre_pll_clk_div := 1, pll_multiplier := 720, vt_sys_clk_div := 6,
        vt_pix_clk_div := 12, op_sys_clk_div := 6, op_pix_clk_div := 6 } ∧
    pll_admissible g.pdata.refclk (pll_selected g keep_fps) ∧
    (galileo2_pll_brute_force g keep_fps).2.vtclk =
      g.pdata.refclk * (pll_selected g keep_fps).m /
        ((pll_selected g keep_fps).p * (pll_selected g keep_fps).vts *
          (pll_selected g keep_fps).vtp) ∧
    (galileo2_pll_brute_force g keep_fps).2.mipiclk =
      g.pdata.refclk * (pll_selected g keep_fps).m /
        ((pll_selected g keep_fps).p * (pll_selected g keep_fps).op * 2) := by
  have h1 : g.vtclk < 2 ^ 30 := lt_of_le_of_lt hvt (by decide)
  have h2 : g.mipiclk < 2 ^ 30 := lt_of_le_of_lt hmipi (by decide)
  have hst := galileo2_pll_brute_force_state_of_ok g keep_fps hok
  rw [galileo2_pll_brute_force_ret] at hok
  have hadm := (pll_search_selected keep_fps g.pdata.refclk g.vtclk g.mipiclk h1 h2 hok).1
  have hd := pll_admissible_divisors _ _ hadm
  have hu : ulong (g.pdata.refclk * (pll_selected g keep_fps).m) =
      g.pdata.refclk * (pll_selected g keep_fps).m := Nat.mod_eq_of_lt hw
  rw [hst]
  refine ⟨rfl, hadm, ?_, ?_⟩
  · rw [pll_store_vtclk]
    exact (congrArg₂ (· / ·) hu hd.1)
  · rw [pll_store_mipiclk]
    exact (congrArg₂ (· / ·) hu hd.2)

/-- C12, witness: `round_trip_state` with `keep_fps = 0`; the found multiplier is 154
and `26000000 * 154` is below `2 ^ 32`. -/
theorem galileo2_pll_brute_force_pll1_witness :
    round_trip_state.vtclk ≤ MAX_VTCLK ∧ round_trip_state.mipiclk ≤ MAX_MIPICLK ∧
    (galileo2_pll_brute_force round_trip_state 0).1 = 0 ∧
    round_trip_state.pdata.refclk * (pll_selected round_trip_state 0).m < 2 ^ 32 ∧
    (galileo2_pll_brute_force round_trip_state 0).2.pll1 =
      { pre_pll_clk_div := 1, pll_multiplier := 720, vt_sys_clk_div := 6,
        vt_pix_clk_div := 12, op_sys_clk_div := 6, op_pix_clk_div := 6 } :=
  have hs : pll_search 0 round_trip_state.pdata.refclk round_trip_state.vtclk
      round_trip_state.mipiclk =
      { ret := 0, best_error := 5291667, best_p := 4, best_m := 154, best_vts := 6,
        best_vtp := 7, best_op := 4 } := pll_search_round_trip
  have h1 : (galileo2_pll_brute_force round_trip_state 0).1 = 0 := by
    rw [galileo2_pll_brute_force_of_search round_trip_state 0 _ hs rfl]
  have hsel : pll_selected round_trip_state 0 =
      { p := 4, m := 154, vts := 6, vtp := 7, op := 4 } := by
    unfold pll_selected; rw [hs]; rfl
  have hw : round_trip_state.pdata.refclk * (pll_selected round_trip_state 0).m < 2 ^ 32 := by
    rw [hsel]
    show (26000000 : Nat) * 154 < 2 ^ 32
    norm_num
  ⟨by decide, by decide, h1, hw,
   (galileo2_pll_brute_force_pll1 round_trip_state 0 (by decide) (by decide) h1 hw).1⟩

/-! ## Refresh of the frame interval and of the line duration -/

/-- A successful `galileo2_update_timings` stores the line duration computed from the
line length it leaves in the state, and the fixed `pll1` configuration. -/
theorem galileo2_update_timings_of_ok (c c' : galileo2)
    (hc : galileo2_update_timings c = some (0, c')) :
    c'.line_duration_ns =
      ulong (u64 (toU64 c'.video_timing.width * 1000000000) / 100000000) ∧
    c'.pll1 = { pre_pll_clk_div := 1, pll_multiplier := 720, vt_sys_clk_div := 6,
                vt_pix_clk_div := 12, op_sys_clk_div := 6, op_pix_clk_div := 6 } ∧
    c'.timings_uptodate = true := by
  unfold galileo2_update_timings at hc
  cases h1 : galileo2_calc_vt c with
  | none => rw [h1] at hc; exact Option.noConfusion hc
  | some r1 =>
    obtain ⟨ret1, g1⟩ := r1
    rw [h1] at hc
    simp only at hc
    by_cases hr1 : ret1 < 0
    · rw [if_pos hr1] at hc
      have := (Prod.mk.inj (Option.some.inj hc)).1
      omega
    · rw [if_neg hr1] at hc
      cases h2 : galileo2_calc_clocks g1 with
      | none => rw [h2] at hc; exact Option.noConfusion hc
      | some r2 =>
        obtain ⟨ret2, g2⟩ := r2
        rw [h2] at hc
        simp only at hc
        by_cases hr2 : ret2 < 0
        · rw [if_pos hr2] at hc
          have := (Prod.mk.inj (Option.some.inj hc)).1
          omega
        · rw [if_neg hr2] at hc
          have := (Prod.mk.inj (Option.some.inj hc)).2
          rw [← this]
          exact ⟨rfl, rfl, rfl⟩

/-- C13, as stated, fails: for `wide_timing_state` (line length 500000000, frame length
25) the search with `keep_fps = 0` succeeds and stores `line_duration_ns = 705032704`
and the numerator 3910065408, which are `500000000 * 10` and `500000000 * 25` reduced
modulo `2 ^ 32`. -/
theorem galileo2_pll_brute_force_refresh_wraps :
    (galileo2_pll_brute_force wide_timing_state 0).1 = 0 ∧
    (galileo2_pll_brute_force wide_timing_state 0).2.line_duration_ns = 705032704 ∧
    (galileo2_pll_brute_force wide_timing_state 0).2.line_duration_ns ≠
      500000000 * 1000000000 / 100000000 ∧
    (galileo2_pll_brute_force wide_timing_state 0).2.frame_interval.numerator = 3910065408 ∧
    (galileo2_pll_brute_force wide_timing_state 0).2.frame_interval.numerator ≠
      500000000 * 25 := by
  have hs : pll_search 0 wide_timing_state.pdata.refclk wide_timing_state.vtclk
      wide_timing_state.mipiclk =
      { ret := 0, best_error := 5291667, best_p := 4, best_m := 154, best_vts := 6,
        best_vtp := 7, best_op := 4 } := pll_search_round_trip
  have hbf := galileo2_pll_brute_force_of_search wide_timing_state 0 _ hs rfl
  have hl : (galileo2_pll_brute_force wide_timing_state 0).2.line_duration_ns = 705032704 := by
    rw [hbf]; show (pll_store wide_timing_state _).line_duration_ns = 705032704
    rw [pll_store_line_duration]; decide
  have hn : (galileo2_pll_brute_force wide_timing_state 0).2.frame_interval.numerator =
      3910065408 := by
    rw [hbf]; show (pll_store wide_timing_state _).frame_interval.numerator = 3910065408
    rw [pll_store_frame_interval]; decide
  refine ⟨?_, hl, ?_, hn, ?_⟩
  · rw [hbf]
  · rw [hl]; decide
  · rw [hn]; decide

/-- C13, amended: when the line length `w` and the frame length `h` are non-negative
with `w * h` and `w * 10` below `2 ^ 32`, a successful `galileo2_pll_brute_force`
stores the frame interval `w * h / vtclk` (with the vtclk it stores) and
`line_duration_ns = w * 1000000000 / 100000000 = w * 10`.  A successful
`galileo2_update_timings` stores the line duration given by the same expression of the
line length `w'` it computed, which is `w' * 10` when that is below `2 ^ 32`. -/
theorem galileo2_pll_brute_force_refresh (g : galileo2) (keep_fps : Int) (w h : Nat)
    (hw : g.video_timing.width = (w : Int)) (hh : g.video_timing.height = (h : Int))
    (hwh : w * h < 2 ^ 32) (hw10 : w * 10 < 2 ^ 32)
    (hok : (galileo2_pll_brute_force g keep_fps).1 = 0)
    (c c' : galileo2) (w' : Nat) (hc : galileo2_update_timings c = some (0, c'))
    (hw' : c'.video_timing.width = (w' : Int)) (hw10' : w' * 10 < 2 ^ 32) :
    (galileo2_pll_brute_force g keep_fps).2.frame_interval.numerator = w * h ∧
    (galileo2_pll_brute_force g keep_fps).2.frame_interval.denominator =
      (galileo2_pll_brute_force g keep_fps).2.vtclk ∧
    (galileo2_pll_brute_force g keep_fps).2.line_duration_ns = w * 1000000000 / 100000000 ∧
    (galileo2_pll_brute_force g keep_fps).2.line_duration_ns = w * 10 ∧
    c'.line_duration_ns = w' * 1000000000 / 100000000 ∧
    c'.line_duration_ns = w' * 10 ∧
    ∀ b, (pll_store c' b).line_duration_ns = c'.line_duration_ns := by
  have hst := galileo2_pll_brute_force_state_of_ok g keep_fps hok
  have hdiv : w * 1000000000 / 100000000 = w * 10 := by omega
  have hdiv' : w' * 1000000000 / 100000000 = w' * 10 := by omega
  have hl : (galileo2_pll_brute_force g keep_fps).2.line_duration_ns = w * 10 := by
    rw [hst, pll_store_line_duration, hw, line_duration_of_small w hw10]
  have hc' := (galileo2_update_timings_of_ok c c' hc).1
  have hl' : c'.line_duration_ns = w' * 10 := by
    rw [hc', hw', line_duration_of_small w' hw10']
  refine ⟨?_, ?_, ?_, hl, ?_, hl', ?_⟩
  · rw [hst, pll_store_frame_interval, hw, hh]
    show ofS32 ((w : Int) * (h : Int)) = w * h
    rw [ofS32_of_nonneg _ (by positivity) (by exact_mod_cast hwh)]
    exact_mod_cast Int.toNat_ofNat (w * h)
  · rw [hst, pll_store_frame_interval]
    exact Nat.mod_eq_of_lt (pll_store_vtclk_lt g _)
  · rw [hl, hdiv]
  · rw [hl', hdiv']
  · intro b
    rw [pll_store_line_duration, ← hc']

/-- The cold-start path on the probe state of a four-lane board. -/
theorem galileo2_update_timings_probe :
    ∃ c', galileo2_update_timings (probe_state 26000000 4) = some (0, c') ∧
      c'.video_timing.width = ((8228 : Nat) : Int) ∧ c'.line_duration_ns = 82280 :=
  ⟨_, rfl, by decide, by decide⟩

/-- C13, witness: the solve of `round_trip_state` (line length 1000) and the cold start of
the probe state (line length 8228). -/
theorem galileo2_pll_brute_force_refresh_witness :
    (galileo2_pll_brute_force round_trip_state 0).1 = 0 ∧
    galileo2_update_timings (probe_state 26000000 4) = some (0, probe_timed_state) ∧
    (galileo2_pll_brute_force round_trip_state 0).2.line_duration_ns = 1000 * 10 ∧
    probe_timed_state.line_duration_ns = 8228 * 10 :=
  have hs : pll_search 0 round_trip_state.pdata.refclk round_trip_state.vtclk
      round_trip_state.mipiclk =
      { ret := 0, best_error := 5291667, best_p := 4, best_m := 154, best_vts := 6,
        best_vtp := 7, best_op := 4 } := pll_search_round_trip
  have h1 : (galileo2_pll_brute_force round_trip_state 0).1 = 0 := by
    rw [galileo2_pll_brute_force_of_search round_trip_state 0 _ hs rfl]
  have hc : galileo2_update_timings (probe_state 26000000 4) = some (0, probe_timed_state) := by
    decide
  ⟨h1, hc,
   (galileo2_pll_brute_force_refresh round_trip_state 0 1000 1000 rfl rfl (by norm_num)
     (by norm_num) h1 (probe_state 26000000 4) probe_timed_state 8228 hc rfl
     (by norm_num)).2.2.2.1,
   (galileo2_pll_brute_force_refresh round_trip_state 0 1000 1000 rfl rfl (by norm_num)
     (by norm_num) h1 (probe_state 26000000 4) probe_timed_state 8228 hc rfl
     (by norm_num)).2.2.2.2.2.1⟩

/-! ## Round trip through `galileo2_calc_clocks` -/

/-- The function `galileo2_pll_brute_force` does not write the platform data. -/
theorem galileo2_pll_brute_force_pdata (g : galileo2) (keep_fps : Int) :
    (galileo2_pll_brute_force g keep_fps).2.pdata = g.pdata := by
  unfold galileo2_pll_brute_force
  by_cases h : (pll_search keep_fps g.pdata.refclk g.vtclk g.mipiclk).ret = 0
  · simp only [h, ne_eq, not_true_eq_false, if_false, pll_store_pdata]
  · simp only [h, ne_eq, not_false_eq_true, if_true]

/-- The function `galileo2_calc_clocks` does not write the platform data. -/
theorem galileo2_calc_clocks_pdata (g g' : galileo2) (r : Int)
    (h : galileo2_calc_clocks g = some (r, g')) : g'.pdata = g.pdata := by
  by_cases hn : u32 g.frame_interval.numerator = 0
  · simp [galileo2_calc_clocks, div_u64, cdiv, hn, bind, Option.bind] at h
  · cases hb : is_bayer10 g.format.code
    · simp [galileo2_calc_clocks, div_u64, cdiv, hn, hb, bind, Option.bind] at h
      rw [← h.2]
    · by_cases hd : u32 (u32 (u32 (ofS32 g.crop.width * g.pdata.lanes) * 2)) = 0
      · simp [galileo2_calc_clocks, div_u64, cdiv, hn, hb, hd, bind, Option.bind] at h
      · simp [galileo2_calc_clocks, div_u64, cdiv, hn, hb, hd, bind, Option.bind] at h
        rw [← h.2]

/-- C14, as stated, fails: for `round_trip_state` the solve with `keep_fps = 0` succeeds
with error sum 5291667; `galileo2_calc_clocks` then recomputes the targets 23833333 and
119166665 from the refreshed frame interval, and solving again succeeds with the same
combination (4, 154, 6, 7, 4) but the larger error sum 5958335. -/
theorem galileo2_round_trip_regression :
    galileo2_pll_brute_force round_trip_state 0 =
      (0, pll_store round_trip_state
        { ret := 0, best_error := 5291667, best_p := 4, best_m := 154, best_vts := 6,
          best_vtp := 7, best_op := 4 }) ∧
    pll_abs_error round_trip_state.vtclk round_trip_state.mipiclk
      (cand_vtclk 26000000 (pll_selected round_trip_state 0))
      (cand_mipiclk 26000000 (pll_selected round_trip_state 0)) = 5291667 ∧
    galileo2_calc_clocks (galileo2_pll_brute_force round_trip_state 0).2 =
      some (0, round_trip_second_state) ∧
    (galileo2_pll_brute_force round_trip_second_state 0).1 = 0 ∧
    pll_abs_error round_trip_second_state.vtclk round_trip_second_state.mipiclk
      (cand_vtclk 26000000 (pll_selected round_trip_second_state 0))
      (cand_mipiclk 26000000 (pll_selected round_trip_second_state 0)) = 5958335 ∧
    ¬ ((5958335 : Int) ≤ 5291667) := by
  have hs : pll_search 0 round_trip_state.pdata.refclk round_trip_state.vtclk
      round_trip_state.mipiclk =
      { ret := 0, best_error := 5291667, best_p := 4, best_m := 154, best_vts := 6,
        best_vtp := 7, best_op := 4 } := pll_search_round_trip
  have hs2 : pll_search 0 round_trip_second_state.pdata.refclk round_trip_second_state.vtclk
      round_trip_second_state.mipiclk =
      { ret := 0, best_error := 5958335, best_p := 4, best_m := 154, best_vts := 6,
        best_vtp := 7, best_op := 4 } := pll_search_round_trip_second
  have hbf := galileo2_pll_brute_force_of_search round_trip_state 0 _ hs rfl
  have hbf2 := galileo2_pll_brute_force_of_search round_trip_second_state 0 _ hs2 rfl
  have hsel : pll_selected round_trip_state 0 =
      { p := 4, m := 154, vts := 6, vtp := 7, op := 4 } := by
    unfold pll_selected; rw [hs]; rfl
  have hsel2 : pll_selected round_trip_second_state 0 =
      { p := 4, m := 154, vts := 6, vtp := 7, op := 4 } := by
    unfold pll_selected; rw [hs2]; rfl
  refine ⟨hbf, ?_, ?_, ?_, ?_, by decide⟩
  · rw [hsel]; decide
  · rw [hbf]; exact round_trip_calc_clocks
  · rw [hbf2]
  · rw [hsel2]; decide

/-- C14, amended: after a successful solve on targets not above the hardware maxima,
if `galileo2_calc_clocks` recomputes from the refreshed state targets that are again
not above the hardware maxima, then solving again with `keep_fps = 0` succeeds, selects
an admissible combination, and its error sum against the recomputed targets is no
larger than the error sum, against the recomputed targets, of the combination selected
by the original solve. -/
theorem galileo2_round_trip (g g2 : galileo2) (keep_fps : Int)
    (hvt : g.vtclk ≤ MAX_VTCLK) (hmipi : g.mipiclk ≤ MAX_MIPICLK)
    (hok : (galileo2_pll_brute_force g keep_fps).1 = 0)
    (hclk : galileo2_calc_clocks (galileo2_pll_brute_force g keep_fps).2 = some (0, g2))
    (hvt2 : g2.vtclk ≤ MAX_VTCLK) (hmipi2 : g2.mipiclk ≤ MAX_MIPICLK) :
    (galileo2_pll_brute_force g2 0).1 = 0 ∧
    pll_admissible g2.pdata.refclk (pll_selected g2 0) ∧
    pll_abs_error g2.vtclk g2.mipiclk (cand_vtclk g2.pdata.refclk (pll_selected g2 0))
        (cand_mipiclk g2.pdata.refclk (pll_selected g2 0)) ≤
      pll_abs_error g2.vtclk g2.mipiclk (cand_vtclk g.pdata.refclk (pll_selected g keep_fps))
        (cand_mipiclk g.pdata.refclk (pll_selected g keep_fps)) := by
  have h1 : g.vtclk < 2 ^ 30 := lt_of_le_of_lt hvt (by decide)
  have h2 : g.mipiclk < 2 ^ 30 := lt_of_le_of_lt hmipi (by decide)
  have h3 : g2.vtclk < 2 ^ 30 := lt_of_le_of_lt hvt2 (by decide)
  have h4 : g2.mipiclk < 2 ^ 30 := lt_of_le_of_lt hmipi2 (by decide)
  have hp : g2.pdata = g.pdata := by
    rw [galileo2_calc_clocks_pdata _ _ _ hclk, galileo2_pll_brute_force_pdata]
  rw [galileo2_pll_brute_force_ret] at hok
  have hadm := (pll_search_selected keep_fps g.pdata.refclk g.vtclk g.mipiclk h1 h2 hok).1
  have hsc := pll_score_of_small 0 g.pdata.refclk g2.vtclk g2.mipiclk _ h3 h4 hadm
  rw [if_neg (by decide : ¬ ((0 : Int) = 1))] at hsc
  have hok2 : (pll_search 0 g2.pdata.refclk g2.vtclk g2.mipiclk).ret = 0 := by
    rw [hp]
    exact pll_search_ret_of_scored 0 g.pdata.refclk g2.vtclk g2.mipiclk h3 h4 _ hadm _ hsc
  obtain ⟨hadm2, hbe2, hmin2⟩ :=
    pll_search_selected 0 g2.pdata.refclk g2.vtclk g2.mipiclk h3 h4 hok2
  refine ⟨by rw [galileo2_pll_brute_force_ret]; exact hok2, hadm2, ?_⟩
  have := hmin2 _ _ (by rw [hp]; exact hadm) (by rw [hp]; exact hsc)
  rw [hbe2] at this
  exact this

/-- C14, witness: `round_trip_state` with `keep_fps = 0`, whose recomputed targets are
those of `round_trip_second_state`. -/
theorem galileo2_round_trip_witness :
    round_trip_state.vtclk ≤ MAX_VTCLK ∧ round_trip_state.mipiclk ≤ MAX_MIPICLK ∧
    (galileo2_pll_brute_force round_trip_state 0).1 = 0 ∧
    galileo2_calc_clocks (galileo2_pll_brute_force round_trip_state 0).2 =
      some (0, round_trip_second_state) ∧
    round_trip_second_state.vtclk ≤ MAX_VTCLK ∧ round_trip_second_state.mipiclk ≤ MAX_MIPICLK ∧
    (galileo2_pll_brute_force round_trip_second_state 0).1 = 0 :=
  have hs : pll_search 0 round_trip_state.pdata.refclk round_trip_state.vtclk
      round_trip_state.mipiclk =
      { ret := 0, best_error := 5291667, best_p := 4, best_m := 154, best_vts := 6,
        best_vtp := 7, best_op := 4 } := pll_search_round_trip
  have hbf := galileo2_pll_brute_force_of_search round_trip_state 0 _ hs rfl
  have h1 : (galileo2_pll_brute_force round_trip_state 0).1 = 0 := by rw [hbf]
  have hc : galileo2_calc_clocks (galileo2_pll_brute_force round_trip_state 0).2 =
      some (0, round_trip_second_state) := by
    rw [hbf]; exact round_trip_calc_clocks
  ⟨by decide, by decide, h1, hc, by decide, by decide,
   (galileo2_round_trip round_trip_state round_trip_second_state 0 (by decide) (by decide) h1 hc
     (by decide) (by decide)).1⟩

/-! ## Register access -/

/-- The state after `galileo2_write8`: the call is appended to the traffic, whatever
the bus returns. -/
theorem galileo2_write8_state (bus : i2c_bus) (g : galileo2) (reg : sensor_reg) (val : reg_val) :
    (galileo2_write8 bus g reg val).2 =
      { g with i2c_sensor := g.i2c_sensor ++ [i2c_msg.write8 reg val] } := by
  unfold galileo2_write8 i2c_transfer
  by_cases h : bus.transfer g.i2c_sensor (i2c_msg.write8 reg val) < 0
  · simp only [h, if_true]
  · simp only [h, if_false]

/-- The state after `galileo2_write16`. -/
theorem galileo2_write16_state (bus : i2c_bus) (g : galileo2) (reg : sensor_reg) (val : Nat) :
    (galileo2_write16 bus g reg val).2 =
      { g with i2c_sensor := g.i2c_sensor ++ [i2c_msg.write16 reg (u16 val)] } := by
  unfold galileo2_write16 i2c_transfer
  by_cases h : bus.transfer g.i2c_sensor (i2c_msg.write16 reg (u16 val)) < 0
  · simp only [h, if_true]
  · simp only [h, if_false]

/-- The conversion to `u16` does not change a value below `2 ^ 16`. -/
theorem u16_of_lt (n : Nat) (h : n < 2 ^ 16) : u16 n = n := Nat.mod_eq_of_lt h

theorem u16_lt (n : Nat) : u16 n < 2 ^ 16 := Nat.mod_lt _ (by decide)

/-- The conversion of a non-negative `int` below `2 ^ 16` to `u16`. -/
theorem toU16_of_range (i : Int) (h0 : 0 ≤ i) (h1 : i < 2 ^ 16) : toU16 i = i.toNat := by
  unfold toU16
  rw [Int.emod_eq_of_lt h0 h1]

theorem toU16_lt (i : Int) : toU16 i < 2 ^ 16 := by
  unfold toU16
  have := Int.emod_lt_of_pos i (by norm_num : (0 : Int) < 2 ^ 16)
  have := Int.emod_nonneg i (by norm_num : (2 ^ 16 : Int) ≠ 0)
  omega

/-! ## Shutter timings of `galileo2_apply_ms` -/

/-- The two locals do not depend on the member `trdy_ctrl`. -/
theorem ms_sdelay_ctrl_trdy (g : galileo2) (v : Nat) :
    ms_sdelay_ctrl { g with trdy_ctrl := v } = ms_sdelay_ctrl g := rfl

theorem ms_trdout_ctrl_trdy (g : galileo2) (v : Nat) :
    ms_trdout_ctrl { g with trdy_ctrl := v } = ms_trdout_ctrl g := rfl

/-- The locals are `u16` values. -/
theorem ms_sdelay_ctrl_lt (g : galileo2) (s : Nat) (h : ms_sdelay_ctrl g = some s) :
    s < 2 ^ 16 := by
  unfold ms_sdelay_ctrl at h
  simp only at h
  split at h
  · exact Option.noConfusion h
  · rw [← Option.some.inj h]; exact u16_lt _

theorem ms_trdout_ctrl_lt (g : galileo2) (t : Nat) (h : ms_trdout_ctrl g = some t) :
    t < 2 ^ 16 := by
  unfold ms_trdout_ctrl at h
  simp only at h
  split at h
  · exact Option.noConfusion h
  · rw [← Option.some.inj h]; exact u16_lt _

/-- The locals are defined when the line duration is not zero. -/
theorem ms_sdelay_ctrl_of_ne (g : galileo2) (h : g.line_duration_ns ≠ 0) :
    ms_sdelay_ctrl g = some (u16 ((u32 (u32 (u16 g.nvm_ms * 1000) + u32 (g.line_duration_ns / 2)))
      / g.line_duration_ns)) := by
  simp only [ms_sdelay_ctrl, cdiv, h, if_false]

theorem ms_trdout_ctrl_of_ne (g : galileo2) (h : g.line_duration_ns ≠ 0) :
    ms_trdout_ctrl g = some (u16 ((u32 (u32 (ofS32 g.exposure.val * 1000) +
      u32 (g.line_duration_ns / 2))) / g.line_duration_ns)) := by
  simp only [ms_trdout_ctrl, cdiv, h, if_false]

/-- The global-shutter branch of `galileo2_apply_ms`: when the three divisions are
defined it returns 0, whatever the bus answers, stores the ready delay and issues
seven writes. -/
theorem galileo2_apply_ms_gs (bus : i2c_bus) (g : galileo2) (s t h : Nat)
    (hgs : g.gs.val ≠ 0) (hs : ms_sdelay_ctrl g = some s) (ht : ms_trdout_ctrl g = some t)
    (hh : cdiv (ofS32 g.crop.height) g.y_binning = some h) :
    ∃ g', galileo2_apply_ms bus g = some (0, g') ∧
      g'.trdy_ctrl = ms_trdy_ctrl s t ∧
      g'.i2c_sensor = g.i2c_sensor ++
        [i2c_msg.write16 (sensor_reg.name reg_name.TRDY_CTRL) (ms_trdy_ctrl s t),
         i2c_msg.write16 (sensor_reg.name reg_name.TSHUTTER_STROBE_DELAY_CTRL)
           (u16 (ms_trdy_ctrl s t + t - s)),
         i2c_msg.write16 (sensor_reg.name reg_name.TRDOUT_CTRL) t,
         i2c_msg.write16 (sensor_reg.name reg_name.TSHUTTER_STROBE_WIDTH_CTRL)
           (u16 (u32 (h + s))),
         i2c_msg.write16 (sensor_reg.name reg_name.TGRST_INTERVAL_CTRL)
           (toU16 (g.video_timing.height + (t : Int) + (ms_trdy_ctrl s t : Int) + (s : Int)
             + 512)),
         i2c_msg.write8 (sensor_reg.name reg_name.GLOBAL_RESET_MODE_CONFIG1)
           (reg_val.glbrst_cfg1 (ms_glbrst_cfg1_of g)),
         i2c_msg.write8 (sensor_reg.name reg_name.GLOBAL_RESET_CTRL1) (byte 0x1)] := by
  have hs16 := ms_sdelay_ctrl_lt g s hs
  have ht16 := ms_trdout_ctrl_lt g t ht
  have htr : ms_trdy_ctrl s t < 2 ^ 16 := by
    unfold ms_trdy_ctrl; split <;> omega
  have hge : s ≤ ms_trdy_ctrl s t + t := by
    unfold ms_trdy_ctrl; split <;> omega
  have hsd : toU16 ((ms_trdy_ctrl s t : Int) + (t : Int) - (s : Int)) =
      u16 (ms_trdy_ctrl s t + t - s) := by
    unfold toU16 u16
    have : ((ms_trdy_ctrl s t : Int) + (t : Int) - (s : Int)) =
        ((ms_trdy_ctrl s t + t - s : Nat) : Int) := by omega
    rw [this]
    norm_cast
  unfold galileo2_apply_ms
  simp only [hgs, if_false, ms_sdelay_ctrl_trdy, ms_trdout_ctrl_trdy, hs, ht, hh]
  by_cases hc : s > 0x0034 + t
  · have htu : toU16 ((s : Int) - (t : Int)) = ms_trdy_ctrl s t := by
      unfold ms_trdy_ctrl
      rw [if_pos hc, toU16_of_range _ (by omega) (by omega)]
      omega
    simp only [hc, if_true, htu, hsd, hh, galileo2_write16_state, galileo2_write8_state]
    refine ⟨_, rfl, rfl, ?_⟩
    simp only [List.append_assoc, List.cons_append, List.nil_append, u16_of_lt _ htr,
      u16_of_lt _ ht16, u16_of_lt _ (toU16_lt _), u16_of_lt _ (u16_lt _), ms_glbrst_cfg1_of]
  · have htu : (0x0034 : Nat) = ms_trdy_ctrl s t := by
      unfold ms_trdy_ctrl
      rw [if_neg hc]
    simp only [hc, if_false, hh, galileo2_write16_state, galileo2_write8_state]
    rw [htu] at *
    refine ⟨_, rfl, rfl, ?_⟩
    simp only [hsd, List.append_assoc, List.cons_append, List.nil_append, u16_of_lt _ htr,
      u16_of_lt _ ht16, u16_of_lt _ (toU16_lt _), u16_of_lt _ (u16_lt _), ms_glbrst_cfg1_of]

/-- The rounded quotient of the spec: `floor ((x * 1000 + floor (ld / 2)) / ld)`. -/
theorem ms_rounded_of_small (x ld : Nat) (hx : x ≤ 1000000) (hld : ld < 2 ^ 32) :
    u32 (u32 (x * 1000) + u32 (ld / 2)) / ld = (x * 1000 + ld / 2) / ld := by
  have h1 : u32 (x * 1000) = x * 1000 := Nat.mod_eq_of_lt (by omega)
  have h2 : u32 (ld / 2) = ld / 2 := Nat.mod_eq_of_lt (by omega)
  have h3 : u32 (x * 1000 + ld / 2) = x * 1000 + ld / 2 := Nat.mod_eq_of_lt (by omega)
  rw [h1, h2, h3]

/-- The two global-shutter example states carry the timings that
`galileo2_update_timings` computes from their crop, format and frame interval. -/
theorem global_shutter_state_consistent :
    galileo2_update_timings global_shutter_state = some (0, global_shutter_state) := by
  decide

theorem long_exposure_state_consistent :
    galileo2_update_timings long_exposure_state = some (0, long_exposure_state) := by
  decide

/-- C15, as stated, fails: in `long_exposure_state` (global-shutter mode, exposure
1000000 us inside the control range, `line_duration_ns = 15120`) the rounded quotient
`(1000000 * 1000 + 15120 / 2) / 15120` is 66138, but `trdout_ctrl` is 602, the quotient
reduced modulo `2 ^ 16` by the `u16` local. -/
theorem galileo2_apply_ms_trdout_truncated :
    long_exposure_state.gs.val ≠ 0 ∧
    (0 ≤ long_exposure_state.exposure.val ∧ long_exposure_state.exposure.val ≤ 1000000) ∧
    long_exposure_state.line_duration_ns = 15120 ∧
    (long_exposure_state.exposure.val.toNat * 1000 + long_exposure_state.line_duration_ns / 2) /
      long_exposure_state.line_duration_ns = 66138 ∧
    ms_trdout_ctrl long_exposure_state = some 602 ∧
    ms_trdout_ctrl long_exposure_state ≠
      some ((long_exposure_state.exposure.val.toNat * 1000 +
        long_exposure_state.line_duration_ns / 2) / long_exposure_state.line_duration_ns) := by
  decide

/-- C15, amended: in global-shutter mode, for a shutter delay read from the NVM and an
exposure in the control range 0..1000000 us, `galileo2_apply_ms` computes `sdelay_ctrl`
and `trdout_ctrl` as the rounded quotients `floor ((x * 1000 + floor (ld / 2)) / ld)`
whenever the quotient is below `2 ^ 16` (the locals are `u16`), and it writes that
`trdout_ctrl` to `TRDOUT_CTRL`.  Both quotients are below `2 ^ 16` when
`line_duration_ns` is at least 15259; exposure 20000 with `line_duration_ns = 82400`
gives `trdout_ctrl = 243`. -/
theorem galileo2_apply_ms_rounding (bus : i2c_bus) (g : galileo2)
    (hgs : g.gs.val ≠ 0) (hy : g.y_binning ≠ 0)
    (hld : g.line_duration_ns ≠ 0) (hld2 : g.line_duration_ns < 2 ^ 32)
    (hnvm : g.nvm_ms < 2 ^ 16)
    (hexp : 0 ≤ g.exposure.val ∧ g.exposure.val ≤ 1000000) :
    ((g.nvm_ms * 1000 + g.line_duration_ns / 2) / g.line_duration_ns < 2 ^ 16 →
      ms_sdelay_ctrl g =
        some ((g.nvm_ms * 1000 + g.line_duration_ns / 2) / g.line_duration_ns)) ∧
    ((g.exposure.val.toNat * 1000 + g.line_duration_ns / 2) / g.line_duration_ns < 2 ^ 16 →
      ms_trdout_ctrl g =
        some ((g.exposure.val.toNat * 1000 + g.line_duration_ns / 2) / g.line_duration_ns) ∧
      ∃ g', galileo2_apply_ms bus g = some (0, g') ∧
        i2c_msg.write16 (sensor_reg.name reg_name.TRDOUT_CTRL)
          ((g.exposure.val.toNat * 1000 + g.line_duration_ns / 2) / g.line_duration_ns) ∈
            g'.i2c_sensor) ∧
    (15259 ≤ g.line_duration_ns →
      (g.nvm_ms * 1000 + g.line_duration_ns / 2) / g.line_duration_ns < 2 ^ 16 ∧
      (g.exposure.val.toNat * 1000 + g.line_duration_ns / 2) / g.line_duration_ns < 2 ^ 16) ∧
    (g.exposure.val = 20000 → g.line_duration_ns = 82400 → ms_trdout_ctrl g = some 243) := by
  obtain ⟨E, hE⟩ : ∃ E : Nat, g.exposure.val = (E : Int) :=
    ⟨_, (Int.toNat_of_nonneg hexp.1).symm⟩
  have hE1 : E ≤ 1000000 := by have := hexp.2; rw [hE] at this; exact_mod_cast this
  have hEo : ofS32 g.exposure.val = E := by
    rw [ofS32_of_nonneg _ hexp.1 (by rw [hE]; omega), hE, Int.toNat_ofNat]
  have hEt : g.exposure.val.toNat = E := by rw [hE, Int.toNat_ofNat]
  have hN : u16 g.nvm_ms = g.nvm_ms := u16_of_lt _ hnvm
  have hs := ms_sdelay_ctrl_of_ne g hld
  have ht := ms_trdout_ctrl_of_ne g hld
  rw [hN, ms_rounded_of_small _ _ (by omega) hld2] at hs
  rw [hEo, ms_rounded_of_small _ _ hE1 hld2] at ht
  rw [hEt]
  have hpos : 0 < g.line_duration_ns := Nat.pos_of_ne_zero hld
  refine ⟨?_, ?_, ?_, ?_⟩
  · intro hfit
    rw [hs, u16_of_lt _ hfit]
  · intro hfit
    have ht' : ms_trdout_ctrl g = some ((E * 1000 + g.line_duration_ns / 2) / g.line_duration_ns) := by
      rw [ht, u16_of_lt _ hfit]
    refine ⟨ht', ?_⟩
    obtain ⟨g', hg', _, hlog⟩ := galileo2_apply_ms_gs bus g _ _
      (ofS32 g.crop.height / g.y_binning) hgs hs ht' (by simp only [cdiv, hy, if_false])
    refine ⟨g', hg', ?_⟩
    rw [hlog]
    simp
  · intro h15
    constructor
    · rw [Nat.div_lt_iff_lt_mul hpos]
      have : g.line_duration_ns / 2 ≤ g.line_duration_ns := Nat.div_le_self _ _
      omega
    · rw [Nat.div_lt_iff_lt_mul hpos]
      have : g.line_duration_ns / 2 * 2 ≤ g.line_duration_ns := Nat.div_mul_le_self _ _
      omega
  · intro he hl
    have hE2 : E = 20000 := by rw [hE] at he; exact_mod_cast he
    rw [ht, hE2, hl]
    rfl

/-- C15, witness: `global_shutter_state` (exposure 20000 us, `line_duration_ns = 82400`,
NVM shutter delay 5000) on the quiet bus. -/
theorem galileo2_apply_ms_rounding_witness :
    global_shutter_state.gs.val ≠ 0 ∧ global_shutter_state.y_binning ≠ 0 ∧
    global_shutter_state.line_duration_ns = 82400 ∧ global_shutter_state.nvm_ms < 2 ^ 16 ∧
    global_shutter_state.exposure.val = 20000 ∧
    ms_trdout_ctrl global_shutter_state = some 243 :=
  ⟨by decide, by decide, rfl, by decide, rfl,
   (galileo2_apply_ms_rounding quiet_bus global_shutter_state (by decide) (by decide)
     (by decide) (by decide) (by decide) (by decide)).2.2.2 rfl rfl⟩

/-- C16: in global-shutter mode (with the divisions of the function defined),
`galileo2_apply_ms` returns 0 and leaves `trdy_ctrl = sdelay_ctrl - trdout_ctrl` when
`sdelay_ctrl > 0x0034 + trdout_ctrl` and `0x0034` otherwise, which is
`max (0x0034, sdelay_ctrl - trdout_ctrl)`; hence `trdy_ctrl >= 0x0034` and
`trdy_ctrl + trdout_ctrl >= sdelay_ctrl`, so the `int` expression
`trdy_ctrl + trdout_ctrl - sdelay_ctrl` of the strobe delay is not negative; that
`trdy_ctrl` is the first value written, to `TRDY_CTRL`. -/
theorem galileo2_apply_ms_ready_delay (bus : i2c_bus) (g : galileo2)
    (hgs : g.gs.val ≠ 0) (hld : g.line_duration_ns ≠ 0) (hy : g.y_binning ≠ 0) :
    ∃ g' sdelay_ctrl trdout_ctrl,
      galileo2_apply_ms bus g = some (0, g') ∧
      ms_sdelay_ctrl g = some sdelay_ctrl ∧ ms_trdout_ctrl g = some trdout_ctrl ∧
      g'.trdy_ctrl =
        (if sdelay_ctrl > 0x0034 + trdout_ctrl then sdelay_ctrl - trdout_ctrl else 0x0034) ∧
      (g'.trdy_ctrl : Int) = max 0x0034 ((sdelay_ctrl : Int) - (trdout_ctrl : Int)) ∧
      0x0034 ≤ g'.trdy_ctrl ∧
      sdelay_ctrl ≤ g'.trdy_ctrl + trdout_ctrl ∧
      0 ≤ (g'.trdy_ctrl : Int) + (trdout_ctrl : Int) - (sdelay_ctrl : Int) ∧
      (g'.i2c_sensor.drop g.i2c_sensor.length).head? =
        some (i2c_msg.write16 (sensor_reg.name reg_name.TRDY_CTRL) g'.trdy_ctrl) := by
  have hs := ms_sdelay_ctrl_of_ne g hld
  have ht := ms_trdout_ctrl_of_ne g hld
  obtain ⟨g', hg', htr, hlog⟩ := galileo2_apply_ms_gs bus g _ _
    (ofS32 g.crop.height / g.y_binning) hgs hs ht (by simp only [cdiv, hy, if_false])
  refine ⟨g', _, _, hg', hs, ht, htr, ?_, ?_, ?_, ?_, ?_⟩
  · rw [htr]; unfold ms_trdy_ctrl; split <;> omega
  · rw [htr]; unfold ms_trdy_ctrl; split <;> omega
  · rw [htr]; unfold ms_trdy_ctrl; split <;> omega
  · rw [htr]; unfold ms_trdy_ctrl; split <;> omega
  · rw [hlog, htr, List.drop_left]
    rfl

/-- C16, witness: `global_shutter_state` on the quiet bus. -/
theorem galileo2_apply_ms_ready_delay_witness :
    global_shutter_state.gs.val ≠ 0 ∧ global_shutter_state.line_duration_ns ≠ 0 ∧
    global_shutter_state.y_binning ≠ 0 ∧
    ∃ g', galileo2_apply_ms quiet_bus global_shutter_state = some (0, g') ∧
      0x0034 ≤ g'.trdy_ctrl :=
  ⟨by decide, by decide, by decide,
   (galileo2_apply_ms_ready_delay quiet_bus global_shutter_state (by decide) (by decide)
     (by decide)).elim fun g' h => h.elim fun _ h => h.elim fun _ h =>
       ⟨g', h.1, h.2.2.2.2.2.1⟩⟩

/-- C17: in global-shutter mode (with the divisions of the function defined),
`galileo2_apply_ms` issues seven writes: `TRDY_CTRL` (the ready delay),
`TSHUTTER_STROBE_DELAY_CTRL`, `TRDOUT_CTRL` (`trdout_ctrl`),
`TSHUTTER_STROBE_WIDTH_CTRL`, `TGRST_INTERVAL_CTRL`, and two configuration bytes.  The
strobe delay written is `trdy_ctrl + trdout_ctrl - sdelay_ctrl`, the strobe width is
`crop.height / y_binning + sdelay_ctrl` (the unsigned division of the source) and the
reset interval is `video_timing.height + trdout_ctrl + trdy_ctrl + sdelay_ctrl + 512`,
each whenever that sum fits in 16 bits. -/
theorem galileo2_apply_ms_plan (bus : i2c_bus) (g : galileo2)
    (hgs : g.gs.val ≠ 0) (hld : g.line_duration_ns ≠ 0) (hy : g.y_binning ≠ 0) :
    ∃ g' sdelay_ctrl trdout_ctrl strobe_delay strobe_width reset_interval cfg,
      galileo2_apply_ms bus g = some (0, g') ∧
      ms_sdelay_ctrl g = some sdelay_ctrl ∧ ms_trdout_ctrl g = some trdout_ctrl ∧
      g'.i2c_sensor = g.i2c_sensor ++
        [i2c_msg.write16 (sensor_reg.name reg_name.TRDY_CTRL) g'.trdy_ctrl,
         i2c_msg.write16 (sensor_reg.name reg_name.TSHUTTER_STROBE_DELAY_CTRL) strobe_delay,
         i2c_msg.write16 (sensor_reg.name reg_name.TRDOUT_CTRL) trdout_ctrl,
         i2c_msg.write16 (sensor_reg.name reg_name.TSHUTTER_STROBE_WIDTH_CTRL) strobe_width,
         i2c_msg.write16 (sensor_reg.name reg_name.TGRST_INTERVAL_CTRL) reset_interval,
         i2c_msg.write8 (sensor_reg.name reg_name.GLOBAL_RESET_MODE_CONFIG1) cfg,
         i2c_msg.write8 (sensor_reg.name reg_name.GLOBAL_RESET_CTRL1) (byte 0x1)] ∧
      (g'.trdy_ctrl + trdout_ctrl - sdelay_ctrl < 2 ^ 16 →
        strobe_delay = g'.trdy_ctrl + trdout_ctrl - sdelay_ctrl ∧
        (strobe_delay : Int) = (g'.trdy_ctrl : Int) + (trdout_ctrl : Int) - (sdelay_ctrl : Int)) ∧
      (ofS32 g.crop.height / g.y_binning + sdelay_ctrl < 2 ^ 16 →
        strobe_width = ofS32 g.crop.height / g.y_binning + sdelay_ctrl) ∧
      (0 ≤ g.crop.height → g.crop.height < 2 ^ 31 →
        ofS32 g.crop.height / g.y_binning = g.crop.height.toNat / g.y_binning) ∧
      (0 ≤ g.video_timing.height + (trdout_ctrl : Int) + (g'.trdy_ctrl : Int) +
          (sdelay_ctrl : Int) + 512 →
        g.video_timing.height + (trdout_ctrl : Int) + (g'.trdy_ctrl : Int) +
          (sdelay_ctrl : Int) + 512 < 2 ^ 16 →
        (reset_interval : Int) = g.video_timing.height + (trdout_ctrl : Int) +
          (g'.trdy_ctrl : Int) + (sdelay_ctrl : Int) + 512) := by
  obtain ⟨s, hs⟩ : ∃ s, ms_sdelay_ctrl g = some s := ⟨_, ms_sdelay_ctrl_of_ne g hld⟩
  obtain ⟨t, ht⟩ : ∃ t, ms_trdout_ctrl g = some t := ⟨_, ms_trdout_ctrl_of_ne g hld⟩
  obtain ⟨g', hg', htr, hlog⟩ := galileo2_apply_ms_gs bus g s t
    (ofS32 g.crop.height / g.y_binning) hgs hs ht (by simp only [cdiv, hy, if_false])
  have hle : s ≤ ms_trdy_ctrl s t + t := by
    unfold ms_trdy_ctrl; split <;> omega
  refine ⟨g', s, t, u16 (ms_trdy_ctrl s t + t - s),
    u16 (u32 (ofS32 g.crop.height / g.y_binning + s)),
    toU16 (g.video_timing.height + (t : Int) + (ms_trdy_ctrl s t : Int) + (s : Int) + 512),
    reg_val.glbrst_cfg1 (ms_glbrst_cfg1_of g), hg', hs, ht, ?_, ?_, ?_, ?_, ?_⟩
  · rw [hlog, htr]
  · intro hfit
    rw [htr] at hfit ⊢
    refine ⟨u16_of_lt _ hfit, ?_⟩
    rw [u16_of_lt _ hfit]
    omega
  · intro hfit
    have h32 : u32 (ofS32 g.crop.height / g.y_binning + s) =
        ofS32 g.crop.height / g.y_binning + s :=
      Nat.mod_eq_of_lt (lt_trans hfit (by norm_num))
    rw [h32, u16_of_lt _ hfit]
  · intro h0 h1
    rw [ofS32_of_nonneg _ h0 (by omega)]
  · intro h0 h1
    rw [htr] at h0 h1 ⊢
    rw [toU16_of_range _ h0 h1, Int.toNat_of_nonneg h0]

/-- C17, witness: `global_shutter_state` on the quiet bus. -/
theorem galileo2_apply_ms_plan_witness :
    global_shutter_state.gs.val ≠ 0 ∧ global_shutter_state.line_duration_ns ≠ 0 ∧
    global_shutter_state.y_binning ≠ 0 ∧
    ∃ g', galileo2_apply_ms quiet_bus global_shutter_state = some (0, g') ∧
      g'.i2c_sensor =
        [i2c_msg.write16 (sensor_reg.name reg_name.TRDY_CTRL) 52,
         i2c_msg.write16 (sensor_reg.name reg_name.TSHUTTER_STROBE_DELAY_CTRL) 234,
         i2c_msg.write16 (sensor_reg.name reg_name.TRDOUT_CTRL) 243,
         i2c_msg.write16 (sensor_reg.name reg_name.TSHUTTER_STROBE_WIDTH_CTRL) 5429,
         i2c_msg.write16 (sensor_reg.name reg_name.TGRST_INTERVAL_CTRL) 6260,
         i2c_msg.write8 (sensor_reg.name reg_name.GLOBAL_RESET_MODE_CONFIG1)
           (reg_val.glbrst_cfg1 ms_glbrst_cfg1),
         i2c_msg.write8 (sensor_reg.name reg_name.GLOBAL_RESET_CTRL1) (byte 0x1)] :=
  ⟨by decide, by decide, by decide,
   (galileo2_apply_ms_plan quiet_bus global_shutter_state (by decide) (by decide)
     (by decide)).elim fun g' h => ⟨g', by
       obtain ⟨_, _, _, _, _, _, hret, _⟩ := h
       refine ⟨hret, ?_⟩
       have hv : galileo2_apply_ms quiet_bus global_shutter_state =
           some (0, (galileo2_apply_ms quiet_bus global_shutter_state).get (by decide)).2 := by
         decide
       rw [hv] at hret
       have := (Prod.mk.inj (Option.some.inj hret)).2
       rw [← this]
       decide⟩⟩

/-- C18, as stated, fails: in `long_exposure_state` the computed readout delay is
66138, above 65535, yet `galileo2_apply_ms` returns 0 and writes 602
(`66138 - 65536`) to `TRDOUT_CTRL`; the strobe delay 323 and the reset interval 2497
it writes are computed from that reduced value. -/
theorem galileo2_apply_ms_no_overflow_error :
    (long_exposure_state.exposure.val.toNat * 1000 + long_exposure_state.line_duration_ns / 2) /
      long_exposure_state.line_duration_ns = 66138 ∧
    (65535 : Nat) < 66138 ∧
    ∃ g', galileo2_apply_ms quiet_bus long_exposure_state = some (0, g') ∧
      g'.i2c_sensor =
        [i2c_msg.write16 (sensor_reg.name reg_name.TRDY_CTRL) 52,
         i2c_msg.write16 (sensor_reg.name reg_name.TSHUTTER_STROBE_DELAY_CTRL) 323,
         i2c_msg.write16 (sensor_reg.name reg_name.TRDOUT_CTRL) 602,
         i2c_msg.write16 (sensor_reg.name reg_name.TSHUTTER_STROBE_WIDTH_CTRL) 1307,
         i2c_msg.write16 (sensor_reg.name reg_name.TGRST_INTERVAL_CTRL) 2497,
         i2c_msg.write8 (sensor_reg.name reg_name.GLOBAL_RESET_MODE_CONFIG1)
           (reg_val.glbrst_cfg1 ms_glbrst_cfg1),
         i2c_msg.write8 (sensor_reg.name reg_name.GLOBAL_RESET_CTRL1) (byte 0x1)] := by
  refine ⟨by decide, by decide, _, rfl, ?_⟩
  decide

/-- C18, amended: in global-shutter mode (with the divisions of the function defined)
`galileo2_apply_ms` never reports an error: it returns 0 whatever the values are and
whatever the bus answers.  The ready delay it writes is at most 65535; the other four
values are written reduced modulo `2 ^ 16`: the readout delay is the `u32` quotient
modulo `2 ^ 16`, and strobe delay, strobe width and reset interval are the sums of
C17 modulo `2 ^ 16`.  A value that is at most 65535 is thus written unchanged. -/
theorem galileo2_apply_ms_wraps (bus : i2c_bus) (g : galileo2)
    (hgs : g.gs.val ≠ 0) (hld : g.line_duration_ns ≠ 0) (hy : g.y_binning ≠ 0) :
    ∃ g' sdelay_ctrl trdout_ctrl cfg,
      galileo2_apply_ms bus g = some (0, g') ∧
      ms_sdelay_ctrl g = some sdelay_ctrl ∧ ms_trdout_ctrl g = some trdout_ctrl ∧
      trdout_ctrl = (u32 (u32 (ofS32 g.exposure.val * 1000) + u32 (g.line_duration_ns / 2)) /
        g.line_duration_ns) % 2 ^ 16 ∧
      g'.trdy_ctrl ≤ 65535 ∧
      g'.i2c_sensor = g.i2c_sensor ++
        [i2c_msg.write16 (sensor_reg.name reg_name.TRDY_CTRL) g'.trdy_ctrl,
         i2c_msg.write16 (sensor_reg.name reg_name.TSHUTTER_STROBE_DELAY_CTRL)
           ((g'.trdy_ctrl + trdout_ctrl - sdelay_ctrl) % 2 ^ 16),
         i2c_msg.write16 (sensor_reg.name reg_name.TRDOUT_CTRL) trdout_ctrl,
         i2c_msg.write16 (sensor_reg.name reg_name.TSHUTTER_STROBE_WIDTH_CTRL)
           ((ofS32 g.crop.height / g.y_binning + sdelay_ctrl) % 2 ^ 32 % 2 ^ 16),
         i2c_msg.write16 (sensor_reg.name reg_name.TGRST_INTERVAL_CTRL)
           ((g.video_timing.height + (trdout_ctrl : Int) + (g'.trdy_ctrl : Int) +
             (sdelay_ctrl : Int) + 512) % 2 ^ 16).toNat,
         i2c_msg.write8 (sensor_reg.name reg_name.GLOBAL_RESET_MODE_CONFIG1) cfg,
         i2c_msg.write8 (sensor_reg.name reg_name.GLOBAL_RESET_CTRL1) (byte 0x1)] ∧
      ∀ v : Nat, v ≤ 65535 → v % 2 ^ 16 = v := by
  obtain ⟨s, hs⟩ : ∃ s, ms_sdelay_ctrl g = some s := ⟨_, ms_sdelay_ctrl_of_ne g hld⟩
  have ht := ms_trdout_ctrl_of_ne g hld
  have hs16 := ms_sdelay_ctrl_lt g s hs
  obtain ⟨g', hg', htr, hlog⟩ := galileo2_apply_ms_gs bus g s _
    (ofS32 g.crop.height / g.y_binning) hgs hs ht (by simp only [cdiv, hy, if_false])
  refine ⟨g', s, _, reg_val.glbrst_cfg1 (ms_glbrst_cfg1_of g), hg', hs, ht, rfl, ?_, ?_, ?_⟩
  · rw [htr]
    unfold ms_trdy_ctrl; split <;> omega
  · rw [hlog, htr]
    rfl
  · intro v hv
    exact Nat.mod_eq_of_lt (by omega)

/-- C18, witness: `global_shutter_state` on the quiet bus. -/
theorem galileo2_apply_ms_wraps_witness :
    global_shutter_state.gs.val ≠ 0 ∧ global_shutter_state.line_duration_ns ≠ 0 ∧
    global_shutter_state.y_binning ≠ 0 ∧
    ∃ g', galileo2_apply_ms quiet_bus global_shutter_state = some (0, g') ∧
      g'.trdy_ctrl ≤ 65535 :=
  ⟨by decide, by decide, by decide,
   (galileo2_apply_ms_wraps quiet_bus global_shutter_state (by decide) (by decide)
     (by decide)).elim fun g' h => h.elim fun _ h => h.elim fun _ h => h.elim fun _ h =>
       ⟨g', h.1, h.2.2.2.2.1⟩⟩

/-! ## Streaming -/

set_option maxRecDepth 100000 in
/-- C19: evaluation on the state left by the probe (`probe_timed_state`) and the quiet
bus.  The first `galileo2_s_stream` with `enable = 1` returns 0 after 120 calls of
`i2c_transfer`, 117 of them register writes, and leaves the sensor streaming with its
timings up to date.  The second call, made on that state, returns 0 as well and issues
the same 120 calls again, beginning with the write of `0x02` to register `0x130` and
ending with `MODE_SELECT = 1`. -/
theorem galileo2_s_stream_on_twice :
    ∃ g1 g2, galileo2_s_stream quiet_bus probe_timed_state 1 = some (0, g1) ∧
      g1.streaming = true ∧ g1.timings_uptodate = true ∧
      g1.i2c_sensor.length = 120 ∧
      galileo2_s_stream quiet_bus g1 1 = some (0, g2) ∧
      g2.i2c_sensor = g1.i2c_sensor ++ g1.i2c_sensor ∧
      ((g2.i2c_sensor.drop g1.i2c_sensor.length).filter is_register_write).length = 117 ∧
      (g2.i2c_sensor.drop g1.i2c_sensor.length).head? =
        some (i2c_msg.write8 (sensor_reg.addr 0x130) (byte 0x02)) ∧
      g2.i2c_sensor.getLast? =
        some (i2c_msg.write8 (sensor_reg.name reg_name.MODE_SELECT) (byte 0x01)) ∧
      { g2 with i2c_sensor := g1.i2c_sensor } = g1 := by
  refine ⟨_, _, rfl, ?_, ?_, ?_, rfl, ?_, ?_, ?_, ?_, ?_⟩ <;> decide

/-- C20: `galileo2_s_stream` with `enable = 0` returns 0 on every state and every bus and
leaves the state not streaming.  When the sensor is not streaming the state, traffic
included, is unchanged; when it is streaming the only changes are the flag and the
traffic, which receives `GLOBAL_RESET_CTRL1 = 0` followed by `MODE_SELECT = 0` with
global shutter enabled, and `MODE_SELECT = 0` alone otherwise. -/
theorem galileo2_s_stream_off (bus : i2c_bus) (g : galileo2) :
    ∃ g', galileo2_s_stream bus g 0 = some (0, g') ∧ g'.streaming = false ∧
      (g.streaming = false → g' = g) ∧
      (g.streaming = true → g.gs.val ≠ 0 →
        g' = { g with streaming := false,
                      i2c_sensor := g.i2c_sensor ++
                        [i2c_msg.write8 (sensor_reg.name reg_name.GLOBAL_RESET_CTRL1) (byte 0x0),
                         i2c_msg.write8 (sensor_reg.name reg_name.MODE_SELECT) (byte 0x00)] }) ∧
      (g.streaming = true → g.gs.val = 0 →
        g' = { g with streaming := false,
                      i2c_sensor := g.i2c_sensor ++
                        [i2c_msg.write8 (sensor_reg.name reg_name.MODE_SELECT) (byte 0x00)] }) := by
  unfold galileo2_s_stream
  simp only [if_true]
  by_cases hstr : g.streaming = false
  · have hne : g.streaming ≠ true := by rw [hstr]; decide
    exact ⟨g, by simp only [hstr, if_true], hstr, fun _ => rfl, fun h => absurd h hne,
      fun h => absurd h hne⟩
  · simp only [hstr, if_false]
    by_cases hgs : g.gs.val = 0
    · refine ⟨_, rfl, ?_, ?_, ?_, ?_⟩
      · simp only [hgs, ne_eq, not_true_eq_false, if_false, galileo2_write8_state]
      · intro h; exact absurd h (by decide)
      · intro _ h; exact absurd hgs h
      · intro _ _
        simp only [hgs, ne_eq, not_true_eq_false, if_false, galileo2_write8_state]
    · refine ⟨_, rfl, ?_, ?_, ?_, ?_⟩
      · simp only [hgs, ne_eq, not_false_eq_true, if_true, galileo2_write8_state]
      · intro h; exact absurd h (by decide)
      · intro _ _
        simp only [hgs, ne_eq, not_false_eq_true, if_true, galileo2_write8_state,
          List.append_assoc, List.cons_append, List.nil_append]
      · intro _ h; exact absurd h hgs

/-! ## Format, crop and frame interval -/

/-- The state after a successful `calc_binning`. -/
theorem calc_binning_of_some (g gb : galileo2) (h : calc_binning g = some gb) :
    gb = { g with x_binning := min (ofS32 g.crop.width / g.format.width) 2,
                  y_binning := min (ofS32 g.crop.height / g.format.height) 8 } := by
  by_cases hw : g.format.width = 0
  · simp [calc_binning, cdiv, hw, bind, Option.bind] at h
  · by_cases hh : g.format.height = 0
    · simp [calc_binning, cdiv, hw, hh, bind, Option.bind] at h
    · simp [calc_binning, cdiv, hw, hh, bind, Option.bind] at h
      exact h.symm

/-- What `galileo2_set_selection` does with the `CROP` target while streaming, whenever
it returns: it returns 0, stores the crop, marks the timings stale, recomputes the
binning factors and sends nine messages. -/
theorem galileo2_set_selection_streaming (bus : i2c_bus) (g : galileo2) (r : v4l2_rect)
    (hs : g.streaming = true) (ret : Int) (g' : galileo2)
    (h : galileo2_set_selection bus g v4l2_sel_tgt.V4L2_SEL_TGT_CROP r = some (ret, g')) :
    ret = 0 ∧
    g' = { g with crop := r, timings_uptodate := false,
                  x_binning := min (ofS32 r.width / g.format.width) 2,
                  y_binning := min (ofS32 r.height / g.format.height) 8,
                  i2c_sensor := g.i2c_sensor ++ set_selection_msgs r
                    (min (ofS32 r.width / g.format.width) 2)
                    (min (ofS32 r.height / g.format.height) 8)
                    (ofS32 r.width / min (ofS32 r.width / g.format.width) 2)
                    (ofS32 r.height / min (ofS32 r.height / g.format.height) 8) } := by
  have hne : ¬ (g.streaming = false) := by rw [hs]; decide
  unfold galileo2_set_selection at h
  simp only [if_true, hne, if_false] at h
  cases hb : calc_binning { g with crop := r, timings_uptodate := false } with
  | none => rw [hs] at hb; simp [hb] at h
  | some gb =>
    have hgb := calc_binning_of_some _ _ hb
    simp only at hgb
    rw [hs] at hb
    simp only [hb, galileo2_write16_state, galileo2_write8_state] at h
    by_cases hx : gb.x_binning = 0
    · simp [cdiv, hx] at h
    · by_cases hy : gb.y_binning = 0
      · simp [cdiv, hx, hy] at h
      · simp only [cdiv, hx, hy, if_false, Bool.true_eq_false, Option.some.injEq, Prod.mk.injEq] at h
        refine ⟨h.1.symm, ?_⟩
        rw [← h.2, hgb]
        simp [set_selection_msgs, hs]

/-- What `galileo2_set_selection` does while not streaming. -/
theorem galileo2_set_selection_idle (bus : i2c_bus) (g : galileo2) (r : v4l2_rect)
    (hs : g.streaming = false) :
    galileo2_set_selection bus g v4l2_sel_tgt.V4L2_SEL_TGT_CROP r =
      some (0, { g with crop := r, timings_uptodate := false }) := by
  unfold galileo2_set_selection
  simp only [if_true, hs]

/-- What `galileo2_set_selection` does with the `CROP` target while streaming when no
divisor is zero. -/
theorem galileo2_set_selection_streaming_ok (bus : i2c_bus) (g : galileo2) (r : v4l2_rect)
    (hs : g.streaming = true) (hfw : g.format.width ≠ 0) (hfh : g.format.height ≠ 0)
    (hx : min (ofS32 r.width / g.format.width) 2 ≠ 0)
    (hy : min (ofS32 r.height / g.format.height) 8 ≠ 0) :
    galileo2_set_selection bus g v4l2_sel_tgt.V4L2_SEL_TGT_CROP r =
      some (0,
        { g with crop := r, timings_uptodate := false,
                 x_binning := min (ofS32 r.width / g.format.width) 2,
                 y_binning := min (ofS32 r.height / g.format.height) 8,
                 i2c_sensor := g.i2c_sensor ++ set_selection_msgs r
                   (min (ofS32 r.width / g.format.width) 2)
                   (min (ofS32 r.height / g.format.height) 8)
                   (ofS32 r.width / min (ofS32 r.width / g.format.width) 2)
                   (ofS32 r.height / min (ofS32 r.height / g.format.height) 8) }) := by
  have hb : calc_binning { g with crop := r, timings_uptodate := false } =
      some { g with crop := r, timings_uptodate := false,
                    x_binning := min (ofS32 r.width / g.format.width) 2,
                    y_binning := min (ofS32 r.height / g.format.height) 8 } := by
    simp [calc_binning, cdiv, hfw, hfh, bind, Option.bind]
  cases hc : galileo2_set_selection bus g v4l2_sel_tgt.V4L2_SEL_TGT_CROP r with
  | none =>
    exfalso
    have hne : ¬ (g.streaming = false) := by rw [hs]; decide
    unfold galileo2_set_selection at hc
    simp only [if_true, hne, if_false] at hc
    rw [hs] at hb
    simp only [hb, galileo2_write16_state, galileo2_write8_state, cdiv, hx, hy, if_false,
      Bool.true_eq_false] at hc
    exact Option.noConfusion hc
  | some p =>
    obtain ⟨ret, g'⟩ := p
    have h := galileo2_set_selection_streaming bus g r hs ret g' hc
    rw [h.1, h.2]

/-- What `galileo2_s_frame_interval` does while not streaming. -/
theorem galileo2_s_frame_interval_idle (bus : i2c_bus) (g : galileo2) (interval : v4l2_fract)
    (hs : g.streaming = false) :
    galileo2_s_frame_interval bus g interval =
      some (0, { g with frame_interval := interval, timings_uptodate := false }) := by
  unfold galileo2_s_frame_interval
  simp only [hs, if_true]

/-- Whenever `galileo2_s_frame_interval` returns, it returns 0 and the timings are marked
stale. -/
theorem galileo2_s_frame_interval_stale (bus : i2c_bus) (g : galileo2) (interval : v4l2_fract)
    (ret : Int) (g' : galileo2)
    (h : galileo2_s_frame_interval bus g interval = some (ret, g')) :
    ret = 0 ∧ g'.timings_uptodate = false := by
  unfold galileo2_s_frame_interval at h
  by_cases hs : g.streaming = false
  · simp only [hs, if_true, Option.some.injEq, Prod.mk.injEq] at h
    exact ⟨h.1.symm, by rw [← h.2]⟩
  · simp only [hs, if_false, galileo2_write16_state] at h
    cases hq : div_u64 (u64 (g.vtclk * interval.numerator))
        (u32 (ofS32 g.video_timing.width * interval.denominator)) with
    | none => simp only [hq] at h; exact Option.noConfusion h
    | some q =>
      simp only [hq] at h
      cases hh : cdiv (ofS32 g.crop.height) g.y_binning with
      | none => simp only [hh] at h; exact Option.noConfusion h
      | some hgt =>
        simp only [hh, Bool.true_eq_false, if_false, Option.some.injEq, Prod.mk.injEq] at h
        refine ⟨h.1.symm, ?_⟩
        rw [← h.2]
        split <;> rfl

/-- C21: `galileo2_set_fmt` returns 0, marks the timings stale and sends nothing.
`galileo2_set_selection` with the `CROP` target and `galileo2_s_frame_interval`, whenever
they return, return 0 and leave `timings_uptodate = false`.  While the sensor is not
streaming, these two return 0 with the new value stored, the timings marked stale and
nothing else changed, so the log of bus messages is the one before the call. -/
theorem galileo2_mutation_marks_stale (bus : i2c_bus) (g : galileo2)
    (which : v4l2_subdev_format_whence) (format : v4l2_mbus_framefmt) (r : v4l2_rect)
    (interval : v4l2_fract) :
    ((galileo2_set_fmt g which format).1 = 0 ∧
      (galileo2_set_fmt g which format).2.timings_uptodate = false ∧
      (galileo2_set_fmt g which format).2.i2c_sensor = g.i2c_sensor) ∧
    (∀ ret g', galileo2_set_selection bus g v4l2_sel_tgt.V4L2_SEL_TGT_CROP r = some (ret, g') →
      ret = 0 ∧ g'.timings_uptodate = false) ∧
    (∀ ret g', galileo2_s_frame_interval bus g interval = some (ret, g') →
      ret = 0 ∧ g'.timings_uptodate = false) ∧
    (g.streaming = false →
      galileo2_set_selection bus g v4l2_sel_tgt.V4L2_SEL_TGT_CROP r =
        some (0, { g with crop := r, timings_uptodate := false }) ∧
      galileo2_s_frame_interval bus g interval =
        some (0, { g with frame_interval := interval, timings_uptodate := false }) ∧
      (∀ ret g', galileo2_set_selection bus g v4l2_sel_tgt.V4L2_SEL_TGT_CROP r = some (ret, g') →
        g'.i2c_sensor = g.i2c_sensor) ∧
      (∀ ret g', galileo2_s_frame_interval bus g interval = some (ret, g') →
        g'.i2c_sensor = g.i2c_sensor)) := by
  refine ⟨⟨rfl, rfl, ?_⟩, ?_, ?_, ?_⟩
  · unfold galileo2_set_fmt
    split <;> rfl
  · intro ret g' h
    by_cases hs : g.streaming = false
    · rw [galileo2_set_selection_idle bus g r hs] at h
      simp only [Option.some.injEq, Prod.mk.injEq] at h
      exact ⟨h.1.symm, by rw [← h.2]⟩
    · have hs' : g.streaming = true := by
        cases hb : g.streaming with
        | false => exact absurd hb hs
        | true => rfl
      have h2 := galileo2_set_selection_streaming bus g r hs' ret g' h
      exact ⟨h2.1, by rw [h2.2]⟩
  · intro ret g' h
    exact galileo2_s_frame_interval_stale bus g interval ret g' h
  · intro hs
    refine ⟨galileo2_set_selection_idle bus g r hs,
      galileo2_s_frame_interval_idle bus g interval hs, ?_, ?_⟩
    · intro ret g' h
      rw [galileo2_set_selection_idle bus g r hs] at h
      simp only [Option.some.injEq, Prod.mk.injEq] at h
      rw [← h.2]
    · intro ret g' h
      rw [galileo2_s_frame_interval_idle bus g interval hs] at h
      simp only [Option.some.injEq, Prod.mk.injEq] at h
      rw [← h.2]

/-- C21, witness: the probe defaults, not streaming, on the bus `quiet_bus`. -/
theorem galileo2_mutation_marks_stale_witness :
    (probe_state 26000000 4).streaming = false ∧
    galileo2_set_selection quiet_bus (probe_state 26000000 4) v4l2_sel_tgt.V4L2_SEL_TGT_CROP
        { left := 0, top := 0, width := 1000, height := 976 } =
      some (0, { probe_state 26000000 4 with
                 crop := { left := 0, top := 0, width := 1000, height := 976 },
                 timings_uptodate := false }) :=
  ⟨rfl, ((galileo2_mutation_marks_stale quiet_bus (probe_state 26000000 4)
    v4l2_subdev_format_whence.V4L2_SUBDEV_FORMAT_ACTIVE (probe_state 26000000 4).format
    { left := 0, top := 0, width := 1000, height := 976 }
    { numerator := 1, denominator := 30 }).2.2.2 rfl).1⟩

/-- C26: while not streaming, `galileo2_s_ctrl` returns 0 for every control identifier
and leaves the whole state, the log of bus messages included, as it was.  While
streaming, each identifier of the `switch` gives the result of its apply function
(`GALILEO2_GS` that of `galileo2_apply_ms`, `GALILEO2_MS` that of `galileo2_set_shutter`,
both flash controls that of `galileo2_apply_flash_strobe`) and every other identifier
returns 0 with the state unchanged. -/
theorem galileo2_s_ctrl_dispatch (bus : i2c_bus) (g : galileo2) :
    (g.streaming = false → ∀ id, galileo2_s_ctrl bus g id = some (0, g)) ∧
    (g.streaming = true →
      galileo2_s_ctrl bus g v4l2_cid.V4L2_CID_HFLIP = some (galileo2_apply_hflip bus g) ∧
      galileo2_s_ctrl bus g v4l2_cid.V4L2_CID_VFLIP = some (galileo2_apply_vflip bus g) ∧
      galileo2_s_ctrl bus g v4l2_cid.V4L2_CID_EXPOSURE_ABSOLUTE =
        galileo2_apply_exposure bus g ∧
      galileo2_s_ctrl bus g v4l2_cid.V4L2_CID_FOCUS_ABSOLUTE = some (galileo2_apply_focus g) ∧
      galileo2_s_ctrl bus g v4l2_cid.V4L2_CID_GALILEO2_ND = some (galileo2_apply_nd g) ∧
      galileo2_s_ctrl bus g v4l2_cid.V4L2_CID_FLASH_STROBE_SOURCE =
        some (galileo2_apply_flash_strobe bus g) ∧
      galileo2_s_ctrl bus g v4l2_cid.V4L2_CID_GALILEO2_STROBE_WIDTH =
        some (galileo2_apply_flash_strobe bus g) ∧
      galileo2_s_ctrl bus g v4l2_cid.V4L2_CID_ANALOGUE_GAIN = some (galileo2_apply_gain bus g) ∧
      galileo2_s_ctrl bus g v4l2_cid.V4L2_CID_GALILEO2_GS = galileo2_apply_ms bus g ∧
      galileo2_s_ctrl bus g v4l2_cid.V4L2_CID_GALILEO2_MS = some (galileo2_set_shutter bus g) ∧
      ∀ n, galileo2_s_ctrl bus g (v4l2_cid.other n) = some (0, g)) := by
  constructor
  · intro hs id
    unfold galileo2_s_ctrl
    simp only [hs, if_true]
  · intro hs
    have hne : ¬ (g.streaming = false) := by rw [hs]; decide
    refine ⟨?_, ?_, ?_, ?_, ?_, ?_, ?_, ?_, ?_, ?_, ?_⟩ <;>
      first
        | (intro n; unfold galileo2_s_ctrl; rw [if_neg hne])
        | (unfold galileo2_s_ctrl; rw [if_neg hne])

/-- C26, witness: with the probe defaults (not streaming) a write of the exposure control
sends nothing; in the state `streaming_probe_state` it is `galileo2_apply_exposure`. -/
theorem galileo2_s_ctrl_dispatch_witness :
    (probe_state 26000000 4).streaming = false ∧
    galileo2_s_ctrl quiet_bus (probe_state 26000000 4) v4l2_cid.V4L2_CID_EXPOSURE_ABSOLUTE =
      some (0, probe_state 26000000 4) ∧
    streaming_probe_state.streaming = true ∧
    galileo2_s_ctrl quiet_bus streaming_probe_state v4l2_cid.V4L2_CID_EXPOSURE_ABSOLUTE =
      galileo2_apply_exposure quiet_bus streaming_probe_state :=
  ⟨rfl, (galileo2_s_ctrl_dispatch quiet_bus (probe_state 26000000 4)).1 rfl _, rfl,
    ((galileo2_s_ctrl_dispatch quiet_bus streaming_probe_state).2 rfl).2.2.1⟩

set_option maxRecDepth 100000 in
/-- C25, as stated, fails for the crop: the probe defaults are streamed on the quiet bus
(binning 1 x 1); after `galileo2_set_fmt` has recorded the format 3858 x 2682,
`galileo2_set_selection` with the crop 7716 x 5364 sends nine register writes and changes
the binning factors to 2 x 2. -/
theorem galileo2_set_selection_streaming_writes :
    ∃ g1 g', galileo2_s_stream quiet_bus (probe_state 26000000 4) 1 = some (0, g1) ∧
      g1.streaming = true ∧ g1.x_binning = 1 ∧ g1.y_binning = 1 ∧
      galileo2_set_selection quiet_bus
        (galileo2_set_fmt g1 v4l2_subdev_format_whence.V4L2_SUBDEV_FORMAT_ACTIVE
          { width := 3858, height := 2682, code := V4L2_MBUS_FMT_SGBRG10_1X10 }).2
        v4l2_sel_tgt.V4L2_SEL_TGT_CROP { left := 4, top := 4, width := 7716, height := 5364 } =
        some (0, g') ∧
      g'.streaming = true ∧ g'.x_binning = 2 ∧ g'.y_binning = 2 ∧
      g'.i2c_sensor = g1.i2c_sensor ++
        set_selection_msgs { left := 4, top := 4, width := 7716, height := 5364 }
          2 2 3858 2682 ∧
      (g'.i2c_sensor.drop g1.i2c_sensor.length).length = 9 ∧
      (g'.i2c_sensor.drop g1.i2c_sensor.length).all is_register_write = true := by
  refine ⟨_, _, rfl, ?_, ?_, ?_, rfl, ?_, ?_, ?_, ?_, ?_, ?_⟩ <;> decide

/-- C25, amended: while streaming, `galileo2_set_fmt` only records the format (for
`V4L2_SUBDEV_FORMAT_ACTIVE`) and marks the timings stale, sending nothing and leaving the
binning factors as they were; `galileo2_set_selection` with the `CROP` target records the
crop, marks the timings stale, sets the binning factors to
`min (crop.width / format.width, 2)` and `min (crop.height / format.height, 8)` and, these
and the format sizes being non-zero, sends nine writes: the crop window, the binned crop
size and the binning type, between two writes of `GROUPED_PARAMETER_HOLD`. -/
theorem galileo2_set_selection_live (bus : i2c_bus) (g : galileo2)
    (which : v4l2_subdev_format_whence) (format : v4l2_mbus_framefmt) (r : v4l2_rect)
    (hs : g.streaming = true) (hfw : g.format.width ≠ 0) (hfh : g.format.height ≠ 0)
    (hx : min (ofS32 r.width / g.format.width) 2 ≠ 0)
    (hy : min (ofS32 r.height / g.format.height) 8 ≠ 0) :
    galileo2_set_fmt g which format =
      (0, { g with
            format := if which = v4l2_subdev_format_whence.V4L2_SUBDEV_FORMAT_TRY then g.format
                      else format,
            timings_uptodate := false }) ∧
    (galileo2_set_fmt g which format).2.i2c_sensor = g.i2c_sensor ∧
    (galileo2_set_fmt g which format).2.x_binning = g.x_binning ∧
    (galileo2_set_fmt g which format).2.y_binning = g.y_binning ∧
    galileo2_set_selection bus g v4l2_sel_tgt.V4L2_SEL_TGT_CROP r =
      some (0,
        { g with crop := r, timings_uptodate := false,
                 x_binning := min (ofS32 r.width / g.format.width) 2,
                 y_binning := min (ofS32 r.height / g.format.height) 8,
                 i2c_sensor := g.i2c_sensor ++ set_selection_msgs r
                   (min (ofS32 r.width / g.format.width) 2)
                   (min (ofS32 r.height / g.format.height) 8)
                   (ofS32 r.width / min (ofS32 r.width / g.format.width) 2)
                   (ofS32 r.height / min (ofS32 r.height / g.format.height) 8) }) := by
  have hf : galileo2_set_fmt g which format =
      (0, { g with
            format := if which = v4l2_subdev_format_whence.V4L2_SUBDEV_FORMAT_TRY then g.format
                      else format,
            timings_uptodate := false }) := by
    unfold galileo2_set_fmt
    by_cases hw : which = v4l2_subdev_format_whence.V4L2_SUBDEV_FORMAT_TRY
    · simp only [hw, if_true]
    · simp only [hw, if_false]
  refine ⟨hf, ?_, ?_, ?_, galileo2_set_selection_streaming_ok bus g r hs hfw hfh hx hy⟩ <;>
    rw [hf]

/-- C25, witness: the state `streaming_probe_state` and its own crop. -/
theorem galileo2_set_selection_live_witness :
    streaming_probe_state.streaming = true ∧
    (galileo2_set_fmt streaming_probe_state v4l2_subdev_format_whence.V4L2_SUBDEV_FORMAT_ACTIVE
      { width := 3858, height := 2682, code := V4L2_MBUS_FMT_SGBRG10_1X10 }).2.i2c_sensor =
      streaming_probe_state.i2c_sensor :=
  ⟨rfl, (galileo2_set_selection_live quiet_bus streaming_probe_state
    v4l2_subdev_format_whence.V4L2_SUBDEV_FORMAT_ACTIVE
    { width := 3858, height := 2682, code := V4L2_MBUS_FMT_SGBRG10_1X10 }
    { left := 4, top := 4, width := 7716, height := 5364 } rfl (by decide) (by decide)
    (by decide) (by decide)).2.1⟩

set_option maxRecDepth 100000 in
/-- C22: the probe defaults are streamed on the quiet bus (vtclk 1329973920, line length
8228, crop height 5364, no binning) and `galileo2_s_frame_interval` is called with the
interval 33333/1000000.  It stores the frame length 11271, writes it to
`VT_FRAME_LENGTH_LINES` and leaves the interval as requested: the divisor
`8228 * 1000000` is reduced to 32 bits (3933032704) before the division.  The exact
quotient is 5387, below the minimum `5364 / 1 + 42 = 5406`. -/
theorem galileo2_s_frame_interval_divisor_wraps :
    ∃ g1 g', galileo2_s_stream quiet_bus (probe_state 26000000 4) 1 = some (0, g1) ∧
      g1.streaming = true ∧ g1.vtclk = 1329973920 ∧ g1.video_timing.width = 8228 ∧
      g1.crop.height = 5364 ∧ g1.y_binning = 1 ∧
      galileo2_s_frame_interval quiet_bus g1
        { numerator := 33333, denominator := 1000000 } = some (0, g') ∧
      g'.video_timing.height = 11271 ∧
      g'.frame_interval = { numerator := 33333, denominator := 1000000 } ∧
      g'.i2c_sensor.getLast? =
        some (i2c_msg.write16 (sensor_reg.name reg_name.VT_FRAME_LENGTH_LINES) 11271) ∧
      u32 (8228 * 1000000) = 3933032704 ∧
      1329973920 * 33333 / 3933032704 = 11271 ∧
      1329973920 * 33333 / (8228 * 1000000) = 5387 ∧
      5364 / 1 + 42 = 5406 ∧
      g'.video_timing.height ≠ max 5387 5406 := by
  refine ⟨_, _, rfl, ?_, ?_, ?_, ?_, ?_, rfl, ?_, ?_, ?_, ?_, ?_, ?_, ?_, ?_⟩ <;> decide

set_option maxRecDepth 100000 in
/-- C30: with the probe defaults (not streaming) `galileo2_s_frame_interval` stores the
interval 0/30 and returns 0; the next `galileo2_update_timings`, and with it the next
stream-on, divides by the numerator 0.  After the probe defaults are streamed on the
quiet bus, the interval 1/0 makes `galileo2_s_frame_interval` itself divide by
`line_length * 0`. -/
theorem galileo2_s_frame_interval_zero_divisor :
    (∃ g', galileo2_s_frame_interval quiet_bus (probe_state 26000000 4)
        { numerator := 0, denominator := 30 } = some (0, g') ∧
      g'.frame_interval = { numerator := 0, denominator := 30 } ∧
      galileo2_update_timings g' = none ∧
      galileo2_s_stream quiet_bus g' 1 = none) ∧
    ∃ g1, galileo2_s_stream quiet_bus (probe_state 26000000 4) 1 = some (0, g1) ∧
      g1.streaming = true ∧
      galileo2_s_frame_interval quiet_bus g1 { numerator := 1, denominator := 0 } = none := by
  refine ⟨⟨_, rfl, ?_, ?_, ?_⟩, _, rfl, ?_, ?_⟩ <;> decide

/-! ## Stream-on failures -/

set_option maxRecDepth 4000 in
/-- The state after a successful `calc_vt_timing`: only the line length and the frame
length are written. -/
theorem calc_vt_timing_of_some (g gt : galileo2) (h : calc_vt_timing g = some gt) :
    ∃ w hh, gt = { g with video_timing := { g.video_timing with width := w, height := hh } } := by
  by_cases hx : g.x_binning = 0
  · simp only [calc_vt_timing, cdiv, hx, if_true, bind, Option.bind] at h
    exact Option.noConfusion h
  · by_cases hy : g.y_binning = 0
    · simp only [calc_vt_timing, cdiv, hx, hy, if_true, if_false, bind, Option.bind] at h
      exact Option.noConfusion h
    · simp only [calc_vt_timing, cdiv, hx, hy, if_false, bind, Option.bind, pure,
        Option.some.injEq] at h
      exact ⟨_, _, h.symm⟩

/-- The function `galileo2_calc_vt` returns 0 whenever it returns, and writes neither the
streaming flag nor the format. -/
theorem galileo2_calc_vt_streaming (g g' : galileo2) (r : Int)
    (h : galileo2_calc_vt g = some (r, g')) :
    r = 0 ∧ g'.streaming = g.streaming ∧ g'.format = g.format := by
  cases hb : calc_binning g with
  | none =>
    simp only [galileo2_calc_vt, hb, bind, Option.bind] at h
    exact Option.noConfusion h
  | some gb =>
    have hgb := calc_binning_of_some g gb hb
    cases ht : calc_vt_timing gb with
    | none =>
      simp only [galileo2_calc_vt, hb, ht, bind, Option.bind] at h
      exact Option.noConfusion h
    | some gt =>
      obtain ⟨w, hh, hgt⟩ := calc_vt_timing_of_some gb gt ht
      simp only [galileo2_calc_vt, hb, ht, bind, Option.bind, pure, Option.some.injEq,
        Prod.mk.injEq] at h
      refine ⟨h.1.symm, ?_, ?_⟩
      · rw [← h.2, hgt, hgb]
      · rw [← h.2, hgt, hgb]

/-- The function `galileo2_calc_clocks` does not write the streaming flag; it returns 0
for the four 10-bit Bayer codes and `-EINVAL` for every other pixel code. -/
theorem galileo2_calc_clocks_streaming (g g' : galileo2) (r : Int)
    (h : galileo2_calc_clocks g = some (r, g')) :
    g'.streaming = g.streaming ∧
    (is_bayer10 g.format.code = true → r = 0) ∧
    (is_bayer10 g.format.code = false → r = -EINVAL) := by
  by_cases hn : u32 g.frame_interval.numerator = 0
  · simp [galileo2_calc_clocks, div_u64, cdiv, hn, bind, Option.bind] at h
  · cases hb : is_bayer10 g.format.code
    · simp [galileo2_calc_clocks, div_u64, cdiv, hn, hb, bind, Option.bind] at h
      refine ⟨by rw [← h.2], ?_, fun _ => h.1.symm⟩
      intro hc; exact absurd hc (by decide)
    · by_cases hd : u32 (u32 (u32 (ofS32 g.crop.width * g.pdata.lanes) * 2)) = 0
      · simp [galileo2_calc_clocks, div_u64, cdiv, hn, hb, hd, bind, Option.bind] at h
      · simp [galileo2_calc_clocks, div_u64, cdiv, hn, hb, hd, bind, Option.bind] at h
        refine ⟨by rw [← h.2], fun _ => h.1.symm, ?_⟩
        intro hc; exact absurd hc (by decide)

/-- What `galileo2_update_timings` returns, whenever it returns: 0 for the four 10-bit
Bayer codes, with the fixed `pll1` configuration stored and the timings marked up to
date, and `-EINVAL` for every other pixel code.  It never writes the streaming flag or
`pll0`, and the clock targets play no part in the return value. -/
theorem galileo2_update_timings_ret (g g' : galileo2) (ret : Int)
    (h : galileo2_update_timings g = some (ret, g')) :
    g'.streaming = g.streaming ∧
    (is_bayer10 g.format.code = true →
      ret = 0 ∧ g'.timings_uptodate = true ∧
      g'.pll1 = { pre_pll_clk_div := 1, pll_multiplier := 720, vt_sys_clk_div := 6,
                  vt_pix_clk_div := 12, op_sys_clk_div := 6, op_pix_clk_div := 6 }) ∧
    (is_bayer10 g.format.code = false → ret = -EINVAL) := by
  unfold galileo2_update_timings at h
  cases h1 : galileo2_calc_vt g with
  | none => rw [h1] at h; exact Option.noConfusion h
  | some r1 =>
    obtain ⟨ret1, g1⟩ := r1
    have hv := galileo2_calc_vt_streaming g g1 ret1 h1
    have hf := hv.2.2
    rw [h1] at h
    simp only at h
    have hr1 : ¬ ret1 < 0 := by rw [hv.1]; decide
    rw [if_neg hr1] at h
    cases h2 : galileo2_calc_clocks g1 with
    | none => rw [h2] at h; exact Option.noConfusion h
    | some r2 =>
      obtain ⟨ret2, g2⟩ := r2
      have hc := galileo2_calc_clocks_streaming g1 g2 ret2 h2
      rw [hf] at hc
      rw [h2] at h
      simp only at h
      cases hb : is_bayer10 g.format.code
      · have hr2 : ret2 < 0 := by rw [hc.2.2 hb]; decide
        rw [if_pos hr2] at h
        have h' := Prod.mk.inj (Option.some.inj h)
        refine ⟨by rw [← h'.2, hc.1, hv.2.1], ?_, fun _ => by rw [← h'.1, hc.2.2 hb]⟩
        intro hc'; exact absurd hc' (by decide)
      · have hr2 : ¬ ret2 < 0 := by rw [hc.2.1 hb]; decide
        rw [if_neg hr2] at h
        have h' := Prod.mk.inj (Option.some.inj h)
        refine ⟨by rw [← h'.2]; exact hc.1.trans hv.2.1, fun _ => ⟨h'.1.symm, ?_, ?_⟩, ?_⟩
        · rw [← h'.2]
        · rw [← h'.2]
        · intro hc'; exact absurd hc' (by decide)

/-- The loop of `galileo2_raytrix_config` does not write the streaming flag and returns
0 or a negative value. -/
theorem raytrix_config_loop_streaming (bus : i2c_bus) (l : List (Nat × Nat)) (g : galileo2) :
    (raytrix_config_loop bus g l).2.streaming = g.streaming ∧
    (raytrix_config_loop bus g l).1 ≤ 0 := by
  induction l generalizing g with
  | nil => exact ⟨rfl, le_refl _⟩
  | cons a rest ih =>
    obtain ⟨reg, val⟩ := a
    unfold raytrix_config_loop
    simp only
    by_cases hr : (galileo2_write8 bus g (sensor_reg.addr reg) (byte val)).1 ≠ 0
    · rw [if_pos hr]
      refine ⟨by rw [galileo2_write8_state], ?_⟩
      unfold galileo2_write8
      simp only
      split
      · omega
      · exact le_refl _
    · rw [if_neg hr]
      have := ih (galileo2_write8 bus g (sensor_reg.addr reg) (byte val)).2
      rw [galileo2_write8_state] at this
      rw [galileo2_write8_state]
      exact this

/-- The function `galileo2_configure` returns 0 whenever it returns. -/
theorem galileo2_configure_ret (bus : i2c_bus) (g g' : galileo2) (ret : Int)
    (h : galileo2_configure bus g = some (ret, g')) : ret = 0 := by
  unfold galileo2_configure at h
  have hi : ¬ (galileo2_init bus g).1 < 0 := by
    show ¬ ((0 : Int) < 0)
    decide
  simp only [hi, if_false] at h
  cases h1 : configure_registers bus (galileo2_init bus g).2 with
  | none => simp only [h1] at h; exact Option.noConfusion h
  | some g1 =>
    simp only [h1] at h
    cases h2 : galileo2_apply_exposure bus g1 with
    | none => simp only [h2] at h; exact Option.noConfusion h
    | some r2 =>
      simp only [h2] at h
      exact (Prod.mk.inj (Option.some.inj h)).1.symm

/-- C23: when `galileo2_s_stream` with `enable = 1`, called while not streaming, returns
a value other than 0, that value is negative and the sensor is left not streaming.  The
value is the error of the timing update (run when the timings are stale) or, the update
having returned no error, the error of `galileo2_raytrix_config`; no other stage reports
errors. -/
theorem galileo2_s_stream_on_failure (bus : i2c_bus) (g g' : galileo2) (ret : Int)
    (hs : g.streaming = false)
    (h : galileo2_s_stream bus g 1 = some (ret, g')) (hr : ret ≠ 0) :
    ret < 0 ∧ g'.streaming = false ∧
    ∃ r0 gt, (if g.timings_uptodate = false then galileo2_update_timings g else some (0, g)) =
        some (r0, gt) ∧
      ((r0 < 0 ∧ ret = r0 ∧ g' = gt) ∨
       (¬ r0 < 0 ∧ galileo2_raytrix_config bus gt = (ret, g'))) := by
  unfold galileo2_s_stream at h
  have h1 : ¬ ((1 : Int) = 0) := by decide
  simp only [h1, if_false] at h
  cases ht : (if g.timings_uptodate = false then galileo2_update_timings g else some (0, g)) with
  | none => rw [ht] at h; exact Option.noConfusion h
  | some p =>
    obtain ⟨r0, gt⟩ := p
    have hgt : gt.streaming = false := by
      by_cases hu : g.timings_uptodate = false
      · rw [if_pos hu] at ht
        rw [(galileo2_update_timings_ret g gt r0 ht).1, hs]
      · rw [if_neg hu] at ht
        rw [← (Prod.mk.inj (Option.some.inj ht)).2, hs]
    rw [ht] at h
    simp only at h
    by_cases hr0 : r0 < 0
    · rw [if_pos hr0] at h
      have h' := Prod.mk.inj (Option.some.inj h)
      refine ⟨by rw [← h'.1]; exact hr0, by rw [← h'.2]; exact hgt, r0, gt, rfl,
        Or.inl ⟨hr0, h'.1.symm, h'.2.symm⟩⟩
    · rw [if_neg hr0] at h
      have hray := raytrix_config_loop_streaming bus raytrix_config_table gt
      by_cases hr1 : (galileo2_raytrix_config bus gt).1 < 0
      · rw [if_pos hr1] at h
        have h' := Option.some.inj h
        refine ⟨by rw [h'] at hr1; exact hr1, ?_, r0, gt, rfl, Or.inr ⟨hr0, h'⟩⟩
        have h2 := hray.1
        unfold galileo2_raytrix_config at h'
        rw [h'] at h2
        exact h2.trans hgt
      · rw [if_neg hr1] at h
        have hp : ¬ (galileo2_apply_plls bus (galileo2_raytrix_config bus gt).2).1 < 0 := by
          show ¬ ((0 : Int) < 0)
          decide
        rw [if_neg hp] at h
        exfalso
        cases hc : galileo2_configure bus
            (galileo2_apply_plls bus (galileo2_raytrix_config bus gt).2).2 with
        | none => rw [hc] at h; exact Option.noConfusion h
        | some q =>
          obtain ⟨rc, gc⟩ := q
          have hrc := galileo2_configure_ret bus _ gc rc hc
          rw [hc] at h
          simp only at h
          have hrc' : ¬ rc < 0 := by rw [hrc]; decide
          rw [if_neg hrc'] at h
          split at h
          · exact Option.noConfusion h
          · exact hr (Prod.mk.inj (Option.some.inj h)).1.symm

set_option maxRecDepth 100000 in
/-- C23, witness: a stream-on with a pixel code the driver does not know fails in the
timing update with `-EINVAL`, and a stream-on of the probe state on a bus whose transfers
fail with `-5` fails in the first register write. -/
theorem galileo2_s_stream_on_failure_witness :
    unknown_code_state.streaming = false ∧
    (∃ g', galileo2_s_stream quiet_bus unknown_code_state 1 = some (-22, g') ∧
      g'.streaming = false) ∧
    ∃ g', galileo2_s_stream failing_bus (probe_state 26000000 4) 1 = some (-5, g') ∧
      g'.streaming = false :=
  ⟨rfl,
   ⟨_, rfl, (galileo2_s_stream_on_failure quiet_bus unknown_code_state _ (-22) rfl
      rfl (by decide)).2.1⟩,
   ⟨_, rfl, (galileo2_s_stream_on_failure failing_bus (probe_state 26000000 4) _ (-5) rfl
      rfl (by decide)).2.1⟩⟩

set_option maxRecDepth 100000 in
/-- C24, as stated, fails: for the probe defaults (crop and format 7716 x 5364, 30
frames per second, four lanes, refclk 26 MHz) `galileo2_update_timings` returns 0 with the
clock targets vtclk 1329973920 and mipiclk 1662467400, both above their fixed ranges, for
which `galileo2_calc_plls` returns `-EINVAL`; the stream-on with these stale timings
returns 0 and leaves the sensor streaming. -/
theorem galileo2_s_stream_infeasible_targets :
    (probe_state 26000000 4).streaming = false ∧
    (probe_state 26000000 4).timings_uptodate = false ∧
    galileo2_update_timings (probe_state 26000000 4) = some (0, probe_timed_state) ∧
    IS_BETWEEN probe_timed_state.vtclk MIN_VTCLK MAX_VTCLK = false ∧
    IS_BETWEEN probe_timed_state.mipiclk MIN_MIPICLK MAX_MIPICLK = false ∧
    galileo2_calc_plls probe_timed_state = (-EINVAL, probe_timed_state) ∧
    ∃ g', galileo2_s_stream quiet_bus (probe_state 26000000 4) 1 = some (0, g') ∧
      g'.streaming = true ∧ g'.vtclk = 1329973920 ∧ g'.mipiclk = 1662467400 := by
  have hs : calc_plls_sane probe_timed_state = false := by decide
  have ht := galileo2_calc_plls_traced_of_not_sane probe_timed_state hs
  have hc : galileo2_calc_plls probe_timed_state = (-EINVAL, probe_timed_state) := by
    unfold galileo2_calc_plls; rw [ht]
  refine ⟨rfl, rfl, ?_, ?_, ?_, hc, _, rfl, ?_, ?_, ?_⟩ <;> decide

/-- C24, amended: the timing update of a stream-on with stale timings runs no PLL solve.
Whenever `galileo2_update_timings` returns, it returns 0 for the four 10-bit Bayer codes,
storing the fixed `pll1` configuration (1, 720, 6, 12, 6, 6) and marking the timings up
to date, whatever the clock targets are; for every other pixel code it returns `-EINVAL`,
and `galileo2_s_stream` with `enable = 1` then returns `-EINVAL` as well and leaves the
sensor not streaming. -/
theorem galileo2_update_timings_no_solve (bus : i2c_bus) (g g' : galileo2) (ret : Int)
    (hs : g.streaming = false) (ht : g.timings_uptodate = false)
    (h : galileo2_update_timings g = some (ret, g')) :
    (is_bayer10 g.format.code = true →
      ret = 0 ∧ g'.timings_uptodate = true ∧
      g'.pll1 = { pre_pll_clk_div := 1, pll_multiplier := 720, vt_sys_clk_div := 6,
                  vt_pix_clk_div := 12, op_sys_clk_div := 6, op_pix_clk_div := 6 }) ∧
    (is_bayer10 g.format.code = false →
      ret = -EINVAL ∧ galileo2_s_stream bus g 1 = some (-EINVAL, g') ∧
      g'.streaming = false) := by
  have hu := galileo2_update_timings_ret g g' ret h
  refine ⟨hu.2.1, fun hb => ⟨hu.2.2 hb, ?_, by rw [hu.1, hs]⟩⟩
  have hr := hu.2.2 hb
  rw [hr] at h
  unfold galileo2_s_stream
  have h1 : ¬ ((1 : Int) = 0) := by decide
  have h2 : (-EINVAL : Int) < 0 := by decide
  simp only [h1, if_false, ht, if_true, h, h2]

/-- C24, witness: the probe defaults (code `SGBRG10`) and the state `unknown_code_state`
(code 0). -/
theorem galileo2_update_timings_no_solve_witness :
    (probe_state 26000000 4).streaming = false ∧
    (probe_state 26000000 4).timings_uptodate = false ∧
    galileo2_update_timings (probe_state 26000000 4) = some (0, probe_timed_state) ∧
    probe_timed_state.timings_uptodate = true ∧
    ∃ g', galileo2_update_timings unknown_code_state = some (-22, g') ∧
      galileo2_s_stream quiet_bus unknown_code_state 1 = some (-EINVAL, g') :=
  ⟨rfl, rfl, by decide,
   ((galileo2_update_timings_no_solve quiet_bus (probe_state 26000000 4) probe_timed_state 0
      rfl rfl (by decide)).1 (by decide)).2.1,
   _, rfl,
   ((galileo2_update_timings_no_solve quiet_bus unknown_code_state _ (-22) rfl rfl rfl).2
      (by decide)).2.1⟩

/-! ## Ties in the search -/

/-- One iteration preserves the invariant on ties. -/
theorem pll_inv_last_step (keep_fps : Int) (refclk tvt tmipi : Nat) (b : pll_best)
    (l : List pll_cand) (c : pll_cand)
    (hb : pll_inv_last (pll_score keep_fps refclk tvt tmipi) b l)
    (hinit : b.ret ≠ 0 → b.best_error < 0) :
    pll_inv_last (pll_score keep_fps refclk tvt tmipi) (pll_step keep_fps refclk tvt tmipi b c)
      (l ++ [c]) ∧
    ((pll_step keep_fps refclk tvt tmipi b c).ret ≠ 0 →
      (pll_step keep_fps refclk tvt tmipi b c).best_error < 0) := by
  unfold pll_step
  cases hs : pll_error keep_fps tvt tmipi (cand_vtclk refclk c) (cand_mipiclk refclk c) with
  | none =>
    have hs' : pll_score keep_fps refclk tvt tmipi c = none := hs
    refine ⟨fun h => ?_, hinit⟩
    obtain ⟨l1, l2, hl, hsc, hlt⟩ := hb h
    refine ⟨l1, l2 ++ [c], by rw [hl, List.append_assoc, List.cons_append], hsc, ?_⟩
    intro c' hc' e he
    rcases List.mem_append.mp hc' with h' | h'
    · exact hlt c' h' e he
    · rw [List.mem_singleton.mp h', hs'] at he; cases he
  | some e =>
    have hs' : pll_score keep_fps refclk tvt tmipi c = some e := hs
    simp only [pll_update]
    by_cases hu : e ≤ b.best_error ∨ b.best_error < 0
    · rw [if_pos hu]
      refine ⟨fun _ => ⟨l, [], rfl, hs', ?_⟩, fun h => absurd rfl h⟩
      intro c' hc'; cases hc'
    · rw [if_neg hu]
      have hu1 : b.best_error < e := by
        by_contra hcon; exact hu (Or.inl (not_lt.mp hcon))
      refine ⟨fun h => ?_, hinit⟩
      obtain ⟨l1, l2, hl, hsc, hlt⟩ := hb h
      refine ⟨l1, l2 ++ [c], by rw [hl, List.append_assoc, List.cons_append], hsc, ?_⟩
      intro c' hc' e' he'
      rcases List.mem_append.mp hc' with h' | h'
      · exact hlt c' h' e' he'
      · rw [List.mem_singleton.mp h', hs'] at he'
        cases he'; exact hu1

/-- The invariant on ties is preserved by any number of iterations. -/
theorem pll_inv_last_foldl (keep_fps : Int) (refclk tvt tmipi : Nat) (l2 : List pll_cand) :
    ∀ (l1 : List pll_cand) (b : pll_best),
      pll_inv_last (pll_score keep_fps refclk tvt tmipi) b l1 →
      (b.ret ≠ 0 → b.best_error < 0) →
      pll_inv_last (pll_score keep_fps refclk tvt tmipi)
        (l2.foldl (pll_step keep_fps refclk tvt tmipi) b) (l1 ++ l2) := by
  induction l2 with
  | nil => intro l1 b hb _; rw [List.append_nil]; exact hb
  | cons c cs ih =>
    intro l1 b hb hi
    have h1 := pll_inv_last_step keep_fps refclk tvt tmipi b l1 c hb hi
    have h2 := ih (l1 ++ [c]) _ h1.1 h1.2
    rw [List.append_assoc, List.singleton_append] at h2
    exact h2

/-- The combination a successful search records is the last one, in iteration order,
among the combinations with the recorded error: every combination visited after it has a
strictly larger error or was skipped. -/
theorem pll_search_last (keep_fps : Int) (refclk tvt tmipi : Nat)
    (hok : (pll_search keep_fps refclk tvt tmipi).ret = 0) :
    ∃ l1 l2, pll_candidates refclk =
        l1 ++ pll_best_cand (pll_search keep_fps refclk tvt tmipi) :: l2 ∧
      pll_score keep_fps refclk tvt tmipi (pll_best_cand (pll_search keep_fps refclk tvt tmipi)) =
        some (pll_search keep_fps refclk tvt tmipi).best_error ∧
      ∀ c ∈ l2, ∀ e, pll_score keep_fps refclk tvt tmipi c = some e →
        (pll_search keep_fps refclk tvt tmipi).best_error < e := by
  have h := pll_inv_last_foldl keep_fps refclk tvt tmipi (pll_candidates refclk) []
    pll_best_init (fun h => absurd h (by decide)) (fun _ => by decide)
  rw [List.nil_append, ← pll_search_eq_foldl] at h
  exact h hok

/-- C28, as stated, fails: for refclk 26 MHz and the targets 100 MHz, 500 MHz with
`keep_fps = 1` the minimal error sum is 600000 and the search selects (4, 308, 4, 5, 2),
although the admissible combination (1, 77, 2, 10, 2), which has the same error sum, is
visited before it (it is in the part of the iteration order that precedes the selected
combination). -/
theorem galileo2_pll_brute_force_first_tie_replaced :
    (galileo2_pll_brute_force reference_target_state 1).1 = 0 ∧
    pll_selected reference_target_state 1 = { p := 4, m := 308, vts := 4, vtp := 5, op := 2 } ∧
    pll_admissible 26000000 { p := 1, m := 77, vts := 2, vtp := 10, op := 2 } ∧
    pll_score 1 26000000 100000000 500000000 { p := 1, m := 77, vts := 2, vtp := 10, op := 2 } =
      some 600000 ∧
    pll_score 1 26000000 100000000 500000000 { p := 4, m := 308, vts := 4, vtp := 5, op := 2 } =
      some 600000 ∧
    ∃ l1 l2, pll_candidates 26000000 =
        l1 ++ { p := 4, m := 308, vts := 4, vtp := 5, op := 2 } :: l2 ∧
      { p := 1, m := 77, vts := 2, vtp := 10, op := 2 } ∈ l1 := by
  have hs : pll_search 1 reference_target_state.pdata.refclk reference_target_state.vtclk
      reference_target_state.mipiclk =
      { ret := 0, best_error := 600000, best_p := 4, best_m := 308, best_vts := 4,
        best_vtp := 5, best_op := 2 } := pll_search_reference
  have hs' : pll_search 1 26000000 100000000 500000000 =
      { ret := 0, best_error := 600000, best_p := 4, best_m := 308, best_vts := 4,
        best_vtp := 5, best_op := 2 } := pll_search_reference
  have hsel : pll_selected reference_target_state 1 =
      { p := 4, m := 308, vts := 4, vtp := 5, op := 2 } := by
    unfold pll_selected; rw [hs]; rfl
  have hbf := galileo2_pll_brute_force_of_search reference_target_state 1 _ hs rfl
  have hadm : pll_admissible 26000000 { p := 1, m := 77, vts := 2, vtp := 10, op := 2 } := by
    decide
  have hadm2 : pll_admissible 26000000 { p := 4, m := 308, vts := 4, vtp := 5, op := 2 } := by
    decide
  have hsc : pll_score 1 26000000 100000000 500000000
      { p := 1, m := 77, vts := 2, vtp := 10, op := 2 } = some 600000 := by
    rw [pll_score_of_small 1 26000000 100000000 500000000 _ (by norm_num) (by norm_num) hadm]
    decide
  have hsc2 : pll_score 1 26000000 100000000 500000000
      { p := 4, m := 308, vts := 4, vtp := 5, op := 2 } = some 600000 := by
    rw [pll_score_of_small 1 26000000 100000000 500000000 _ (by norm_num) (by norm_num) hadm2]
    decide
  refine ⟨by rw [hbf], hsel, hadm, hsc, hsc2, ?_⟩
  have hok : (pll_search 1 26000000 100000000 500000000).ret = 0 := by rw [hs']
  obtain ⟨l1, l2, hl, _, hlt⟩ := pll_search_last 1 26000000 100000000 500000000 hok
  rw [hs'] at hl hlt
  have hl' : pll_candidates 26000000 =
      l1 ++ { p := 4, m := 308, vts := 4, vtp := 5, op := 2 } :: l2 := hl
  refine ⟨l1, l2, hl', ?_⟩
  have hmem : ({ p := 1, m := 77, vts := 2, vtp := 10, op := 2 } : pll_cand) ∈
      pll_candidates 26000000 := (mem_pll_candidates _ _).mpr hadm
  rw [hl'] at hmem
  rcases List.mem_append.mp hmem with h | h
  · exact h
  · exfalso
    rcases List.mem_cons.mp h with h | h
    · exact absurd h (by decide)
    · have := hlt _ h 600000 hsc
      exact absurd this (by decide)

/-- C28, amended: when `galileo2_pll_brute_force` succeeds on targets not above the
hardware maxima, the combination it selects is the last one, in the iteration order
(pre-divider, multiplier, vt-system divider, vt-pixel divider, output-system divider, outer
to inner), among the admissible combinations with the minimal error sum: no combination
visited before it has a smaller error, and every combination visited after it has a
strictly larger one.  A combination whose error equals the recorded one always replaces
the recorded combination. -/
theorem galileo2_pll_brute_force_last_tie (g : galileo2) (keep_fps : Int)
    (hvt : g.vtclk ≤ MAX_VTCLK) (hmipi : g.mipiclk ≤ MAX_MIPICLK)
    (hok : (galileo2_pll_brute_force g keep_fps).1 = 0) :
    (∃ l1 l2, pll_candidates g.pdata.refclk = l1 ++ pll_selected g keep_fps :: l2 ∧
      pll_score keep_fps g.pdata.refclk g.vtclk g.mipiclk (pll_selected g keep_fps) =
        some (pll_search keep_fps g.pdata.refclk g.vtclk g.mipiclk).best_error ∧
      (∀ c ∈ l1, ∀ e, pll_score keep_fps g.pdata.refclk g.vtclk g.mipiclk c = some e →
        (pll_search keep_fps g.pdata.refclk g.vtclk g.mipiclk).best_error ≤ e) ∧
      (∀ c ∈ l2, ∀ e, pll_score keep_fps g.pdata.refclk g.vtclk g.mipiclk c = some e →
        (pll_search keep_fps g.pdata.refclk g.vtclk g.mipiclk).best_error < e)) ∧
    (∀ (b : pll_best) (p m vts vtp op : Nat),
      pll_update b b.best_error p m vts vtp op =
        { ret := 0, best_error := b.best_error, best_p := p, best_m := m, best_vts := vts,
          best_vtp := vtp, best_op := op }) := by
  have h1 : g.vtclk < 2 ^ 30 := lt_of_le_of_lt hvt (by decide)
  have h2 : g.mipiclk < 2 ^ 30 := lt_of_le_of_lt hmipi (by decide)
  rw [galileo2_pll_brute_force_ret] at hok
  have hmin := (pll_search_selected keep_fps g.pdata.refclk g.vtclk g.mipiclk h1 h2 hok).2.2
  obtain ⟨l1, l2, hl, hsc, hlt⟩ := pll_search_last keep_fps g.pdata.refclk g.vtclk g.mipiclk hok
  refine ⟨⟨l1, l2, hl, hsc, ?_, hlt⟩, ?_⟩
  · intro c hc e he
    have hmem : c ∈ pll_candidates g.pdata.refclk := by
      rw [hl]; exact List.mem_append_left _ hc
    exact hmin c e ((mem_pll_candidates _ _).mp hmem) he
  · intro b p m vts vtp op
    unfold pll_update
    rw [if_pos (Or.inl (le_refl _))]

/-- C28, witness: the reference targets with `keep_fps = 1`. -/
theorem galileo2_pll_brute_force_last_tie_witness :
    reference_target_state.vtclk ≤ MAX_VTCLK ∧ reference_target_state.mipiclk ≤ MAX_MIPICLK ∧
    (galileo2_pll_brute_force reference_target_state 1).1 = 0 ∧
    ∀ (b : pll_best) (p m vts vtp op : Nat),
      pll_update b b.best_error p m vts vtp op =
        { ret := 0, best_error := b.best_error, best_p := p, best_m := m, best_vts := vts,
          best_vtp := vtp, best_op := op } :=
  have hs : pll_search 1 reference_target_state.pdata.refclk reference_target_state.vtclk
      reference_target_state.mipiclk =
      { ret := 0, best_error := 600000, best_p := 4, best_m := 308, best_vts := 4,
        best_vtp := 5, best_op := 2 } := pll_search_reference
  have h1 : (galileo2_pll_brute_force reference_target_state 1).1 = 0 := by
    rw [galileo2_pll_brute_force_of_search reference_target_state 1 _ hs rfl]
  ⟨by decide, by decide, h1,
    (galileo2_pll_brute_force_last_tie reference_target_state 1 (by decide) (by decide) h1).2⟩

/-! ## Real clocks of the combinations -/

/-- C27: for refclk 26 MHz, target vtclk 20 MHz, target mipiclk 82.5 MHz and
`keep_fps = 0`, `galileo2_pll_brute_force` succeeds and selects the combination
(2, 813, 12, 8, 12).  Its PLL input is 13 MHz and the exact product `13000000 * 813` is
10569000000, above `MAX_PLL_OP_CLK`; the search range-checks the product reduced to 32
bits, 1979065408.  In the same way the combination (1, 204, 1, 4, 2) passes the four
range checks although `26000000 * 204 = 5304000000`. -/
theorem galileo2_pll_brute_force_wrapped_multiplier :
    (galileo2_pll_brute_force low_mipiclk_state 0).1 = 0 ∧
    pll_selected low_mipiclk_state 0 = { p := 2, m := 813, vts := 12, vtp := 8, op := 12 } ∧
    pll_admissible 26000000 (pll_selected low_mipiclk_state 0) ∧
    cand_pll_in_clk 26000000 (pll_selected low_mipiclk_state 0) = 13000000 ∧
    13000000 * 813 = 10569000000 ∧ MAX_PLL_OP_CLK < 13000000 * 813 ∧
    cand_pll_op_clk 26000000 (pll_selected low_mipiclk_state 0) = 1979065408 ∧
    10569000000 % 2 ^ 32 = 1979065408 ∧
    pll_admissible 26000000 { p := 1, m := 204, vts := 1, vtp := 4, op := 2 } ∧
    MAX_PLL_OP_CLK < 26000000 / 1 * 204 := by
  have hs : pll_search 0 low_mipiclk_state.pdata.refclk low_mipiclk_state.vtclk
      low_mipiclk_state.mipiclk =
      { ret := 0, best_error := 654206, best_p := 2, best_m := 813, best_vts := 12,
        best_vtp := 8, best_op := 12 } := pll_search_low_mipiclk
  have hsel : pll_selected low_mipiclk_state 0 =
      { p := 2, m := 813, vts := 12, vtp := 8, op := 12 } := by
    unfold pll_selected; rw [hs]; rfl
  have hbf := galileo2_pll_brute_force_of_search low_mipiclk_state 0 _ hs rfl
  refine ⟨by rw [hbf], hsel, ?_, ?_, by decide, by decide, ?_, by decide, by decide, by decide⟩
  · rw [hsel]; decide
  · rw [hsel]; decide
  · rw [hsel]; decide

/-! ## Stored and scored clocks -/

/-- Kernel evaluation of the search for refclk 6000001 Hz and targets 240 MHz, 300 MHz,
`keep_fps = 1`. -/
theorem pll_search_nat_odd_refclk :
    pll_search_nat true 6000001 240000000 300000000 =
      { found := true, err := 0, p := 2, m := 400, vts := 1, vtp := 5, op := 2 } := by
  decide!

/-- Result of the search of the source for the targets of `odd_refclk_state`. -/
theorem pll_search_odd_refclk :
    pll_search 1 6000001 240000000 300000000 =
      { ret := 0, best_error := 0, best_p := 2, best_m := 400, best_vts := 1,
        best_vtp := 5, best_op := 2 } := by
  rw [pll_search_eq_nat 1 6000001 240000000 300000000 (by norm_num) (by norm_num)]
  have hk : decide ((1 : Int) = 1) = true := by decide
  rw [hk, pll_search_nat_odd_refclk]
  rfl

/-- The combination a successful search records passes the four range checks. -/
theorem pll_search_admissible (keep_fps : Int) (refclk tvt tmipi : Nat)
    (hok : (pll_search keep_fps refclk tvt tmipi).ret = 0) :
    pll_admissible refclk (pll_best_cand (pll_search keep_fps refclk tvt tmipi)) := by
  obtain ⟨l1, l2, hl, _, _⟩ := pll_search_last keep_fps refclk tvt tmipi hok
  apply (mem_pll_candidates _ _).mp
  rw [hl]
  exact List.mem_append_right _ (List.mem_cons_self _ _)

/-- The one-shot quotient is never below the nested truncating quotients, and equals
them when the pre-divider divides the reference clock. -/
theorem one_shot_div (refclk p m a b : Nat) (hp : 0 < p) :
    refclk / p * m / a / b ≤ refclk * m / (p * a * b) ∧
    (p ∣ refclk → refclk * m / (p * a * b) = refclk / p * m / a / b) := by
  have h1 : refclk / p * m ≤ refclk * m / p := by
    rw [Nat.le_div_iff_mul_le hp]
    calc refclk / p * m * p = refclk / p * p * m := by ring
      _ ≤ refclk * m := Nat.mul_le_mul_right _ (Nat.div_mul_le_self _ _)
  have h2 : refclk * m / (p * a * b) = refclk * m / p / a / b := by
    rw [Nat.div_div_eq_div_mul, Nat.div_div_eq_div_mul, Nat.mul_assoc]
  constructor
  · rw [h2]
    exact Nat.div_le_div_right (Nat.div_le_div_right h1)
  · intro hd
    obtain ⟨k, hk⟩ := hd
    rw [h2, hk, Nat.mul_div_cancel_left _ hp, Nat.mul_assoc, Nat.mul_div_cancel_left _ hp]

/-- C29, as stated, fails.  For refclk 26 MHz and the reference targets the winning
combination is (4, 308, 4, 5, 2): the search scored vtclk 100100000 and mipiclk
500500000, and the stored clocks are 46412908 and 232064544, because `26000000 * 308` is
reduced to 32 bits.  For refclk 6000001 Hz and the targets 240 MHz, 300 MHz the winning
combination is (2, 400, 1, 5, 2) and `6000001 * 400` is below `2 ^ 32`: the search scored
240000000 and 300000000, and the stored clocks are 240000040 and 300000050, because the
search truncates `refclk / 2` first. -/
theorem galileo2_pll_brute_force_stored_differs :
    (MIN_REFCLK ≤ 26000000 ∧ 26000000 ≤ MAX_REFCLK) ∧
    (galileo2_pll_brute_force reference_target_state 1).1 = 0 ∧
    pll_selected reference_target_state 1 = { p := 4, m := 308, vts := 4, vtp := 5, op := 2 } ∧
    (galileo2_pll_brute_force reference_target_state 1).2.vtclk = 46412908 ∧
    cand_vtclk 26000000 (pll_selected reference_target_state 1) = 100100000 ∧
    (galileo2_pll_brute_force reference_target_state 1).2.mipiclk = 232064544 ∧
    cand_mipiclk 26000000 (pll_selected reference_target_state 1) = 500500000 ∧
    (MIN_REFCLK ≤ 6000001 ∧ 6000001 ≤ MAX_REFCLK) ∧
    (galileo2_pll_brute_force odd_refclk_state 1).1 = 0 ∧
    pll_selected odd_refclk_state 1 = { p := 2, m := 400, vts := 1, vtp := 5, op := 2 } ∧
    6000001 * 400 < 2 ^ 32 ∧
    (galileo2_pll_brute_force odd_refclk_state 1).2.vtclk = 240000040 ∧
    cand_vtclk 6000001 (pll_selected odd_refclk_state 1) = 240000000 ∧
    (galileo2_pll_brute_force odd_refclk_state 1).2.mipiclk = 300000050 ∧
    cand_mipiclk 6000001 (pll_selected odd_refclk_state 1) = 300000000 := by
  have hs : pll_search 1 reference_target_state.pdata.refclk reference_target_state.vtclk
      reference_target_state.mipiclk =
      { ret := 0, best_error := 600000, best_p := 4, best_m := 308, best_vts := 4,
        best_vtp := 5, best_op := 2 } := pll_search_reference
  have hsel : pll_selected reference_target_state 1 =
      { p := 4, m := 308, vts := 4, vtp := 5, op := 2 } := by
    unfold pll_selected; rw [hs]; rfl
  have hbf := galileo2_pll_brute_force_of_search reference_target_state 1 _ hs rfl
  have hs2 : pll_search 1 odd_refclk_state.pdata.refclk odd_refclk_state.vtclk
      odd_refclk_state.mipiclk =
      { ret := 0, best_error := 0, best_p := 2, best_m := 400, best_vts := 1,
        best_vtp := 5, best_op := 2 } := pll_search_odd_refclk
  have hsel2 : pll_selected odd_refclk_state 1 =
      { p := 2, m := 400, vts := 1, vtp := 5, op := 2 } := by
    unfold pll_selected; rw [hs2]; rfl
  have hbf2 := galileo2_pll_brute_force_of_search odd_refclk_state 1 _ hs2 rfl
  refine ⟨by decide, by rw [hbf], hsel, ?_, ?_, ?_, ?_, by decide, by rw [hbf2], hsel2,
    by norm_num, ?_, ?_, ?_, ?_⟩
  · rw [hbf, pll_store_vtclk]; decide
  · rw [hsel]; decide
  · rw [hbf, pll_store_mipiclk]; decide
  · rw [hsel]; decide
  · rw [hbf2, pll_store_vtclk]; decide
  · rw [hsel2]; decide
  · rw [hbf2, pll_store_mipiclk]; decide
  · rw [hsel2]; decide

/-- C29, amended: for every reference clock and every winning combination
(p, m, vts, vtp, op) such that the product `refclk * m` is below `2 ^ 32`, the clocks
`galileo2_pll_brute_force` stores are `refclk * m / (p * vts * vtp)` and
`refclk * m / (p * op * 2)`, the clocks the search range-checked and scored are
`refclk / p * m / vts / vtp` and `refclk / p * m / op / 2`, the stored clocks are not
below the scored ones, and they are equal when p divides refclk. -/
theorem galileo2_pll_brute_force_stored_clocks (g : galileo2) (keep_fps : Int)
    (hok : (galileo2_pll_brute_force g keep_fps).1 = 0)
    (hw : g.pdata.refclk * (pll_selected g keep_fps).m < 2 ^ 32) :
    (galileo2_pll_brute_force g keep_fps).2.vtclk =
      g.pdata.refclk * (pll_selected g keep_fps).m /
        ((pll_selected g keep_fps).p * (pll_selected g keep_fps).vts *
          (pll_selected g keep_fps).vtp) ∧
    (galileo2_pll_brute_force g keep_fps).2.mipiclk =
      g.pdata.refclk * (pll_selected g keep_fps).m /
        ((pll_selected g keep_fps).p * (pll_selected g keep_fps).op * 2) ∧
    cand_vtclk g.pdata.refclk (pll_selected g keep_fps) =
      g.pdata.refclk / (pll_selected g keep_fps).p * (pll_selected g keep_fps).m /
        (pll_selected g keep_fps).vts / (pll_selected g keep_fps).vtp ∧
    cand_mipiclk g.pdata.refclk (pll_selected g keep_fps) =
      g.pdata.refclk / (pll_selected g keep_fps).p * (pll_selected g keep_fps).m /
        (pll_selected g keep_fps).op / 2 ∧
    cand_vtclk g.pdata.refclk (pll_selected g keep_fps) ≤
      (galileo2_pll_brute_force g keep_fps).2.vtclk ∧
    cand_mipiclk g.pdata.refclk (pll_selected g keep_fps) ≤
      (galileo2_pll_brute_force g keep_fps).2.mipiclk ∧
    ((pll_selected g keep_fps).p ∣ g.pdata.refclk →
      (galileo2_pll_brute_force g keep_fps).2.vtclk =
        cand_vtclk g.pdata.refclk (pll_selected g keep_fps) ∧
      (galileo2_pll_brute_force g keep_fps).2.mipiclk =
        cand_mipiclk g.pdata.refclk (pll_selected g keep_fps)) := by
  have hst := galileo2_pll_brute_force_state_of_ok g keep_fps hok
  rw [galileo2_pll_brute_force_ret] at hok
  have hadm : pll_admissible g.pdata.refclk (pll_selected g keep_fps) :=
    pll_search_admissible keep_fps g.pdata.refclk g.vtclk g.mipiclk hok
  have hd := pll_admissible_divisors _ _ hadm
  have hp : 0 < (pll_selected g keep_fps).p := by
    have := hadm.1
    simp only [pre_pll_div, List.mem_cons, List.mem_singleton, List.not_mem_nil, or_false] at this
    omega
  have hu : ulong (g.pdata.refclk * (pll_selected g keep_fps).m) =
      g.pdata.refclk * (pll_selected g keep_fps).m := Nat.mod_eq_of_lt hw
  have hle : g.pdata.refclk / (pll_selected g keep_fps).p * (pll_selected g keep_fps).m ≤
      g.pdata.refclk * (pll_selected g keep_fps).m :=
    Nat.mul_le_mul_right _ (Nat.div_le_self _ _)
  have hu' : ulong (g.pdata.refclk / (pll_selected g keep_fps).p * (pll_selected g keep_fps).m) =
      g.pdata.refclk / (pll_selected g keep_fps).p * (pll_selected g keep_fps).m :=
    Nat.mod_eq_of_lt (lt_of_le_of_lt hle hw)
  have hv : (galileo2_pll_brute_force g keep_fps).2.vtclk =
      g.pdata.refclk * (pll_selected g keep_fps).m /
        ((pll_selected g keep_fps).p * (pll_selected g keep_fps).vts *
          (pll_selected g keep_fps).vtp) := by
    rw [hst, pll_store_vtclk]
    exact (congrArg₂ (· / ·) hu hd.1)
  have hm : (galileo2_pll_brute_force g keep_fps).2.mipiclk =
      g.pdata.refclk * (pll_selected g keep_fps).m /
        ((pll_selected g keep_fps).p * (pll_selected g keep_fps).op * 2) := by
    rw [hst, pll_store_mipiclk]
    exact (congrArg₂ (· / ·) hu hd.2)
  have hcv : cand_vtclk g.pdata.refclk (pll_selected g keep_fps) =
      g.pdata.refclk / (pll_selected g keep_fps).p * (pll_selected g keep_fps).m /
        (pll_selected g keep_fps).vts / (pll_selected g keep_fps).vtp := by
    unfold cand_vtclk cand_vt_sys_clk cand_pll_op_clk
    rw [hu']
  have hcm : cand_mipiclk g.pdata.refclk (pll_selected g keep_fps) =
      g.pdata.refclk / (pll_selected g keep_fps).p * (pll_selected g keep_fps).m /
        (pll_selected g keep_fps).op / 2 := by
    unfold cand_mipiclk cand_pll_op_clk
    rw [hu']
  have ov := one_shot_div g.pdata.refclk (pll_selected g keep_fps).p (pll_selected g keep_fps).m
    (pll_selected g keep_fps).vts (pll_selected g keep_fps).vtp hp
  have om := one_shot_div g.pdata.refclk (pll_selected g keep_fps).p (pll_selected g keep_fps).m
    (pll_selected g keep_fps).op 2 hp
  refine ⟨hv, hm, hcv, hcm, ?_, ?_, fun hdvd => ⟨?_, ?_⟩⟩
  · rw [hv, hcv]; exact ov.1
  · rw [hm, hcm]; exact om.1
  · rw [hv, hcv]; exact ov.2 hdvd
  · rw [hm, hcm]; exact om.2 hdvd

/-- C29, witness: `round_trip_state` with `keep_fps = 0`; the winning combination is
(4, 154, 6, 7, 4), `26000000 * 154` is below `2 ^ 32` and 4 divides 26000000. -/
theorem galileo2_pll_brute_force_stored_clocks_witness :
    (galileo2_pll_brute_force round_trip_state 0).1 = 0 ∧
    round_trip_state.pdata.refclk * (pll_selected round_trip_state 0).m < 2 ^ 32 ∧
    (pll_selected round_trip_state 0).p ∣ round_trip_state.pdata.refclk ∧
    (galileo2_pll_brute_force round_trip_state 0).2.vtclk =
      cand_vtclk round_trip_state.pdata.refclk (pll_selected round_trip_state 0) ∧
    (galileo2_pll_brute_force round_trip_state 0).2.mipiclk =
      cand_mipiclk round_trip_state.pdata.refclk (pll_selected round_trip_state 0) :=
  have hs : pll_search 0 round_trip_state.pdata.refclk round_trip_state.vtclk
      round_trip_state.mipiclk =
      { ret := 0, best_error := 5291667, best_p := 4, best_m := 154, best_vts := 6,
        best_vtp := 7, best_op := 4 } := pll_search_round_trip
  have h1 : (galileo2_pll_brute_force round_trip_state 0).1 = 0 := by
    rw [galileo2_pll_brute_force_of_search round_trip_state 0 _ hs rfl]
  have hsel : pll_selected round_trip_state 0 =
      { p := 4, m := 154, vts := 6, vtp := 7, op := 4 } := by
    unfold pll_selected; rw [hs]; rfl
  have hw : round_trip_state.pdata.refclk * (pll_selected round_trip_state 0).m < 2 ^ 32 := by
    rw [hsel]; show (26000000 : Nat) * 154 < 2 ^ 32; norm_num
  have hd : (pll_selected round_trip_state 0).p ∣ round_trip_state.pdata.refclk := by
    rw [hsel]; show (4 : Nat) ∣ 26000000; exact ⟨6500000, by norm_num⟩
  ⟨h1, hw, hd,
    ((galileo2_pll_brute_force_stored_clocks round_trip_state 0 h1 hw).2.2.2.2.2.2 hd).1,
    ((galileo2_pll_brute_force_stored_clocks round_trip_state 0 h1 hw).2.2.2.2.2.2 hd).2⟩

end Galileo2
